import Mathlib

/-!
# a0-otpus-prime: capability tokens, bearer middleware, binding reconciliation

A shallow embedding of the Go sources under `server/internal`:

* `utils/crypto.go`     : `GenerateHMAC`, `ValidateHMAC`, `GenerateAuth0DomainToken`
* `utils/random.go`     : `GenerateRandomString`, `IsValidDomain`
* `api/middleware`      : `ValidateHMACToken`
* `auth0/action.go`     : `EnablePhoneExtensibility`, `UpdatePhoneActionTypeBased`,
  `getAction`, `deployAction`, `updateBindings`, `ActivateCustomPhoneProvider`
* `auth0/client.go`     : `InitiateDeviceFlow`, `PollDeviceToken`, `GetClientCredentialsToken`
* `api/handlers/authForm.go` : `RenderAuthForm`, `ProcessAuthForm`, `pollForDeviceToken`
* `api/handlers/otp.go` : `HandleOTPWebhook`, `formatTelegramMessage`
* `api/handlers/telegram.go` : `HandleTelegramUpdates`, `handleMessage`, `handleCallbackQuery`

Conventions.  A Go `string` is a Lean `String`; its byte view `[]byte(s)` is the
UTF-8 encoding `bytesOf s`.  A Go `byte`/`uint32` is a `Nat`, reduced with an
explicit `%` where the Go arithmetic wraps.  The Go standard library functions
the sources call (`crypto/sha256`, `crypto/hmac`, `crypto/subtle`,
`encoding/hex`, `strings.Split`, `fmt.Sprintf`) are embedded as executable
definitions so that every token can be evaluated on concrete inputs.

Code that talks to a remote party is embedded with the answers of that party
as arguments (a `Reply` carries the status, the body and what
`json.Unmarshal` makes of the body) and gives back the actions it takes, in
order, together with its result.
-/

namespace A0Otpus

/-! ## Go strings as byte slices -/

/-- UTF-8 encoding of one code point: the bytes a Go string stores for it. -/
def utf8EncodeRune (c : Nat) : List Nat :=
  if c < 0x80 then [c]
  else if c < 0x800 then [0xC0 + c / 64, 0x80 + c % 64]
  else if c < 0x10000 then [0xE0 + c / 4096, 0x80 + c / 64 % 64, 0x80 + c % 64]
  else [0xF0 + c / 262144, 0x80 + c / 4096 % 64, 0x80 + c / 64 % 64, 0x80 + c % 64]

/-- The Go conversion `[]byte(s)`. -/
def bytesOf (s : String) : List Nat :=
  s.data.flatMap (fun c => utf8EncodeRune c.toNat)

/-! ## crypto/sha256 (FIPS 180-4) -/

namespace sha256

/-- Truncation to `uint32`. -/
def u32 (x : Nat) : Nat := x % 4294967296

/-- Go `bits.RotateLeft32(x, -n)`: rotate a 32-bit word right by `n`. -/
def rotr (x n : Nat) : Nat := u32 ((x >>> n) ||| (x <<< (32 - n)))

/-- The round constants `_K` (from `0x428a2f98` to `0xc67178f2`), written in decimal. -/
def K : List Nat := [
  1116352408, 1899447441, 3049323471, 3921009573, 961987163, 1508970993,
  2453635748, 2870763221, 3624381080, 310598401, 607225278, 1426881987,
  1925078388, 2162078206, 2614888103, 3248222580, 3835390401, 4022224774,
  264347078, 604807628, 770255983, 1249150122, 1555081692, 1996064986,
  2554220882, 2821834349, 2952996808, 3210313671, 3336571891, 3584528711,
  113926993, 338241895, 666307205, 773529912, 1294757372, 1396182291,
  1695183700, 1986661051, 2177026350, 2456956037, 2730485921, 2820302411,
  3259730800, 3345764771, 3516065817, 3600352804, 4094571909, 275423344,
  430227734, 506948616, 659060556, 883997877, 958139571, 1322822218,
  1537002063, 1747873779, 1955562222, 2024104815, 2227730452, 2361852424,
  2428436474, 2756734187, 3204031479, 3329325298]

/-- The chaining value `h [8]uint32` of a digest. -/
structure State where
  a : Nat
  b : Nat
  c : Nat
  d : Nat
  e : Nat
  f : Nat
  g : Nat
  h : Nat
deriving DecidableEq, Repr

/-- The initial chaining value `init0 .. init7` (`0x6a09e667` to `0x5be0cd19`), in decimal. -/
def init : State :=
  ⟨1779033703, 3144134277, 1013904242, 2773480762, 1359893119, 2600822924, 528734635, 1541459225⟩

/-- Message schedule `w[16..]`: `win` is the window of the last sixteen words,
oldest first; each step emits `w[i] = s1(w[i-2]) + w[i-7] + s0(w[i-15]) + w[i-16]`. -/
def schedule : Nat → List Nat → List Nat
  | 0, _ => []
  | n + 1, win =>
    let v1 := win.getD 14 0
    let t1 := (rotr v1 17) ^^^ (rotr v1 19) ^^^ (v1 >>> 10)
    let v2 := win.getD 1 0
    let t2 := (rotr v2 7) ^^^ (rotr v2 18) ^^^ (v2 >>> 3)
    let x := u32 (t1 + win.getD 9 0 + t2 + win.getD 0 0)
    x :: schedule n (win.drop 1 ++ [x])

/-- One of the 64 rounds; `kw` is `_K[i] + w[i]`. -/
def round (s : State) (kw : Nat) : State :=
  let t1 := s.h + ((rotr s.e 6) ^^^ (rotr s.e 11) ^^^ (rotr s.e 25)) +
    ((s.e &&& s.f) ^^^ ((s.e ^^^ 4294967295) &&& s.g)) + kw
  let t2 := ((rotr s.a 2) ^^^ (rotr s.a 13) ^^^ (rotr s.a 22)) +
    ((s.a &&& s.b) ^^^ (s.a &&& s.c) ^^^ (s.b &&& s.c))
  ⟨u32 (t1 + t2), s.a, s.b, s.c, u32 (s.d + t1), s.e, s.f, s.g⟩

/-- The compression of one 64-byte block, given as sixteen big-endian words. -/
def block (s : State) (w16 : List Nat) : State :=
  let w := w16 ++ schedule 48 w16
  let t := (List.zipWith (fun k x => k + x) K w).foldl round s
  ⟨u32 (s.a + t.a), u32 (s.b + t.b), u32 (s.c + t.c), u32 (s.d + t.d),
   u32 (s.e + t.e), u32 (s.f + t.f), u32 (s.g + t.g), u32 (s.h + t.h)⟩

/-- Big-endian 32-bit words of a byte sequence. -/
def words : List Nat → List Nat
  | a :: b :: c :: d :: rest => (a * 16777216 + b * 65536 + c * 256 + d) :: words rest
  | _ => []

/-- Compress `n` consecutive 64-byte blocks of `p`. -/
def blocks : Nat → State → List Nat → State
  | 0, s, _ => s
  | n + 1, s, p => blocks n (block s (words (p.take 64))) (p.drop 64)

/-- Big-endian bytes of a 32-bit word. -/
def be32 (x : Nat) : List Nat :=
  [x >>> 24 % 256, x >>> 16 % 256, x >>> 8 % 256, x % 256]

/-- Padding for a message of `len` bytes: `0x80`, zeros up to 56 mod 64, then
the bit length as a big-endian `uint64`. -/
def pad (len : Nat) : List Nat :=
  0x80 :: List.replicate ((119 - len % 64) % 64) 0 ++
    (be32 ((len * 8) >>> 32 % 4294967296) ++ be32 (len * 8 % 4294967296))

/-- The digest `sha256.Sum256(m)` as 32 bytes. -/
def Sum256 (m : List Nat) : List Nat :=
  let p := m ++ pad m.length
  let d := blocks (p.length / 64) init p
  be32 d.a ++ be32 d.b ++ be32 d.c ++ be32 d.d ++ be32 d.e ++ be32 d.f ++ be32 d.g ++ be32 d.h

end sha256

/-! ## crypto/hmac, crypto/subtle, encoding/hex -/

/-- A hash function as `crypto/hmac` uses it: its block size and the digest
`Sum` of the bytes written to a fresh instance. -/
structure Hash where
  BlockSize : Nat
  Sum : List Nat → List Nat

/-- Go `sha256.New`. -/
def sha256.New : Hash := { BlockSize := 64, Sum := sha256.Sum256 }

namespace hmac

/-- The state of an `hmac.New(h, key)` object: the hash, the outer pad and the
bytes written so far to the inner hash. -/
structure HMAC where
  hash : Hash
  opad : List Nat
  inner : List Nat

/-- The key copied into a zeroed block of `blocksize` bytes and xored bytewise
with `p`.  The key is not longer than the block: `New` hashes a longer one. -/
def padKey (blocksize : Nat) (key : List Nat) (p : Nat) : List Nat :=
  (key ++ List.replicate (blocksize - key.length) 0).map (fun k => k ^^^ p)

/-- The key `hmac.New` works with: a key longer than the block size is hashed first. -/
def blockKey (h : Hash) (key : List Nat) : List Nat :=
  if key.length > h.BlockSize then h.Sum key else key

/-- Go `hmac.New(h, key)`: the inner hash starts with the ipad block. -/
def New (h : Hash) (key : List Nat) : HMAC :=
  { hash := h
    opad := padKey h.BlockSize (blockKey h key) 0x5c
    inner := padKey h.BlockSize (blockKey h key) 0x36 }

/-- Go `h.Write(p)`. -/
def Write (h : HMAC) (p : List Nat) : HMAC :=
  { h with inner := h.inner ++ p }

/-- Go `h.Sum(b)`: append the MAC to `b`. -/
def Sum (h : HMAC) (b : List Nat) : List Nat :=
  b ++ h.hash.Sum (h.opad ++ h.hash.Sum h.inner)

/-- Go `subtle.ConstantTimeByteEq(x, y)`: `int((uint32(x^y) - 1) >> 31)`. -/
def ConstantTimeByteEq (x y : Nat) : Nat :=
  (((x ^^^ y) % 256 + 4294967296 - 1) % 4294967296) >>> 31

/-- Go `subtle.ConstantTimeCompare(x, y)`. -/
def ConstantTimeCompare (x y : List Nat) : Nat :=
  if x.length ≠ y.length then 0
  else ConstantTimeByteEq ((List.zipWith (fun a b => a ^^^ b) x y).foldl (fun v d => v ||| d) 0) 0

/-- Go `hmac.Equal(mac1, mac2)`. -/
def Equal (mac1 mac2 : List Nat) : Bool :=
  ConstantTimeCompare mac1 mac2 == 1

end hmac

/-- HMAC as RFC 2104 writes it, over a hash `H` with block size `B`:
`H((K0 xor opad) || H((K0 xor ipad) || text))`, where `K0` is the key, hashed
when longer than one block, then zero-padded to `B` bytes. -/
def HMAC_RFC2104 (H : List Nat → List Nat) (B : Nat) (key text : List Nat) : List Nat :=
  H (((if B < key.length then H key else key) ++
        List.replicate (B - (if B < key.length then H key else key).length) 0).map
          (fun b => b ^^^ 0x5c) ++
     H (((if B < key.length then H key else key) ++
        List.replicate (B - (if B < key.length then H key else key).length) 0).map
          (fun b => b ^^^ 0x36) ++ text))

/-- HMAC-SHA256: RFC 2104 over SHA-256, whose block size is 64 bytes. -/
def HMAC_SHA256 (key text : List Nat) : List Nat :=
  HMAC_RFC2104 sha256.Sum256 64 key text

namespace hex

/-- The table `hextable` of `encoding/hex`. -/
def hextable : List Char := "0123456789abcdef".data

/-- Table lookup `hextable[n]`. -/
def digit (n : Nat) : Char := hextable.getD n '0'

/-- Go `hex.EncodeToString(src)`: `hextable[v>>4]`, `hextable[v&0x0f]` per byte. -/
def EncodeToString (src : List Nat) : String :=
  String.mk (src.flatMap (fun v => [digit (v >>> 4), digit (v &&& 0x0f)]))

end hex

/-! ## utils/crypto.go -/

/-- GenerateHMAC creates an HMAC signature for the given data using the provided secret. -/
def GenerateHMAC (data secret : String) : String :=
  let h := hmac.New sha256.New (bytesOf secret)
  let h := hmac.Write h (bytesOf data)
  hex.EncodeToString (hmac.Sum h [])

/-- ValidateHMAC checks if the provided token matches the expected HMAC signature. -/
def ValidateHMAC (data token secret : String) : Bool :=
  let expectedMAC := GenerateHMAC data secret
  hmac.Equal (bytesOf expectedMAC) (bytesOf token)

/-- GenerateAuth0DomainToken generates a bearer token for Auth0 domain and chat id validation. -/
def GenerateAuth0DomainToken (value secret : String) : String :=
  GenerateHMAC value secret

/-- Modelled from the spec: domain canonicalization, "strip scheme and trailing
slash"; the sources define no such function, the name is used only to state
what the specification asks for. -/
def canonicalDomain (d : String) : String :=
  let cs := d.data
  let cs := if cs.take 8 = "https://".data then cs.drop 8
    else if cs.take 7 = "http://".data then cs.drop 7 else cs
  let cs := if cs.getLast? = some '/' then cs.dropLast else cs
  String.mk cs

/-! ## strings.Split and fmt.Sprintf -/

/-- Pieces of a character sequence between the occurrences of `sep`. -/
def splitChars (sep : Char) : List Char → List (List Char)
  | [] => [[]]
  | c :: cs =>
    if c = sep then [] :: splitChars sep cs
    else
      match splitChars sep cs with
      | [] => [[c]]
      | p :: ps => (c :: p) :: ps

/-- Go `strings.Split(s, sep)` for a one-character separator such as `" "`. -/
def stringsSplit (s : String) (sep : Char) : List String :=
  (splitChars sep s.data).map String.mk

/-- The verb `%d` of `fmt.Sprintf` applied to an `int64`. -/
def fmtD (n : Int) : String := toString n

/-! ## api/middleware/middleware.go -/

/-- The part of a `gin.Context` the middleware reads: `GetHeader key` is the
header value, `""` when the header is absent. -/
structure Context where
  GetHeader : String → String

/-- What a middleware does with the request. -/
inductive Handled where
  /-- The call `c.AbortWithStatus(status)`. -/
  | abort (status : Nat)
  /-- The calls `c.Set(k, v)` for each pair of `keys`, then `c.Next()`. -/
  | next (keys : List (String × String))
deriving DecidableEq, Repr

/-- ValidateHMACToken: the handler returned for `secret`, applied to a request. -/
def ValidateHMACToken (secret : String) (c : Context) : Handled :=
  -- Get Authorization header
  let authHeader := c.GetHeader "Authorization"
  if authHeader = "" then .abort 401
  else
    -- Check Bearer token format
    let parts := stringsSplit authHeader ' '
    if parts.length ≠ 2 ∨ parts.getD 0 "" ≠ "Bearer" then .abort 401
    else
      let token := parts.getD 1 ""
      -- Get domain from request
      let domain := c.GetHeader "x-auth0-domain"
      if domain = "" then .abort 401
      else
        let chatID := c.GetHeader "x-chat_id"
        if domain = "" then .abort 401
        else
          -- Validate the token
          let tokenValue := domain ++ ":" ++ chatID
          let expectedToken := GenerateAuth0DomainToken tokenValue secret
          if token ≠ expectedToken then .abort 401
          else
            -- Store validated domain in context for later use
            .next [("auth0_domain", domain), ("chat_id", chatID)]

/-! ## config/config.go, auth0/models.go -/

/-- Config holds all configuration for the application. -/
structure Config where
  BotPort : Int
  BaseURL : String
  TelegramToken : String
  DefaultSecretToken : String
  HMACSecret : String
  Auth0DemoPlatformApiURL : String
  Environment : String

/-- ActionTrigger represents an Auth0 action trigger. -/
structure ActionTrigger where
  ID : String
  Version : String
deriving DecidableEq, Repr

/-- A package the action depends on. -/
structure Dependency where
  Name : String
  Version : String
  RegistryUrl : String
deriving DecidableEq, Repr

/-- A named secret of an action. -/
structure Secret where
  Name : String
  Value : String
deriving DecidableEq, Repr

/-- ActionCreate represents the payload for creating an Auth0 action. -/
structure ActionCreate where
  Name : String
  Code : String
  SupportedTriggers : List ActionTrigger
  Runtime : String
  Secrets : List Secret
  Dependencies : List Dependency
deriving DecidableEq, Repr

/-- The reference of a binding; the Go field `Type` is written `Type_`. -/
structure Ref where
  Type_ : String
  Value : String
deriving DecidableEq, Repr

/-- One trigger binding. -/
structure Binding where
  DisplayName : String
  ID : String
  Ref : Ref
deriving DecidableEq, Repr

/-- The binding list of one trigger. -/
structure ActionBindings where
  Bindings : List Binding
deriving DecidableEq, Repr

/-! ## auth0/action.go -/

/-- The start of `UpdatePhoneActionTypeBased`, up to the `ActionCreate` payload
it sends: the bearer token, the choice of the script by `actionType` (an unknown
type returns an error before anything is built), the four secrets.
`templatesFS path` is the content of the embedded file, `none` when
`ReadFile` fails (the source then stops the process with `log.Fatalf`). -/
def UpdatePhoneActionTypeBased_action (templatesFS : String → Option String)
    (domain : String) (chatID : Int) (cfg : Config)
    (actionName actionType actionTypeVersion : String) : Except String ActionCreate :=
  let postURL := cfg.BaseURL ++ "/auth0/OTPs"
  let tokenValue := domain ++ ":" ++ fmtD chatID
  let bearerToken := GenerateAuth0DomainToken tokenValue cfg.HMACSecret
  let script : Except String (Option String) :=
    if actionType = "custom-phone-provider" then
      .ok (templatesFS "actionTemplates/onExecuteCustomPhoneProvider.js")
    else if actionType = "send-phone-message" then
      .ok (templatesFS "actionTemplates/onExecuteSendPhoneMessage.js")
    else .error ("unknown action type: " ++ actionType)
  match script with
  | .error e => .error e
  | .ok none => .error "fatal: Failed to read Action SourceCode file"
  | .ok (some actionScriptSourceCode) =>
    let secrets : List Secret := []
    let secrets := secrets ++ [{ Name := "BOT_GATEWAY_URL", Value := postURL }]
    let secrets := secrets ++ [{ Name := "BOT_GATEWAY_TOKEN", Value := bearerToken }]
    let secrets := secrets ++ [{ Name := "BOT_GATEWAY_CHAT_ID", Value := fmtD chatID }]
    let secrets := secrets ++ [{ Name := "AUTH0_DOMAIN", Value := domain }]
    .ok {
      Name := actionName
      Code := actionScriptSourceCode
      SupportedTriggers := [{ ID := actionType, Version := actionTypeVersion }]
      Runtime := "node18"
      Secrets := secrets
      Dependencies := [{ Name := "axios", Version := "1.7.7", RegistryUrl := "" }] }

/-- The value of the secret called `name` in an action payload. -/
def secretValue (a : ActionCreate) (name : String) : Option String :=
  (a.Secrets.find? (fun s => s.Name = name)).map (fun s => s.Value)

/-- An HTTP response as far as the callers look at it. -/
structure Response where
  StatusCode : Nat
  Body : String
deriving DecidableEq, Repr

/-- The loop of `updateBindings` over the existing bindings: a binding whose
display name is `actionName` is skipped, any other one is appended to
`newBindings` as a reference to its binding id. -/
def updateBindings_loop (actionName : String) (newBindings : List Binding) :
    List Binding → List Binding
  | [] => newBindings
  | binding :: rest =>
    if binding.DisplayName = actionName then
      updateBindings_loop actionName newBindings rest
    else
      updateBindings_loop actionName
        (newBindings ++ [{ DisplayName := binding.DisplayName, ID := "",
                           Ref := { Type_ := "binding_id", Value := binding.ID } }]) rest

/-- The binding list `updateBindings` builds from the fetched one: the loop,
then the new binding of the action appended. -/
def updateBindings_newBindings (existingBindings : ActionBindings)
    (actionName actionId : String) : ActionBindings :=
  { Bindings := updateBindings_loop actionName [] existingBindings.Bindings ++
      [{ DisplayName := actionName, ID := "",
         Ref := { Type_ := "action_id", Value := actionId } }] }

/-- The run of `updateBindings`: `sent` is the body of the PATCH, when one is
issued; `err` is the returned error, `none` for `nil`. -/
structure UpdateBindingsRun where
  sent : Option ActionBindings
  err : Option String
deriving DecidableEq, Repr

/-- The function `updateBindings`.  `fetched` is the outcome of the GET of the
bindings: a transport error, or the result of `json.Unmarshal` on the body;
`patch body` is the outcome of the PATCH with `body`. -/
def updateBindings (fetched : Except String (Except String ActionBindings))
    (patch : ActionBindings → Except String Response)
    (actionName actionId : String) : UpdateBindingsRun :=
  match fetched with
  | .error e => { sent := none, err := some ("network error fetching bindings: " ++ e) }
  | .ok (.error e) => { sent := none, err := some ("failed to parse bindings response: " ++ e) }
  | .ok (.ok existingBindings) =>
    let newBindings := updateBindings_newBindings existingBindings actionName actionId
    match patch newBindings with
    | .error e => { sent := some newBindings, err := some ("network error updating bindings: " ++ e) }
    | .ok updateResp =>
      if updateResp.StatusCode ≠ 200 then
        { sent := some newBindings, err := some ("HTTP error: " ++ updateResp.Body) }
      else { sent := some newBindings, err := none }

/-- Display names of a binding list, in order. -/
def displayNames (bs : List Binding) : List String := bs.map (fun b => b.DisplayName)

/-- The copy `updateBindings` appends for an existing binding it keeps: the
display name, and a reference to the binding by its id. -/
def keptBinding (b : Binding) : Binding :=
  { DisplayName := b.DisplayName, ID := "", Ref := { Type_ := "binding_id", Value := b.ID } }

deriving instance DecidableEq for Except

/-! ## Concrete inputs used by the evaluated statements -/

/-- A request whose domain header carries a scheme, with the token of the
composite `https://test.auth0.com:555` under the secret `test-secret`. -/
def uncanonicalRequest : Context :=
  { GetHeader := fun key =>
      if key = "Authorization" then
        "Bearer f6746e5968a6e4adb9118e4190710a36903c4b7b8edcd0952ddb460117940798"
      else if key = "x-auth0-domain" then "https://test.auth0.com"
      else if key = "x-chat_id" then "555"
      else "" }

/-- A configuration with the secret of the repository tests. -/
def exampleConfig : Config :=
  { BotPort := 8080, BaseURL := "http://localhost:8080", TelegramToken := "test-token",
    DefaultSecretToken := "a-very-long-default-secret-string", HMACSecret := "test-secret",
    Auth0DemoPlatformApiURL := "", Environment := "" }

/-- An embedded template store that holds the same short script under every path. -/
def exampleTemplates (_ : String) : Option String :=
  some "exports.onExecuteCustomPhoneProvider = async (event, api) => null;"

/-- The payload `UpdatePhoneActionTypeBased` builds for the domain
`test.auth0.com`, the chat id 555 and `exampleConfig`. -/
def exampleAction : ActionCreate :=
  { Name := "Custom Phone Provider"
    Code := "exports.onExecuteCustomPhoneProvider = async (event, api) => null;"
    SupportedTriggers := [{ ID := "custom-phone-provider", Version := "v1" }]
    Runtime := "node18"
    Secrets :=
      [{ Name := "BOT_GATEWAY_URL", Value := "http://localhost:8080/auth0/OTPs" },
       { Name := "BOT_GATEWAY_TOKEN",
         Value := "64eb583ecb7ef9b191d4a073e2384cc31312dd83ece97fcac07e13ed3b1d76c3" },
       { Name := "BOT_GATEWAY_CHAT_ID", Value := "555" },
       { Name := "AUTH0_DOMAIN", Value := "test.auth0.com" }]
    Dependencies := [{ Name := "axios", Version := "1.7.7", RegistryUrl := "" }] }

/-- Two fetched bindings that share the display name `X`. -/
def twoBindingsNamedX : List Binding :=
  [{ DisplayName := "X", ID := "bnd_1", Ref := { Type_ := "", Value := "" } },
   { DisplayName := "X", ID := "bnd_2", Ref := { Type_ := "", Value := "" } }]

/-- Two fetched bindings that share the display name `A`. -/
def twoBindingsNamedA : List Binding :=
  [{ DisplayName := "A", ID := "bnd_1", Ref := { Type_ := "", Value := "" } },
   { DisplayName := "A", ID := "bnd_2", Ref := { Type_ := "", Value := "" } }]

/-! ## Replies of the remote APIs -/

/-- A reply of a remote API as its caller looks at it: the status code, the
body text, and `decoded`, the outcome of `json.Unmarshal(resp.Body(), &v)` for
the value `v` the caller decodes the body into (the error text, or `v`). -/
structure Reply (α : Type) where
  StatusCode : Nat
  Body : String
  decoded : Except String α

/-- The outcome of one request of the shared HTTP client: the transport error
left after its retries, or the reply. -/
abbrev Answer (α : Type) := Except String (Reply α)

/-- A Go `error` value of package `auth0`: the sentinel
`ErrAuthorizationPending`, or an error made by `fmt.Errorf`.  The sentinel is
compared by identity in the source, so no `fmt.Errorf` value equals it. -/
inductive GoError where
  | ErrAuthorizationPending
  | errorf (msg : String)
deriving DecidableEq, Repr

/-- ActionResponse represents the response from the action API. -/
structure ActionResponse where
  ID : String
  Name : String
  SupportedTriggers : List ActionTrigger
  Status : String
  Created : String
  Updated : String
deriving DecidableEq, Repr

/-- ReadActionsResponse: the total number of actions and a list of actions. -/
structure ReadActionsResponse where
  Total : Int
  Actions : List ActionResponse
deriving DecidableEq, Repr

/-- TokenResponse represents the response from the token endpoint. -/
structure TokenResponse where
  AccessToken : String
  TokenType : String
  ExpiresIn : Int
deriving DecidableEq, Repr

/-- DeviceCodeResponse represents the response from the device authorization endpoint. -/
structure DeviceCodeResponse where
  DeviceCode : String
  UserCode : String
  VerificationURI : String
  VerificationURIComplete : String
  ExpiresIn : Int
  Interval : Int
deriving DecidableEq, Repr

/-! ## auth0/client.go -/

/-- InitiateDeviceFlow, given the answer to its POST to `/oauth/device/code`. -/
def InitiateDeviceFlow (resp : Answer DeviceCodeResponse) : Except String DeviceCodeResponse :=
  match resp with
  | .error err => .error ("device flow initiation failed: " ++ err)
  | .ok resp =>
    match resp.decoded with
    | .error err => .error ("failed to parse device code response: " ++ err)
    | .ok response => .ok response

/-- PollDeviceToken, given the answer to its POST to `/oauth/token`. -/
def PollDeviceToken (resp : Answer TokenResponse) : Except GoError TokenResponse :=
  match resp with
  | .error err => .error (.errorf ("token polling failed: " ++ err))
  | .ok resp =>
    if resp.StatusCode = 403 then .error .ErrAuthorizationPending
    else
      match resp.decoded with
      | .error err => .error (.errorf ("failed to parse token response: " ++ err))
      | .ok response => .ok response

/-- GetClientCredentialsToken, given the answer to its POST to `/oauth/token`. -/
def GetClientCredentialsToken (resp : Answer TokenResponse) : Except String TokenResponse :=
  match resp with
  | .error err => .error ("client credentials flow failed: " ++ err)
  | .ok resp =>
    match resp.decoded with
    | .error err => .error ("failed to parse token response: " ++ err)
    | .ok response => .ok response

/-! ## api/handlers/authForm.go: pollForDeviceToken -/

/-- What the surroundings give at one tick of the ticker: the time
`time.Now()` reads (nanoseconds), the answer of the token endpoint if it is
polled at this tick, and what `EnablePhoneExtensibility` returns if it is
invoked at this tick (`none` for `nil`). -/
structure Tick where
  now : Int
  poll : Answer TokenResponse
  enable : Option String

/-- The actions of `pollForDeviceToken` that leave the task. -/
inductive PollEvent where
  /-- The call `client.PollDeviceToken(domain, deviceCode.DeviceCode)`. -/
  | PollDeviceToken (domain deviceCode : String)
  /-- A call of `logger.Error`. -/
  | logError (msg : String)
  /-- The call `telegramClient.SendMessage(chatID, message)`. -/
  | SendMessage (chatID : Int) (message : String)
  /-- The call `client.EnablePhoneExtensibility(domain, accessToken, chatID, cfg)`. -/
  | EnablePhoneExtensibility (domain accessToken : String) (chatID : Int)
deriving DecidableEq, Repr

/-- The message of the return at the deadline check. -/
def timedOutMessage : String := "‚ùå Authentication process timed out. Please try again."

/-- The message of the return after a poll error. -/
def authFailedMessage : String := "‚ùå Authentication failed. Please try again."

/-- The message of the return after a provisioning error. -/
def setupFailedMessage : String := "‚ùå Failed to setup Auth0 action. Please try again."

/-- The message of the return after a successful provisioning. -/
def completedMessage (domain : String) (chatID : Int) : String :=
  "‚úÖ Configuration completed successfully!\n\n" ++
    "Domain: " ++ domain ++ "\n" ++
    "Action: telegram-otp-action-" ++ fmtD chatID ++ "\n\n" ++
    "You will now receive OTP codes in this chat."

/-- The body of the `for`/`select` loop at one tick: the actions taken, and
whether the function returns (`true`) or goes on to the next tick (`false`,
the `continue` of the source). -/
def pollTick (deviceCode : DeviceCodeResponse) (chatID : Int) (domain : String)
    (expiry : Int) (t : Tick) : List PollEvent × Bool :=
  if t.now > expiry then
    ([.SendMessage chatID timedOutMessage], true)
  else
    match PollDeviceToken t.poll with
    | .error err =>
      -- Check if it's just a pending authorization
      if err = GoError.ErrAuthorizationPending then
        ([.PollDeviceToken domain deviceCode.DeviceCode], false)
      else
        ([.PollDeviceToken domain deviceCode.DeviceCode,
          .logError "Failed to poll for device token",
          .SendMessage chatID authFailedMessage], true)
    | .ok token =>
      -- Successfully got token, create action
      match t.enable with
      | some _ =>
        ([.PollDeviceToken domain deviceCode.DeviceCode,
          .EnablePhoneExtensibility domain token.AccessToken chatID,
          .logError "Failed to setup Auth0 action after device flow",
          .SendMessage chatID setupFailedMessage], true)
      | none =>
        ([.PollDeviceToken domain deviceCode.DeviceCode,
          .EnablePhoneExtensibility domain token.AccessToken chatID,
          .SendMessage chatID (completedMessage domain chatID)], true)

/-- The loop over the ticks that arrive: the actions taken, and whether the
function has returned.  When the ticks run out before a return, the task is
still waiting for the next tick. -/
def pollLoop (deviceCode : DeviceCodeResponse) (chatID : Int) (domain : String)
    (expiry : Int) : List Tick → List PollEvent × Bool
  | [] => ([], false)
  | t :: ticks =>
    if (pollTick deviceCode chatID domain expiry t).2 then
      ((pollTick deviceCode chatID domain expiry t).1, true)
    else
      ((pollTick deviceCode chatID domain expiry t).1 ++
        (pollLoop deviceCode chatID domain expiry ticks).1,
       (pollLoop deviceCode chatID domain expiry ticks).2)

/-- How a run of `pollForDeviceToken` over the given ticks stands. -/
inductive PollExit where
  /-- The ticks ran out: the task waits for the next tick. -/
  | waiting
  /-- The function returned. -/
  | returned
  /-- The call `time.NewTicker(interval)` panicked: the interval was not positive. -/
  | panicked
deriving DecidableEq, Repr

/-- A run of `pollForDeviceToken`: its actions in order, and how it stands. -/
structure PollRun where
  events : List PollEvent
  exit : PollExit
deriving DecidableEq, Repr

/-- The seconds count `n` as a `time.Duration`: the product
`time.Duration(n) * time.Second` in `int64` nanoseconds, which wraps. -/
def seconds (n : Int) : Int :=
  (n * 1000000000 + 9223372036854775808) % 18446744073709551616 - 9223372036854775808

/-- The function `pollForDeviceToken`, started at time `start` (nanoseconds),
over the ticks its ticker delivers.  The deadline is `start` plus
`deviceCode.ExpiresIn` seconds; `time.NewTicker` panics on an interval that
is not positive. -/
def pollForDeviceToken (deviceCode : DeviceCodeResponse) (chatID : Int) (domain : String)
    (start : Int) (ticks : List Tick) : PollRun :=
  let interval := seconds deviceCode.Interval
  let expiry := start + seconds deviceCode.ExpiresIn
  if interval ≤ 0 then { events := [], exit := .panicked }
  else
    { events := (pollLoop deviceCode chatID domain expiry ticks).1
      exit := if (pollLoop deviceCode chatID domain expiry ticks).2 then .returned else .waiting }

/-! ## auth0/action.go: the provisioning pipeline -/

/-- The requests the provisioning code sends to the tenant's management API. -/
inductive TenantCall where
  /-- The lookup of `getAction`: GET of the action collection filtered by name. -/
  | lookupAction (domain accessToken actionName : String)
  /-- The create: POST of the payload to the action collection. -/
  | createAction (domain accessToken : String) (action : ActionCreate)
  /-- The update: PATCH of the payload to the action with the given id. -/
  | updateAction (domain accessToken id : String) (action : ActionCreate)
  /-- The deploy of `deployAction`: POST to the deploy address of the action. -/
  | deployAction (domain accessToken actionID : String)
  /-- The GET of the bindings of a trigger in `updateBindings`. -/
  | getBindings (domain accessToken actionType : String)
  /-- The PATCH of the bindings of a trigger in `updateBindings`. -/
  | patchBindings (domain accessToken actionType : String) (body : ActionBindings)
  /-- A request of a function that is not spelled out here. -/
  | other (method url : String)
deriving DecidableEq, Repr

/-- The characters `url.QueryEscape` leaves as they are. -/
def unreserved (b : Nat) : Bool :=
  (48 ≤ b && b ≤ 57) || (65 ≤ b && b ≤ 90) || (97 ≤ b && b ≤ 122) ||
    b == 45 || b == 95 || b == 46 || b == 126

/-- Table lookup for the upper-case hex digits of `net/url`. -/
def upperhex (n : Nat) : Char := "0123456789ABCDEF".data.getD n '0'

/-- Go `url.QueryEscape(s)`: a space becomes `+`, any other byte outside the
unreserved set becomes `%XX`. -/
def QueryEscape (s : String) : String :=
  String.mk ((bytesOf s).flatMap (fun b =>
    if b = 32 then ['+']
    else if unreserved b then [Char.ofNat b]
    else ['%', upperhex (b >>> 4), upperhex (b &&& 15)]))

/-- The address of the action collection, `actionApiManagementURL`. -/
def actionsURL (domain : String) : String :=
  "https://" ++ domain ++ "/api/v2/actions/actions"

/-- The HTTP method of a request. -/
def TenantCall.method : TenantCall → String
  | .lookupAction _ _ _ => "GET"
  | .createAction _ _ _ => "POST"
  | .updateAction _ _ _ _ => "PATCH"
  | .deployAction _ _ _ => "POST"
  | .getBindings _ _ _ => "GET"
  | .patchBindings _ _ _ _ => "PATCH"
  | .other method _ => method

/-- The address of a request. -/
def TenantCall.url : TenantCall → String
  | .lookupAction domain _ actionName =>
    actionsURL domain ++ "?actionName=" ++ QueryEscape actionName
  | .createAction domain _ _ => actionsURL domain
  | .updateAction domain _ id _ => actionsURL domain ++ "/" ++ id
  | .deployAction domain _ actionID =>
    "https://" ++ domain ++ "/api/v2/actions/actions/" ++ actionID ++ "/deploy"
  | .getBindings domain _ actionType =>
    "https://" ++ domain ++ "/api/v2/actions/triggers/" ++ actionType ++ "/bindings"
  | .patchBindings domain _ actionType _ =>
    "https://" ++ domain ++ "/api/v2/actions/triggers/" ++ actionType ++ "/bindings"
  | .other _ url => url

/-- How a call of a provisioning function ends. -/
inductive Exit where
  /-- The function returned `err` (`none` for `nil`). -/
  | returned (err : Option String)
  /-- The function panicked. -/
  | panicked (msg : String)
  /-- The function stopped the process with `log.Fatalf`. -/
  | fatal (msg : String)
  /-- The function is still in its build-wait loop: the action has not been
  reported as built by any answer given so far. -/
  | waiting
deriving DecidableEq, Repr

/-- A run of a provisioning function: the requests it sent, in order, and how it ended. -/
structure StepRun where
  calls : List TenantCall
  exit : Exit
deriving DecidableEq, Repr

/-- The result of `getAction`. -/
inductive Lookup where
  /-- The first action of the answer, with a `nil` error. -/
  | found (action : ActionResponse)
  /-- No action, with an error. -/
  | failed (err : String)
  /-- A panic: the body was the JSON `null`, `readActions` stayed `nil`, and
  `readActions.Actions` dereferences it. -/
  | panicked (msg : String)
deriving DecidableEq, Repr

/-- The function `getAction`, given the answer to its GET; the body is decoded
into a pointer, `none` when it stays `nil`. -/
def getAction (resp : Answer (Option ReadActionsResponse)) : Lookup :=
  match resp with
  | .error err => .failed err
  | .ok resp =>
    match resp.decoded with
    | .error err => .failed err
    | .ok none => .panicked "runtime error: invalid memory address or nil pointer dereference"
    | .ok (some readActions) =>
      match readActions.Actions with
      | [] => .failed "action not found"
      | action :: _ => .found action

/-- The function `deployAction`, given the answer to its POST: the returned error. -/
def deployAction (resp : Answer Unit) : Option String :=
  match resp with
  | .error err => some err
  | .ok resp =>
    if resp.StatusCode > 299 then some ("failed to deploy action: " ++ resp.Body)
    else none

/-- What the tenant answers to the requests of one `UpdatePhoneActionTypeBased`
call: to the first lookup, to the create, to the update, to the successive
lookups of the build-wait loop, to the deploy, and to the two requests of
`updateBindings` (as in `updateBindings`). -/
structure ProvisionEnv where
  lookup : Answer (Option ReadActionsResponse)
  create : Answer ActionResponse
  update : Answer ActionResponse
  waits : List (Answer (Option ReadActionsResponse))
  deploy : Answer Unit
  fetched : Except String (Except String ActionBindings)
  patch : ActionBindings → Except String Response

/-- The build-wait loop of `UpdatePhoneActionTypeBased`: while the last status
seen is not `built`, look the action up again and take the status of the
answer.  Gives the lookups sent and, when the loop does not end normally, how
the function ends. -/
def buildWait (domain accessToken actionName : String) :
    List (Answer (Option ReadActionsResponse)) → String → List TenantCall × Option Exit
  | [], actionStatus =>
    if actionStatus = "built" then ([], none) else ([], some .waiting)
  | resp :: waits, actionStatus =>
    if actionStatus = "built" then ([], none)
    else
      match getAction resp with
      | .panicked msg => ([.lookupAction domain accessToken actionName], some (.panicked msg))
      | .failed err => ([.lookupAction domain accessToken actionName], some (.returned (some err)))
      | .found action =>
        (.lookupAction domain accessToken actionName ::
            (buildWait domain accessToken actionName waits action.Status).1,
          (buildWait domain accessToken actionName waits action.Status).2)

/-- The part of `UpdatePhoneActionTypeBased` after the create or update has been
answered with the body decoded as `decoded`: parse, build-wait, deploy,
binding reconciliation. -/
def afterCreateOrUpdate (env : ProvisionEnv) (domain accessToken actionName actionType : String)
    (decoded : Except String ActionResponse) : StepRun :=
  match decoded with
  | .error err => { calls := [], exit := .returned (some ("failed to parse action response: " ++ err)) }
  | .ok actionResp =>
    -- It is required to wait until the action changes from "Draft" to "Built"
    let wait := buildWait domain accessToken actionName env.waits actionResp.Status
    match wait.2 with
    | some exit => { calls := wait.1, exit := exit }
    | none =>
      match deployAction env.deploy with
      | some err =>
        { calls := wait.1 ++ [.deployAction domain accessToken actionResp.ID],
          exit := .returned (some err) }
      | none =>
        let run := updateBindings env.fetched env.patch actionName actionResp.ID
        { calls := wait.1 ++ [.deployAction domain accessToken actionResp.ID] ++
            [.getBindings domain accessToken actionType] ++
            (match run.sent with
             | some newBindings => [.patchBindings domain accessToken actionType newBindings]
             | none => []),
          exit := .returned run.err }

/-- The function `UpdatePhoneActionTypeBased`: the payload, the lookup, the
update of the action found or the create when none was found, then
`afterCreateOrUpdate`.  Logging and the sleep between lookups are left out. -/
def UpdatePhoneActionTypeBased (templatesFS : String → Option String) (env : ProvisionEnv)
    (domain accessToken : String) (chatID : Int) (cfg : Config)
    (actionName actionType actionTypeVersion : String) : StepRun :=
  if actionType ≠ "custom-phone-provider" ∧ actionType ≠ "send-phone-message" then
    { calls := [], exit := .returned (some ("unknown action type: " ++ actionType)) }
  else
    match UpdatePhoneActionTypeBased_action templatesFS domain chatID cfg actionName actionType
        actionTypeVersion with
    | .error err => { calls := [], exit := .fatal err }
    | .ok action =>
      -- First, try to get existing action
      match getAction env.lookup with
      | .panicked msg =>
        { calls := [.lookupAction domain accessToken actionName], exit := .panicked msg }
      | .found existingAction =>
        -- Action exists, update it
        match env.update with
        | .error err =>
          { calls := [.lookupAction domain accessToken actionName,
                      .updateAction domain accessToken existingAction.ID action],
            exit := .returned (some err) }
        | .ok resp =>
          if resp.StatusCode ≠ 200 then
            { calls := [.lookupAction domain accessToken actionName,
                        .updateAction domain accessToken existingAction.ID action],
              exit := .returned (some ("failed to update action: " ++ resp.Body)) }
          else
            let rest := afterCreateOrUpdate env domain accessToken actionName actionType
              resp.decoded
            { calls := [.lookupAction domain accessToken actionName,
                        .updateAction domain accessToken existingAction.ID action] ++ rest.calls,
              exit := rest.exit }
      | .failed _ =>
        -- Action does not exist, create it
        match env.create with
        | .error err =>
          { calls := [.lookupAction domain accessToken actionName,
                      .createAction domain accessToken action],
            exit := .returned (some ("failed to create action: " ++ err)) }
        | .ok resp =>
          if resp.StatusCode ≠ 201 then
            { calls := [.lookupAction domain accessToken actionName,
                        .createAction domain accessToken action],
              exit := .returned (some ("failed to create action: " ++ resp.Body)) }
          else
            let rest := afterCreateOrUpdate env domain accessToken actionName actionType
              resp.decoded
            { calls := [.lookupAction domain accessToken actionName,
                        .createAction domain accessToken action] ++ rest.calls,
              exit := rest.exit }

/-- What `EnablePhoneExtensibility` calls: the runs of its steps. -/
structure EnableEnv where
  ActivateCustomPhoneProvider : StepRun
  UpdatePhoneActionTypeBased : String → String → String → StepRun
  EnableMFA : StepRun

/-- The actions of `EnablePhoneExtensibility`: the start of a step, a request
sent to the tenant within a step, a call of `logger.Error`. -/
inductive EnableEvent where
  | ActivateCustomPhoneProvider
  | UpdatePhoneActionTypeBased (actionName actionType actionTypeVersion : String)
  | EnableMFA
  | call (c : TenantCall)
  | logError (msg : String)
deriving DecidableEq, Repr

/-- A run of `EnablePhoneExtensibility`. -/
structure EnableRun where
  events : List EnableEvent
  exit : Exit
deriving DecidableEq, Repr

/-- The function `EnablePhoneExtensibility`.  The error of
`ActivateCustomPhoneProvider` is assigned to `err` and overwritten by the next
assignment; the errors of the other steps are tested. -/
def EnablePhoneExtensibility (env : EnableEnv) : EnableRun :=
  -- Activate the Custom Phone Provider
  let s1 := env.ActivateCustomPhoneProvider
  let e1 := EnableEvent.ActivateCustomPhoneProvider :: s1.calls.map .call
  match s1.exit with
  | .returned _ =>
    -- Custom Phone Provider, for Database Attributes
    let s2 := env.UpdatePhoneActionTypeBased "Custom Phone Provider" "custom-phone-provider" "v1"
    let e2 := e1 ++ EnableEvent.UpdatePhoneActionTypeBased "Custom Phone Provider"
      "custom-phone-provider" "v1" :: s2.calls.map .call
    match s2.exit with
    | .returned (some _) =>
      { events := e2, exit := .returned (some "failed to Update action: Custom Phone Provider") }
    | .returned none =>
      -- Custom Phone Provider for MFA
      let s3 := env.UpdatePhoneActionTypeBased "Custom Phone Provider - MFA"
        "send-phone-message" "v2"
      let e3 := e2 ++ EnableEvent.UpdatePhoneActionTypeBased "Custom Phone Provider - MFA"
        "send-phone-message" "v2" :: s3.calls.map .call
      match s3.exit with
      | .returned (some _) =>
        { events := e3 ++
            [.logError "AUTH0 is likely in a corrupt state!, please check actions and bindings"],
          exit := .returned (some "failed to Update action: Custom Phone Provider - MFA") }
      | .returned none =>
        let s4 := env.EnableMFA
        { events := e3 ++ EnableEvent.EnableMFA :: s4.calls.map .call, exit := s4.exit }
      | exit => { events := e3, exit := exit }
    | exit => { events := e2, exit := exit }
  | exit => { events := e1, exit := exit }

/-- The surroundings of `EnablePhoneExtensibility(domain, accessToken, chatID, cfg)`
when its two provisioning steps are runs of `UpdatePhoneActionTypeBased`
against the tenant answers `first` and `second`. -/
def enableEnvOf (templatesFS : String → Option String) (activate mfa : StepRun)
    (first second : ProvisionEnv) (domain accessToken : String) (chatID : Int) (cfg : Config) :
    EnableEnv :=
  { ActivateCustomPhoneProvider := activate
    UpdatePhoneActionTypeBased := fun actionName actionType actionTypeVersion =>
      UpdatePhoneActionTypeBased templatesFS
        (if actionName = "Custom Phone Provider" then first else second)
        domain accessToken chatID cfg actionName actionType actionTypeVersion
    EnableMFA := mfa }

/-! ## utils/random.go, strconv -/

/-- IsValidDomain checks if a domain string is valid. -/
def IsValidDomain (domain : String) : Bool :=
  if domain = "" then false
  else if (bytesOf domain).length < 4 then false
  else if (bytesOf domain).length > 255 then false
  else true

/-- The loop of Go `strconv.ParseUint(s, 10, 64)` over the characters still to
read, `n` being the value read so far: the value and the error (`none` for
`nil`).  The characters are read from the left: one that is not a digit ends
the loop with 0 and a syntax error; a value that no longer fits 64 bits ends
it with the largest `uint64` and a range error, whatever follows. -/
def parseDecimal : List Char → Nat → Nat × Option String
  | [], n => (n, none)
  | c :: cs, n =>
    if ¬ (48 ≤ c.toNat ∧ c.toNat ≤ 57) then (0, some "invalid syntax")
    else if n ≥ 1844674407370955162 then (18446744073709551615, some "value out of range")
    else if n * 10 + (c.toNat - 48) > 18446744073709551615 then
      (18446744073709551615, some "value out of range")
    else parseDecimal cs (n * 10 + (c.toNat - 48))

/-- Go `strconv.ParseInt(s, 10, 64)`: the value and the error (`none` for
`nil`).  A syntax error gives 0, a range error the nearest `int64`. -/
def ParseInt (s : String) : Int × Option String :=
  if s = "" then (0, some "invalid syntax")
  else
    let neg := s.data.head? = some '-'
    let digits :=
      if s.data.head? = some '+' ∨ s.data.head? = some '-' then s.data.drop 1 else s.data
    if digits = [] then (0, some "invalid syntax")
    else
      match parseDecimal digits 0 with
      | (un, err) =>
        if err = some "invalid syntax" then (0, err)
        else if ¬ neg ∧ un ≥ 9223372036854775808 then
          (9223372036854775807, some "value out of range")
        else if neg ∧ un > 9223372036854775808 then
          (-9223372036854775808, some "value out of range")
        else if neg then (-(un : Int), none)
        else ((un : Int), none)

/-! ## api/handlers/authForm.go: ProcessAuthForm -/

/-- The JSON body of the form submission. -/
structure AuthFormRequest where
  ChatID : String
  Signature : String
  AuthType : String
  Domain : String
  MessageID : String
  AccessToken : String
  ClientID : String
  ClientSecret : String
deriving DecidableEq, Repr

/-- Go `c.ShouldBindJSON(&req)`, given the outcome `body` of decoding the
request body: the fields tagged `binding:"required"` must not be empty. -/
def ShouldBindJSON (body : Except String AuthFormRequest) : Except String AuthFormRequest :=
  match body with
  | .error err => .error err
  | .ok req =>
    if req.ChatID = "" ∨ req.Signature = "" ∨ req.AuthType = "" ∨ req.Domain = "" ∨
        req.MessageID = "" then
      .error "Field validation failed on the required tag"
    else .ok req

/-- What the handler reads of the request: the outcome of `c.Cookie("csrf_token")`,
the header `X-CSRF-Token`, and the outcome of decoding the JSON body. -/
structure FormInput where
  cookie : Except String String
  csrfHeader : String
  body : Except String AuthFormRequest

/-- What the surroundings answer to the calls of the handler: the answer to the
device-code request, the result of `SendMessage`, the answer to the
client-credentials request, the result of `EnablePhoneExtensibility`, the
result of `EditMessageText` (`none` for `nil`). -/
structure FormEnv where
  deviceCode : Answer DeviceCodeResponse
  sendMessage : Option String
  clientCredentials : Answer TokenResponse
  enable : Option String
  editMessage : Option String

/-- The actions of `ProcessAuthForm` besides its response. -/
inductive FormEvent where
  | logError (msg : String)
  /-- The tenant call `auth0Client.InitiateDeviceFlow(domain)`. -/
  | InitiateDeviceFlow (domain : String)
  /-- The chat call `telegramClient.SendMessage(chatID, message)`. -/
  | SendMessage (chatID : Int) (message : String)
  /-- The statement `go pollForDeviceToken(..., deviceCode, chatID, domain)`. -/
  | goPollForDeviceToken (deviceCode : DeviceCodeResponse) (chatID : Int) (domain : String)
  /-- The tenant call `auth0Client.GetClientCredentialsToken(domain, clientID, clientSecret)`. -/
  | GetClientCredentialsToken (domain clientID clientSecret : String)
  /-- The provisioning `auth0Client.EnablePhoneExtensibility(domain, accessToken, chatID, cfg)`. -/
  | EnablePhoneExtensibility (domain accessToken : String) (chatID : Int)
  /-- The chat call `telegramClient.EditMessageText(chatID, messageID, text)`. -/
  | EditMessageText (chatID messageID : Int) (text : String)
deriving DecidableEq, Repr

/-- Whether an action of the handler is a call to the tenant (or the start of
the task that polls it). -/
def FormEvent.isTenantCall : FormEvent → Bool
  | .InitiateDeviceFlow _ => true
  | .goPollForDeviceToken _ _ _ => true
  | .GetClientCredentialsToken _ _ _ => true
  | .EnablePhoneExtensibility _ _ _ => true
  | _ => false

/-- Whether an action of the handler is a call to the chat. -/
def FormEvent.isChatCall : FormEvent → Bool
  | .SendMessage _ _ => true
  | .EditMessageText _ _ _ => true
  | _ => false

/-- A run of the handler: the status and the JSON object of `c.JSON`, and the
other actions in order. -/
structure FormRun where
  status : Nat
  json : List (String × String)
  events : List FormEvent
deriving DecidableEq, Repr

/-- The device-code message of the `tenant_personal` case. -/
def deviceCodeMessage (deviceCode : DeviceCodeResponse) : String :=
  "\uF8FFüîê To complete the authentication, please use this code:\n\nCode: " ++
    deviceCode.UserCode ++ "\n\nVisit: " ++ deviceCode.VerificationURIComplete ++
    "\n\nThis code will expire in " ++ fmtD (Int.tdiv deviceCode.ExpiresIn 60) ++ " minutes."

/-- The success message of the synchronous path. -/
def setupCompletedMessage (domain : String) : String :=
  "‚úÖ Configuration completed successfully!\n\n" ++
    "Domain: " ++ domain ++ "\n" ++
    "Action: telegram-otp-action\n\n" ++
    "You will now receive OTP codes in this chat."

/-- The end of `ProcessAuthForm`, from `EnablePhoneExtensibility` on, with the
access token the strategy gave; `events` are the actions so far. -/
def ProcessAuthForm_provision (env : FormEnv) (req : AuthFormRequest) (chatIDInt : Int)
    (accessToken : String) (events : List FormEvent) : FormRun :=
  -- Create or update Auth0 Action
  match env.enable with
  | some _ =>
    { status := 500, json := [("error", "Failed to setup Auth0 action")],
      events := events ++ [.EnablePhoneExtensibility req.Domain accessToken chatIDInt,
        .logError "Failed to setup Auth0 action"] }
  | none =>
    -- Send success message via Telegram
    let messageIDInt := (ParseInt req.MessageID).1
    { status := 200,
      json := [("status", "success"),
               ("message", "Authentication and setup completed successfully")],
      events := events ++ [.EnablePhoneExtensibility req.Domain accessToken chatIDInt,
        .EditMessageText chatIDInt messageIDInt (setupCompletedMessage req.Domain)] ++
        (match env.editMessage with
         | some _ => [.logError "Failed to send success message"]
         | none => []) }

/-- The handler returned by `ProcessAuthForm(cfg, logger)`. -/
def ProcessAuthForm (cfg : Config) (env : FormEnv) (c : FormInput) : FormRun :=
  -- Validate CSRF token
  if c.cookie.toOption.isNone ∨ c.cookie.toOption ≠ some c.csrfHeader then
    { status := 401, json := [("error", "Invalid CSRF token")],
      events := [.logError "CSRF token validation failed"] }
  else
    match ShouldBindJSON c.body with
    | .error _ =>
      { status := 400, json := [("error", "Invalid request format")],
        events := [.logError "Failed to parse auth form request"] }
    | .ok req =>
      -- Validate signature
      if ¬ ValidateHMAC req.ChatID req.Signature cfg.HMACSecret then
        { status := 401, json := [("error", "Invalid request signature")],
          events := [.logError "Invalid signature for auth form submission"] }
      -- Validate domain format
      else if ¬ IsValidDomain req.Domain then
        { status := 400, json := [("error", "Invalid domain format")],
          events := [.logError "Invalid domain format"] }
      else if (ParseInt req.ChatID).2.isSome then
        { status := 400, json := [("error", "Invalid chat ID format")],
          events := [.logError "Invalid chat ID format"] }
      else
        let chatIDInt := (ParseInt req.ChatID).1
        -- Handle different authentication types
        if req.AuthType = "tenant_personal" then
          match InitiateDeviceFlow env.deviceCode with
          | .error _ =>
            { status := 500, json := [("error", "Failed to initiate device flow")],
              events := [.InitiateDeviceFlow req.Domain,
                         .logError "Failed to initiate device flow"] }
          | .ok deviceCode =>
            -- Send device code info via Telegram
            match env.sendMessage with
            | some _ =>
              { status := 500, json := [("error", "Failed to send authentication information")],
                events := [.InitiateDeviceFlow req.Domain,
                           .SendMessage chatIDInt (deviceCodeMessage deviceCode),
                           .logError "Failed to send device code info"] }
            | none =>
              -- Start polling for token
              { status := 200,
                json := [("status", "success"),
                         ("message", "Authentication process initiated. Please check your Telegram chat for instructions.")],
                events := [.InitiateDeviceFlow req.Domain,
                           .SendMessage chatIDInt (deviceCodeMessage deviceCode),
                           .goPollForDeviceToken deviceCode chatIDInt req.Domain] }
        else if req.AuthType = "auth_ephemeral" then
          if req.AccessToken = "" then
            { status := 400, json := [("error", "Access token is required")],
              events := [.logError "Missing access token for ephemeral auth"] }
          else ProcessAuthForm_provision env req chatIDInt req.AccessToken []
        else if req.AuthType = "auth_client_credentials" then
          if req.ClientID = "" ∨ req.ClientSecret = "" then
            { status := 400, json := [("error", "Client ID and secret are required")],
              events := [.logError "Missing client credentials"] }
          else
            match GetClientCredentialsToken env.clientCredentials with
            | .error _ =>
              { status := 500, json := [("error", "Failed to get access token")],
                events := [.GetClientCredentialsToken req.Domain req.ClientID req.ClientSecret,
                           .logError "Failed to get client credentials token"] }
            | .ok tokenResponse =>
              ProcessAuthForm_provision env req chatIDInt tokenResponse.AccessToken
                [.GetClientCredentialsToken req.Domain req.ClientID req.ClientSecret]
        else
          { status := 400, json := [("error", "Invalid authentication type")],
            events := [.logError "Invalid auth type"] }

/-! ## Predicates on the recorded actions -/

/-- Whether an action of the polling task is a chat notification. -/
def PollEvent.isSendMessage : PollEvent → Bool
  | .SendMessage _ _ => true
  | _ => false

/-- Whether an action of the polling task is the provisioning call. -/
def PollEvent.isEnable : PollEvent → Bool
  | .EnablePhoneExtensibility _ _ _ => true
  | _ => false

/-- Whether an action of the polling task is a poll of the token endpoint. -/
def PollEvent.isPoll : PollEvent → Bool
  | .PollDeviceToken _ _ => true
  | _ => false

/-- Whether a tick keeps the task polling: the deadline has not passed and
the poll reports a pending authorization. -/
def Tick.pending (expiry : Int) (t : Tick) : Prop :=
  ¬ t.now > expiry ∧ PollDeviceToken t.poll = .error GoError.ErrAuthorizationPending

/-- Whether a request is a create of an action. -/
def TenantCall.isCreate : TenantCall → Bool
  | .createAction _ _ _ => true
  | _ => false

/-- Whether a request is an update of an action. -/
def TenantCall.isUpdate : TenantCall → Bool
  | .updateAction _ _ _ _ => true
  | _ => false

/-- Whether a request is a deploy of an action. -/
def TenantCall.isDeploy : TenantCall → Bool
  | .deployAction _ _ _ => true
  | _ => false

/-- Whether a request is the replacement of a binding list. -/
def TenantCall.isPatchBindings : TenantCall → Bool
  | .patchBindings _ _ _ _ => true
  | _ => false

/-- Whether a request is a lookup of an action by name. -/
def TenantCall.isLookup : TenantCall → Bool
  | .lookupAction _ _ _ => true
  | _ => false

/-! ## Concrete inputs of the provisioning and polling statements -/

/-- The token endpoint's answer to a poll that came too early: status 429 with
the JSON error object `slow_down`; decoding it into a `TokenResponse` gives no
error and leaves every field at its zero value. -/
def slowDownAnswer : Answer TokenResponse :=
  .ok { StatusCode := 429
        Body := "\x7b\"error\":\"slow_down\",\"error_description\":\"You are polling faster than the specified interval\"\x7d"
        decoded := .ok { AccessToken := "", TokenType := "", ExpiresIn := 0 } }

/-- The token endpoint's answer while the user has not yet authorized: status
403 with the JSON error object `authorization_pending`. -/
def pendingAnswer : Answer TokenResponse :=
  .ok { StatusCode := 403
        Body := "\x7b\"error\":\"authorization_pending\"\x7d"
        decoded := .ok { AccessToken := "", TokenType := "", ExpiresIn := 0 } }

/-- The token endpoint's answer once the user has authorized. -/
def grantedAnswer : Answer TokenResponse :=
  .ok { StatusCode := 200
        Body := "\x7b\"access_token\":\"tok_1\",\"token_type\":\"Bearer\",\"expires_in\":86400\x7d"
        decoded := .ok { AccessToken := "tok_1", TokenType := "Bearer", ExpiresIn := 86400 } }

/-- A device authorization that expires after 60 seconds, polled every 5 seconds. -/
def exampleDeviceCode : DeviceCodeResponse :=
  { DeviceCode := "dev_1", UserCode := "ABCD-EFGH",
    VerificationURI := "https://test.auth0.com/activate",
    VerificationURIComplete := "https://test.auth0.com/activate?user_code=ABCD-EFGH",
    ExpiresIn := 60, Interval := 5 }

/-- A tick at `s` seconds after the start with a pending poll. -/
def pendingTickAt (s : Int) : Tick :=
  { now := s * 1000000000, poll := pendingAnswer, enable := none }

/-- The tenant's answer to a lookup that finds no action of the name. -/
def zeroActionsAnswer : Answer (Option ReadActionsResponse) :=
  .ok { StatusCode := 200, Body := "\x7b\"actions\":[],\"total\":0\x7d",
        decoded := .ok (some { Total := 0, Actions := [] }) }

/-- The action `act_1` as the tenant reports it with the given status. -/
def exampleActionResponse (status : String) : ActionResponse :=
  { ID := "act_1", Name := "Custom Phone Provider",
    SupportedTriggers := [{ ID := "custom-phone-provider", Version := "v1" }],
    Status := status, Created := "2024-11-01T10:00:00Z", Updated := "2024-11-01T10:00:00Z" }

/-- The tenant's answer to a lookup that finds the action `act_1` with the given status. -/
def foundAnswer (status : String) : Answer (Option ReadActionsResponse) :=
  .ok { StatusCode := 200, Body := "",
        decoded := .ok (some { Total := 1, Actions := [exampleActionResponse status] }) }

/-- A tenant without an action of the name: the create is answered 201 with
the action still pending, the first build-wait lookup reports it built, the
deploy and the binding requests succeed; two bindings named `A` exist. -/
def freshTenant : ProvisionEnv :=
  { lookup := zeroActionsAnswer
    create := .ok { StatusCode := 201, Body := "", decoded := .ok (exampleActionResponse "pending") }
    update := .error "no update expected"
    waits := [foundAnswer "built"]
    deploy := .ok { StatusCode := 200, Body := "", decoded := .ok () }
    fetched := .ok (.ok { Bindings := twoBindingsNamedA })
    patch := fun _ => .ok { StatusCode := 200, Body := "" } }

/-- A tenant without an action of the name that rejects the create with status 400. -/
def rejectingTenant : ProvisionEnv :=
  { freshTenant with
    create := .ok { StatusCode := 400, Body := "Bad Request", decoded := .error "invalid character" } }

/-- A tenant that has the action `act_1` and rejects its update with status 403. -/
def rejectingUpdateTenant : ProvisionEnv :=
  { freshTenant with
    lookup := foundAnswer "built"
    update := .ok { StatusCode := 403, Body := "Forbidden", decoded := .error "invalid character" } }

/-- A run of `ActivateCustomPhoneProvider` whose read of the phone providers is
refused with status 403: the function returns an error. -/
def refusedActivation : StepRun :=
  { calls := [.other "GET" "https://test.auth0.com/api/v2/branding/phone/providers"]
    exit := .returned (some "failed to read Phone provider: Insufficient scope") }

/-- A run of `ActivateCustomPhoneProvider` that succeeds. -/
def okActivation : StepRun :=
  { calls := [.other "GET" "https://test.auth0.com/api/v2/branding/phone/providers",
              .other "PATCH" "https://test.auth0.com/api/v2/branding/phone/providers/pro_1"]
    exit := .returned none }

/-- A run of `EnableMFA` that succeeds. -/
def okEnableMFA : StepRun :=
  { calls := [.other "PUT" "https://test.auth0.com/api/v2/guardian/factors/sms",
              .other "PUT" "https://test.auth0.com/api/v2/guardian/factors/phone/selected-provider",
              .other "PUT" "https://test.auth0.com/api/v2/guardian/factors/phone/message-types"]
    exit := .returned none }

/-- A provisioning step that succeeds with a single request. -/
def okProvisioning (_ actionType _ : String) : StepRun :=
  { calls := [.getBindings "test.auth0.com" "tok_1" actionType], exit := .returned none }

/-- A form submission for the chat 555 that passes the CSRF, signature, domain
and chat-id checks (the signature is the token of `555` under `test-secret`),
with the given strategy and ephemeral access token. -/
def exampleSubmission (authType accessToken : String) : FormInput :=
  { cookie := .ok "csrf_1"
    csrfHeader := "csrf_1"
    body := .ok
      { ChatID := "555"
        Signature := "8cd64c0feee9095ced12a497e5d62c560ded0f65c79fe268b31512071559c73e"
        AuthType := authType
        Domain := "test.auth0.com"
        MessageID := "42"
        AccessToken := accessToken
        ClientID := ""
        ClientSecret := "" } }

/-- Surroundings in which every call of the handler succeeds. -/
def helpfulSurroundings : FormEnv :=
  { deviceCode := .ok { StatusCode := 200, Body := "", decoded := .ok exampleDeviceCode }
    sendMessage := none
    clientCredentials := grantedAnswer
    enable := none
    editMessage := none }

/-! ## The build-wait loop: the status it ends with -/

/-- The value of the loop variable `actionStatus` when the build-wait loop is
left or runs out of answers: the status of the create or update response, then
the status of each lookup answered with an action, up to the first `built`. -/
def lastObservedStatus : List (Answer (Option ReadActionsResponse)) → String → String
  | [], actionStatus => actionStatus
  | resp :: waits, actionStatus =>
    if actionStatus = "built" then actionStatus
    else
      match getAction resp with
      | .found action => lastObservedStatus waits action.Status
      | _ => actionStatus

/-- Whether a request reads the bindings of a trigger. -/
def TenantCall.isGetBindings : TenantCall → Bool
  | .getBindings _ _ _ => true
  | _ => false

/-! ## Concrete inputs of the form-handler statements -/

/-- The submission `exampleSubmission "auth_ephemeral" "tok_e"` with a signature
that is not the token of its chat id. -/
def forgedSubmission : FormInput :=
  { cookie := .ok "csrf_1"
    csrfHeader := "csrf_1"
    body := .ok
      { ChatID := "555"
        Signature := "0000000000000000000000000000000000000000000000000000000000000000"
        AuthType := "auth_ephemeral"
        Domain := "test.auth0.com"
        MessageID := "42"
        AccessToken := "tok_e"
        ClientID := ""
        ClientSecret := "" } }

/-- The request body of a client-credentials submission for the chat 555. -/
def credentialsRequest : AuthFormRequest :=
  { ChatID := "555"
    Signature := "8cd64c0feee9095ced12a497e5d62c560ded0f65c79fe268b31512071559c73e"
    AuthType := "auth_client_credentials"
    Domain := "test.auth0.com"
    MessageID := "42"
    AccessToken := ""
    ClientID := "client_1"
    ClientSecret := "wrong-secret" }

/-- A client-credentials submission that passes the checks of the handler. -/
def credentialsSubmission : FormInput :=
  { cookie := .ok "csrf_1", csrfHeader := "csrf_1", body := .ok credentialsRequest }

/-- The token endpoint's answer to a client-credentials exchange it rejects:
status 401 with a JSON error object, which decodes into a `TokenResponse`
without error and leaves every field at its zero value. -/
def rejectedExchangeAnswer : Answer TokenResponse :=
  .ok { StatusCode := 401
        Body := "\x7b\"error\":\"access_denied\",\"error_description\":\"Unauthorized\"\x7d"
        decoded := .ok { AccessToken := "", TokenType := "", ExpiresIn := 0 } }

/-- The zero value of `DeviceCodeResponse`. -/
def zeroDeviceCode : DeviceCodeResponse :=
  { DeviceCode := "", UserCode := "", VerificationURI := "", VerificationURIComplete := "",
    ExpiresIn := 0, Interval := 0 }

/-- The device-code endpoint's answer to a request it rejects: status 403 with
a JSON error object, which decodes into a `DeviceCodeResponse` without error
and leaves every field at its zero value. -/
def rejectedDeviceCodeAnswer : Answer DeviceCodeResponse :=
  .ok { StatusCode := 403
        Body := "\x7b\"error\":\"unauthorized_client\",\"error_description\":\"Grant type not allowed for the client.\"\x7d"
        decoded := .ok zeroDeviceCode }

/-- A tenant whose action vanishes during the build-wait: the create is
answered with the action pending, the first lookup of the wait still finds it
pending, the second one finds no action. -/
def vanishingTenant : ProvisionEnv :=
  { freshTenant with waits := [foundAnswer "pending", zeroActionsAnswer] }

/-! ## auth0/action.go: ActivateCustomPhoneProvider -/

/-- One phone provider of the tenant, as far as the code reads it. -/
structure Provider where
  Id : String
  Name : String
  Channel : String
  Disabled : Bool
deriving DecidableEq, Repr

/-- The answer of the phone-provider lookup. -/
structure Providers where
  Providers : List Provider
deriving DecidableEq, Repr

/-- The function `ActivateCustomPhoneProvider`, given the answer to its GET of
the phone providers (the body is decoded into a pointer, `none` when it stays
`nil`) and the answer to its PATCH.  The address of the PATCH is built from
`providers.Providers[0].Id` before the request is sent: with a `nil` pointer
or an empty list that expression panics. -/
def ActivateCustomPhoneProvider (domain : String) (read : Answer (Option Providers))
    (patch : Answer Unit) : StepRun :=
  let readCall := TenantCall.other "GET" ("https://" ++ domain ++ "/api/v2/branding/phone/providers")
  match read with
  | .error err => { calls := [readCall], exit := .returned (some err) }
  | .ok resp =>
    match resp.decoded with
    | .error err => { calls := [readCall], exit := .returned (some err) }
    | .ok providers =>
      if resp.StatusCode > 299 then
        { calls := [readCall],
          exit := .returned (some ("failed to read Phone provider: " ++ resp.Body)) }
      else
        -- Patch providers and make sure the custom phone channel is enabled
        match providers with
        | none =>
          { calls := [readCall],
            exit := .panicked "runtime error: invalid memory address or nil pointer dereference" }
        | some providers =>
          match providers.Providers with
          | [] =>
            { calls := [readCall],
              exit := .panicked "runtime error: index out of range [0] with length 0" }
          | first :: _ =>
            let patchCall := TenantCall.other "PATCH"
              ("https://" ++ domain ++ "/api/v2/branding/phone/providers/" ++ first.Id)
            match patch with
            | .error err => { calls := [readCall, patchCall], exit := .returned (some err) }
            | .ok resp =>
              if resp.StatusCode > 299 then
                { calls := [readCall, patchCall],
                  exit := .returned (some ("failed to activate Phone provider: " ++ resp.Body)) }
              else { calls := [readCall, patchCall], exit := .returned none }

/-- The tenant's answer to the phone-provider lookup when it has no provider. -/
def noProvidersAnswer : Answer (Option Providers) :=
  .ok { StatusCode := 200, Body := "\x7b\"providers\":[]\x7d",
        decoded := .ok (some { Providers := [] }) }

/-- The tenant's answer to the phone-provider lookup with an object that has no
`providers` member: the list stays `nil`. -/
def missingProvidersAnswer : Answer (Option Providers) :=
  .ok { StatusCode := 200, Body := "\x7b\x7d", decoded := .ok (some { Providers := [] }) }

/-- The tenant's answer to the phone-provider lookup with one provider. -/
def oneProviderAnswer : Answer (Option Providers) :=
  .ok { StatusCode := 200, Body := "",
        decoded := .ok (some { Providers :=
          [{ Id := "pro_1", Name := "twilio", Channel := "phone", Disabled := true }] }) }

/-! ## api/handlers/otp.go -/

/-- OTPEvent represents the incoming OTP event from Auth0.  The member
`RawEvent` is read only by the JSON rendering of the whole event, which the
handler receives as `jsonData`. -/
structure OTPEvent where
  TenantID : String
  Domain : String
  Code : String
  Message : String
  PhoneNumber : String
deriving DecidableEq, Repr

/-- A value kept in the request context, of Go type `interface\x7b\x7d`: `nil`,
a string, or a value of another type (named). -/
inductive GoValue where
  | nil
  | string (s : String)
  | other (typeName : String)
deriving DecidableEq, Repr

/-- The type assertion `v.(string)`: the string, or the message of the panic. -/
def GoValue.assertString : GoValue → Except String String
  | .string s => .ok s
  | .nil => .error "interface conversion: interface \x7b\x7d is nil, not string"
  | .other t => .error ("interface conversion: interface \x7b\x7d is " ++ t ++ ", not string")

/-- What the webhook handler reads of the request: the outcome of decoding the
JSON body, the rendering of the event by `json.MarshalIndent`, and the keys of
the request context (`Get key` is `none` when the key was never set). -/
structure WebhookInput where
  body : Except String OTPEvent
  jsonData : String
  Get : String → Option GoValue

/-- What the webhook handler does besides answering. -/
inductive WebhookEvent where
  | logError (msg : String)
  /-- The chat call `telegramClient.SendMessage(chatID, message)`. -/
  | SendMessage (chatID : Int) (message : String)
  | logInfo (msg : String)
deriving DecidableEq, Repr

/-- How a handler ends: with the answer `c.JSON(status, json)`, or in a panic. -/
inductive HandlerExit where
  | responded (status : Nat) (json : List (String × String))
  | panicked (msg : String)
deriving DecidableEq, Repr

/-- One run of the webhook handler. -/
structure WebhookRun where
  events : List WebhookEvent
  exit : HandlerExit
deriving DecidableEq, Repr

/-- The function formatTelegramMessage creates a formatted message for Telegram. -/
def formatTelegramMessage (event : OTPEvent) (jsonData : String) : String :=
  "Domain: <code>" ++ event.Domain ++ "</code>\n\n" ++
  "Recipent: <code>" ++ event.PhoneNumber ++ "</code>\n" ++
  "Code: <b><code>" ++ event.Code ++ "</code></b>\n" ++
  "Message: <code>" ++ event.Message ++ "</code>\n\n" ++
  "<blockquote expandable>\n<b>All details:</b>\n\n👇👇👇\n\n" ++ jsonData ++ "</blockquote>"

/-- The handler returned by `HandleOTPWebhook`, applied to a request;
`sendMessage` is the result of the chat call (`none` for `nil`).  When the key
`auth0_domain` is absent, the arguments of the log call are evaluated before
anything is logged or answered, and the first of them is `domain.(string)`
with `domain` the `nil` that `c.Get` returned. -/
def HandleOTPWebhook (sendMessage : Option String) (c : WebhookInput) : WebhookRun :=
  match c.body with
  | .error _ =>
    { events := [.logError "Failed to parse OTP event"],
      exit := .responded 400 [("error", "Invalid event format")] }
  | .ok event =>
    -- Validate domain matches the one from auth header
    match c.Get "auth0_domain" with
    | none =>
      match GoValue.nil.assertString with
      | .error msg => { events := [], exit := .panicked msg }
      | .ok _ =>
        { events := [.logError "Domain mismatch"],
          exit := .responded 400 [("error", "Domain mismatch")] }
    | some _ =>
      match c.Get "chat_id" with
      | none =>
        { events := [.logError "Chat ID not found"],
          exit := .responded 400 [("error", "Chat ID not found")] }
      | some chatIDStr =>
        match chatIDStr.assertString with
        | .error msg => { events := [], exit := .panicked msg }
        | .ok s =>
          let chatID := (ParseInt s).1
          -- Prepare Telegram message
          let message := formatTelegramMessage event c.jsonData
          -- Send to Telegram
          match sendMessage with
          | some _ =>
            { events := [.SendMessage chatID message,
                         .logError "Failed to send Telegram message"],
              exit := .responded 500 [("error", "Failed to send message")] }
          | none =>
            { events := [.SendMessage chatID message,
                         .logInfo "OTP message sent successfully"],
              exit := .responded 200 [("status", "ok")] }

/-- Whether an action of the webhook handler is a chat message. -/
def WebhookEvent.isSendMessage : WebhookEvent → Bool
  | .SendMessage _ _ => true
  | _ => false

/-! ## api/handlers/telegram.go -/

/-- A chat user of an update. -/
structure TelegramUser where
  ID : Int
  Username : String
  FirstName : String
deriving DecidableEq, Repr

/-- The chat of a message. -/
structure TelegramChat where
  ID : Int
  Type_ : String
deriving DecidableEq, Repr

/-- A message of an update; the pointers `From` and `Chat` are `none` when
`nil`.  The member `ReplyTo` is never read and is left out. -/
structure TelegramMessage where
  MessageID : Int
  From : Option TelegramUser
  Chat : Option TelegramChat
  Text : String
deriving DecidableEq, Repr

/-- A callback query of an update; the pointers are `none` when `nil`. -/
structure TelegramCallbackQuery where
  ID : String
  From : Option TelegramUser
  Message : Option TelegramMessage
  Data : String
deriving DecidableEq, Repr

/-- An update delivered by the chat service; the pointers are `none` when `nil`. -/
structure TelegramUpdate where
  UpdateID : Int
  Message : Option TelegramMessage
  CallbackQuery : Option TelegramCallbackQuery
deriving DecidableEq, Repr

/-- A button of an inline keyboard (telegram/client.go). -/
structure InlineKeyboardButton where
  Text : String
  URL : String
  CallbackData : String
deriving DecidableEq, Repr

/-- The keyboard sent with a message (telegram/client.go). -/
structure ReplyMarkup where
  InlineKeyboard : List (List InlineKeyboardButton)
deriving DecidableEq, Repr

/-- What the processing of an update does. -/
inductive ChatEvent where
  /-- The chat call `client.SendMessage(chatID, text, keyboard)`. -/
  | SendMessage (chatID : Int) (text : String) (keyboard : ReplyMarkup)
  /-- The chat call `client.EditMessageText(chatID, messageID, text, keyboard)`. -/
  | EditMessageText (chatID messageID : Int) (text : String) (keyboard : ReplyMarkup)
  | logError (msg : String)
deriving DecidableEq, Repr

/-- How the processing of an update ends. -/
inductive TaskExit where
  | done
  | panicked (msg : String)
deriving DecidableEq, Repr

/-- One run of the processing of an update. -/
structure TaskRun where
  events : List ChatEvent
  exit : TaskExit
deriving DecidableEq, Repr

/-- The message of the panic on reading a member through a `nil` pointer. -/
def nilDereference : String :=
  "runtime error: invalid memory address or nil pointer dereference"

/-- The function `handleMessage`; `send` is the result of the chat call
(`none` for `nil`).  The argument `message.Chat.ID` is read through the
pointer `message.Chat`. -/
def handleMessage (message : TelegramMessage) (send : Option String) : TaskRun :=
  if message.Text = "/start" then
    let keyboard : ReplyMarkup :=
      { InlineKeyboard :=
          [[{ Text := "Personal Public Tenant", URL := "",
              CallbackData := "auth_client_credentials" }],
           [{ Text := "Private Demo Tenant", URL := "",
              CallbackData := "auth_client_credentials" }]] }
    match message.Chat with
    | none => { events := [], exit := .panicked nilDereference }
    | some chat =>
      let call := ChatEvent.SendMessage chat.ID
        "Which kind of instance do you want to connect?" keyboard
      match send with
      | some _ => { events := [call, .logError "Failed to send message"], exit := .done }
      | none => { events := [call], exit := .done }
  else { events := [], exit := .done }

/-- The keyboard with the one button that opens the form at `authURL`. -/
def completeAuthenticationKeyboard (authURL : String) : ReplyMarkup :=
  { InlineKeyboard := [[{ Text := "Complete Authentication", URL := authURL,
                          CallbackData := "" }]] }

/-- The end of each branch of `handleCallbackQuery`: the edit of the message
and the log line when it fails. -/
def editAndLog (chatID messageID : Int) (text : String) (keyboard : ReplyMarkup)
    (edit : Option String) : TaskRun :=
  match edit with
  | some _ =>
    { events := [.EditMessageText chatID messageID text keyboard,
                 .logError "Failed to send message"], exit := .done }
  | none => { events := [.EditMessageText chatID messageID text keyboard], exit := .done }

/-- The function `handleCallbackQuery`; `edit` is the result of the chat call
(`none` for `nil`).  Its first two statements read `query.Message.Chat.ID` and
`query.Message.MessageID` through the pointers `query.Message` and
`query.Message.Chat`, before the tag is looked at. -/
def handleCallbackQuery (query : TelegramCallbackQuery) (cfg : Config)
    (edit : Option String) : TaskRun :=
  match query.Message with
  | none => { events := [], exit := .panicked nilDereference }
  | some message =>
    match message.Chat with
    | none => { events := [], exit := .panicked nilDereference }
    | some chat =>
      let chatID := chat.ID
      let messageID := message.MessageID
      if query.Data = "tenant_personal" then
        let signature := GenerateHMAC (fmtD chatID) cfg.HMACSecret
        let authURL := cfg.BaseURL ++ "/bot/auth-form?chat_id=" ++ fmtD chatID ++
          "&signature=" ++ signature ++ "&auth_type=tenant_personal&messageID=" ++
          fmtD messageID
        editAndLog chatID messageID "Please complete your authentication using the form below:"
          (completeAuthenticationKeyboard authURL) edit
      else if query.Data = "tenant_private" then
        let keyboard : ReplyMarkup :=
          { InlineKeyboard :=
              [[{ Text := "Ephemeral Access Token", URL := "",
                  CallbackData := "auth_ephemeral" }],
               [{ Text := "ClientID and Client Credentials", URL := "",
                  CallbackData := "auth_client_credentials" }]] }
        editAndLog chatID messageID "How would you like to authenticate?" keyboard edit
      else if query.Data = "auth_ephemeral" ∨ query.Data = "auth_client_credentials" then
        let signature := GenerateHMAC (fmtD chatID) cfg.HMACSecret
        let authURL := cfg.BaseURL ++ "/bot/auth-form?chat_id=" ++ fmtD chatID ++
          "&signature=" ++ signature ++ "&auth_type=" ++ query.Data ++ "&message_id=" ++
          fmtD messageID
        editAndLog chatID messageID "Please complete your authentication using the form below:"
          (completeAuthenticationKeyboard authURL) edit
      else { events := [], exit := .done }

/-- One run of the update handler: the answer to the chat service, and the run
of the task started with `go` (`none` when no task is started).  A panic of
that task is outside the reach of the recovery of the router. -/
structure UpdateRun where
  status : Nat
  json : List (String × String)
  task : Option TaskRun
deriving DecidableEq, Repr

/-- The handler returned by `HandleTelegramUpdates`, applied to a request whose
JSON body decodes as `update`; `send` is the result of the chat call of the task. -/
def HandleTelegramUpdates (cfg : Config) (update : Except String TelegramUpdate)
    (send : Option String) : UpdateRun :=
  match update with
  | .error _ => { status := 400, json := [("error", "Invalid update format")], task := none }
  | .ok update =>
    -- Return 200 OK immediately, handle updates in a goroutine
    { status := 200, json := [],
      task := some
        (match update.CallbackQuery with
         | some query => handleCallbackQuery query cfg send
         | none =>
           match update.Message with
           | some message => handleMessage message send
           | none => { events := [], exit := .done }) }

/-! ## The query string of a request (net/url, gin `c.Query`) -/

/-- Go `strings.Cut` for a one-character separator: the text before the first
`sep`, the text after it, and whether `sep` occurs. -/
def stringsCut (sep : Char) : List Char → List Char × List Char × Bool
  | [] => ([], [], false)
  | c :: cs =>
    if c = sep then ([], cs, true)
    else
      match stringsCut sep cs with
      | (before, after, found) => (c :: before, after, found)

/-- The value of a hexadecimal digit. -/
def unhex (c : Char) : Option Nat :=
  if 48 ≤ c.toNat ∧ c.toNat ≤ 57 then some (c.toNat - 48)
  else if 97 ≤ c.toNat ∧ c.toNat ≤ 102 then some (c.toNat - 97 + 10)
  else if 65 ≤ c.toNat ∧ c.toNat ≤ 70 then some (c.toNat - 65 + 10)
  else none

/-- Go `url.QueryUnescape`: `+` stands for a blank and `%XY` for the byte
`XY`; `none` for an error.  A byte below 128 is the character of that code;
a byte from 128 on is kept as the character of the same number, which is
exact only up to the UTF-8 decoding of the result. -/
def QueryUnescape : List Char → Option (List Char)
  | [] => some []
  | c :: rest =>
    if c = '%' then
      match rest with
      | a :: b :: rest2 =>
        match unhex a, unhex b, QueryUnescape rest2 with
        | some x, some y, some tail => some (Char.ofNat (16 * x + y) :: tail)
        | _, _, _ => none
      | _ => none
    else
      match QueryUnescape rest with
      | some tail => some ((if c = '+' then ' ' else c) :: tail)
      | none => none

/-- Go `url.ParseQuery`, as a list of keys and values in the order of the
query: pieces are separated by `&`; an empty piece, a piece with a semicolon
and a piece that does not unescape are skipped. -/
def ParseQuery (query : List Char) : List (String × String) :=
  (splitChars '&' query).filterMap fun piece =>
    if piece = [] then none
    else if ';' ∈ piece then none
    else
      match stringsCut '=' piece with
      | (key, value, _) =>
        match QueryUnescape key, QueryUnescape value with
        | some k, some v => some (String.mk k, String.mk v)
        | _, _ => none

/-- The raw query of an address: what stands after the first `?`, the
fragment after `#` cut off first. -/
def RawQuery (url : String) : List Char :=
  (stringsCut '?' (stringsCut '#' url.data).1).2.1

/-- The call `c.Query(key)` of gin on a request for the address `url`: the
first value of the key, `""` when the key is absent. -/
def Query (url key : String) : String :=
  match (ParseQuery (RawQuery url)).find? (fun kv => kv.1 = key) with
  | some kv => kv.2
  | none => ""

/-! ## api/handlers/authForm.go: RenderAuthForm -/

/-- What the form page handler does besides answering. -/
inductive PageEvent where
  | logError (msg : String)
  | logInfo (msg : String)
  /-- The chat call `telegramClient.EditMessageText(chatID, messageID, text)`. -/
  | EditMessageText (chatID messageID : Int) (text : String)
  /-- The call `c.SetCookie(name, value, 3600, "/", "", true, true)`. -/
  | SetCookie (name value : String)
deriving DecidableEq, Repr

/-- One run of the form page handler: status and body of the answer. -/
structure PageRun where
  status : Nat
  body : String
  events : List PageEvent
deriving DecidableEq, Repr

/-- The handler returned by `RenderAuthForm`, applied to a request whose query
is read with `query`; `edit` is the result of the chat call (`none` for
`nil`), `csrfToken` the string `GenerateRandomString(32)` returned, and `page`
the outcome of executing the template on the five values.  The three security
headers set before the template is executed are left out. -/
def RenderAuthForm (cfg : Config) (query : String → String) (edit : Option String)
    (csrfToken : String) (page : Except String String) : PageRun :=
  let chatID := query "chat_id"
  let messageID := query "message_id"
  let signature := query "signature"
  let authType := query "auth_type"
  -- Validate required parameters
  if chatID = "" ∨ signature = "" ∨ authType = "" ∨ messageID = "" then
    { status := 400, body := "Invalid request parameters",
      events := [.logError "Missing required parameters"] }
  -- Validate signature
  else if ¬ ValidateHMAC chatID signature cfg.HMACSecret then
    { status := 401, body := "Invalid request signature",
      events := [.logError "Invalid signature for auth form"] }
  else
    -- Remove keyboard from chat
    let chatIDInt := (ParseInt chatID).1
    let messageIDInt := (ParseInt messageID).1
    let editEvents :=
      match edit with
      | some _ => [PageEvent.EditMessageText chatIDInt messageIDInt "Continuing in the browser...",
                   .logInfo "Failed to send message"]
      | none => [PageEvent.EditMessageText chatIDInt messageIDInt "Continuing in the browser..."]
    -- Generate CSRF token
    let cookie := PageEvent.SetCookie "csrf_token" csrfToken
    -- Render template
    match page with
    | .error _ =>
      { status := 500, body := "Internal server error",
        events := editEvents ++ [cookie, .logError "Failed to render template"] }
    | .ok html => { status := 200, body := html, events := editEvents ++ [cookie] }

/-! ## utils/random.go: GenerateRandomString -/

namespace base64

/-- The alphabet of `base64.URLEncoding`. -/
def encodeURL : List Char :=
  "ABCDEFGHIJKLMNOPQRSTUVWXYZabcdefghijklmnopqrstuvwxyz0123456789-_".data

/-- The character `enc.encode[i&0x3F]` of `base64.URLEncoding`. -/
def encode (i : Nat) : Char := encodeURL.getD (i &&& 0x3F) 'A'

/-- Go `base64.URLEncoding.EncodeToString`: three bytes give four characters;
one or two bytes left over give two or three characters and the padding `=`
up to four. -/
def EncodeToString : List Nat → List Char
  | [] => []
  | [a] =>
    let val := a <<< 16
    [encode (val >>> 18), encode (val >>> 12), '=', '=']
  | [a, b] =>
    let val := a <<< 16 ||| b <<< 8
    [encode (val >>> 18), encode (val >>> 12), encode (val >>> 6), '=']
  | a :: b :: c :: rest =>
    let val := a <<< 16 ||| b <<< 8 ||| c
    encode (val >>> 18) :: encode (val >>> 12) :: encode (val >>> 6) :: encode val ::
      EncodeToString rest

end base64

/-- GenerateRandomString generates a random string of specified length.
`Read` is the outcome of `rand.Read(b)` on the buffer of `length` bytes: the
bytes it filled the buffer with, or its error.  The result is the string, or
the message of the panic: of `make` for a negative length, of the failed read,
or of the slice `[:length]` when the encoding is shorter than `length`. -/
def GenerateRandomString (length : Int) (Read : Except String (List Nat)) :
    Except String String :=
  if length < 0 then .error "makeslice: len out of range"
  else
    match Read with
    | .error err => .error err
    | .ok b =>
      let encoded := base64.EncodeToString b
      if length.toNat ≤ encoded.length then .ok (String.mk (encoded.take length.toNat))
      else .error "slice bounds out of range"

/-! ## Concrete inputs of the handlers -/

/-- The request of the handler test "Missing chat_id": a well-formed event, and
a context in which no key was set, the handler being invoked directly. -/
def directInvocation : WebhookInput :=
  { body := .ok { TenantID := "test-tenant", Domain := "test.auth0.com", Code := "",
                  Message := "", PhoneNumber := "" }
    jsonData := ""
    Get := fun _ => none }

/-- A request that passed the token check of the middleware for the chat 555. -/
def validatedInvocation : WebhookInput :=
  { directInvocation with
    Get := fun key =>
      if key = "auth0_domain" then some (.string "test.auth0.com")
      else if key = "chat_id" then some (.string "555")
      else none }

/-- A callback query with the given tag on the message 42 of the chat 555. -/
def exampleQuery (data : String) : TelegramCallbackQuery :=
  { ID := "q1", From := none, Data := data
    Message := some { MessageID := 42, From := none, Text := "",
                      Chat := some { ID := 555, Type_ := "private" } } }

/-- The address built for the tag `tenant_personal`, chat 555, message 42. -/
def personalURL : String :=
  "http://localhost:8080/bot/auth-form?chat_id=555&signature=8cd64c0feee9095ced12a497e5d62c560ded0f65c79fe268b31512071559c73e&auth_type=tenant_personal&messageID=42"

/-- The address built for another tag, chat 555, message 42. -/
def credentialsURL (tag : String) : String :=
  "http://localhost:8080/bot/auth-form?chat_id=555&signature=8cd64c0feee9095ced12a497e5d62c560ded0f65c79fe268b31512071559c73e&auth_type=" ++ tag ++ "&message_id=42"

/-- An update with a callback query that carries no message. -/
def queryWithoutMessage : TelegramUpdate :=
  { UpdateID := 1, Message := none,
    CallbackQuery := some { ID := "q1", From := none, Message := none,
                            Data := "auth_client_credentials" } }

/-- The update of the handler test "Invalid token": a `/start` message that
carries no chat. -/
def startWithoutChat : TelegramUpdate :=
  { UpdateID := 0, CallbackQuery := none,
    Message := some { MessageID := 0, From := none, Chat := none, Text := "/start" } }

/-- The update of the handler test "Valid start command". -/
def startWithChat : TelegramUpdate :=
  { UpdateID := 0, CallbackQuery := none,
    Message := some { MessageID := 1, From := none, Text := "/start",
                      Chat := some { ID := 123456789, Type_ := "private" } } }

/-! # Theorems -/

/-! ## The capability token (`utils/crypto.go`) -/

theorem foldl_or_zipWith_xor_self (x : List Nat) (v : Nat) :
    (List.zipWith (fun a b => a ^^^ b) x x).foldl (fun v d => v ||| d) v = v := by
  induction x generalizing v with
  | nil => rfl
  | cons a x ih =>
    simp only [List.zipWith_cons_cons, List.foldl_cons, Nat.xor_self, Nat.or_zero]
    exact ih v

theorem ConstantTimeCompare_self (x : List Nat) : hmac.ConstantTimeCompare x x = 1 := by
  unfold hmac.ConstantTimeCompare
  rw [if_neg (by simp), foldl_or_zipWith_xor_self]
  decide

theorem Sum256_length (m : List Nat) : (sha256.Sum256 m).length = 32 := by
  unfold sha256.Sum256
  simp only [List.length_append, sha256.be32, List.length_cons, List.length_nil]

theorem hmac_Sum_eq_RFC2104 (h : Hash) (key text : List Nat) :
    hmac.Sum (hmac.Write (hmac.New h key) text) [] =
      HMAC_RFC2104 h.Sum h.BlockSize key text := by
  simp only [hmac.Sum, hmac.Write, hmac.New, hmac.padKey, hmac.blockKey, HMAC_RFC2104,
    List.nil_append, gt_iff_lt]

theorem hmac_Sum_eq_HMAC_SHA256 (key text : List Nat) :
    hmac.Sum (hmac.Write (hmac.New sha256.New key) text) [] = HMAC_SHA256 key text :=
  hmac_Sum_eq_RFC2104 sha256.New key text

theorem HMAC_RFC2104_length (H : List Nat → List Nat) (B n : Nat) (key text : List Nat)
    (hH : ∀ m, (H m).length = n) : (HMAC_RFC2104 H B key text).length = n := by
  unfold HMAC_RFC2104
  exact hH _

theorem HMAC_SHA256_length (key text : List Nat) : (HMAC_SHA256 key text).length = 32 :=
  HMAC_RFC2104_length sha256.Sum256 64 32 key text Sum256_length

/-- The embedded SHA-256 on the FIPS 180-4 example message `abc`. -/
theorem Sum256_abc :
    hex.EncodeToString (sha256.Sum256 (bytesOf "abc")) =
      "ba7816bf8f01cfea414140de5dae2223b00361a396177a9cb410ff61f20015ad" := by
  decide!

/-- The embedded SHA-256 on the two-block FIPS 180-4 example message. -/
theorem Sum256_two_blocks :
    hex.EncodeToString
        (sha256.Sum256 (bytesOf "abcdbcdecdefdefgefghfghighijhijkijkljklmklmnlmnomnopnopq")) =
      "248d6a61d20638b8e5c026930c3e6039a33ce45964ff2167f6ecedd419db06c1" := by
  decide!

/-- The embedded HMAC on test case 2 of RFC 4231 (key `Jefe`). -/
theorem HMAC_SHA256_rfc4231_case2 :
    hex.EncodeToString (HMAC_SHA256 (bytesOf "Jefe") (bytesOf "what do ya want for nothing?")) =
      "5bdcc146bf60754e6a042426089575c75a003f089d2739839dec58b964ec3843" := by
  decide!

/-- The embedded HMAC on test case 6 of RFC 4231: a key of 131 bytes `0xaa`,
longer than one block, is hashed first. -/
theorem HMAC_SHA256_rfc4231_case6 :
    hex.EncodeToString
        (HMAC_SHA256 (List.replicate 131 0xaa)
          (bytesOf "Test Using Larger Than Block-Size Key - Hash Key First")) =
      "60e431591ee0b67f0d8a26aacbf5b77f8e0bc6213728c5140546040f0ee37f54" := by
  decide!

theorem hex_digit_mem (n : Nat) : hex.digit n ∈ hex.hextable := by
  unfold hex.digit
  by_cases h : n < 16
  · interval_cases n <;> decide
  · rw [List.getD_eq_default]
    · decide
    · have : hex.hextable.length = 16 := by decide
      omega

theorem EncodeToString_length (src : List Nat) :
    (hex.EncodeToString src).length = 2 * src.length := by
  unfold hex.EncodeToString
  rw [String.length]
  induction src with
  | nil => rfl
  | cons v src ih =>
    simp only [List.flatMap_cons, List.length_append, ih, List.length_cons, List.length_nil]
    omega

theorem EncodeToString_mem (src : List Nat) (c : Char)
    (h : c ∈ (hex.EncodeToString src).data) : c ∈ hex.hextable := by
  unfold hex.EncodeToString at h
  rw [List.mem_flatMap] at h
  obtain ⟨v, _, hc⟩ := h
  simp only [List.mem_cons, List.mem_singleton, List.not_mem_nil, or_false] at hc
  rcases hc with rfl | rfl <;> exact hex_digit_mem _

theorem GenerateHMAC_eq (data secret : String) :
    GenerateHMAC data secret =
      hex.EncodeToString (HMAC_SHA256 (bytesOf secret) (bytesOf data)) := by
  unfold GenerateHMAC
  dsimp only
  rw [hmac_Sum_eq_HMAC_SHA256]

/-- C1: round trip of the capability token.  For every data string and every
secret string, the empty ones included, `ValidateHMAC` accepts the token that
`GenerateHMAC` produced for the same data and secret. -/
theorem ValidateHMAC_GenerateHMAC (data secret : String) :
    ValidateHMAC data (GenerateHMAC data secret) secret = true := by
  unfold ValidateHMAC hmac.Equal
  dsimp only
  rw [ConstantTimeCompare_self]
  rfl

/-- C3: for every data string and secret, `GenerateHMAC data secret` is the hex
encoding of HMAC-SHA256 (RFC 2104) keyed with the bytes of the secret over the
bytes of the data; it has 64 characters, all of them among `0123456789abcdef`;
and on `"tenant.example.com:555"` with secret `"s3cret"` it evaluates to the
digest an independent HMAC-SHA256 implementation gives for that string. -/
theorem GenerateHMAC_is_hex_HMAC_SHA256 (data secret : String) :
    GenerateHMAC data secret =
        hex.EncodeToString (HMAC_SHA256 (bytesOf secret) (bytesOf data))
    ∧ (GenerateHMAC data secret).length = 64
    ∧ (∀ c ∈ (GenerateHMAC data secret).data, c ∈ "0123456789abcdef".data)
    ∧ GenerateHMAC "tenant.example.com:555" "s3cret" =
        "d52bf8af483711e126fb11605616d1d22aed3010723fe9cab1676bbfa398cb3c" := by
  refine ⟨GenerateHMAC_eq data secret, ?_, ?_, by decide!⟩
  · rw [GenerateHMAC_eq, EncodeToString_length, HMAC_SHA256_length]
  · intro c hc
    rw [GenerateHMAC_eq] at hc
    exact EncodeToString_mem _ c hc

/-- C4, evaluated at the inputs of `TestGenerateAuth0DomainToken`:
`GenerateAuth0DomainToken` signs its argument as it is, so for
`"https://test.auth0.com"` and for `"test.auth0.com/"` the token differs from
`GenerateHMAC "test.auth0.com"`, the token of the clean domain the test expects;
only the clean domain itself yields that token. -/
theorem GenerateAuth0DomainToken_not_canonical :
    GenerateAuth0DomainToken "https://test.auth0.com" "test-secret"
        = "0a48453c693e72f534afd7db7db0b21a4397dc59e81409cdb0f01a8b50e6af78"
    ∧ GenerateAuth0DomainToken "test.auth0.com/" "test-secret"
        = "abdd369deb7b2aac177b7c820f80eca23ce4faf77d238d2d2797620af799753b"
    ∧ GenerateHMAC (canonicalDomain "https://test.auth0.com") "test-secret"
        = "b0f1e8442008ddff58df13b2c8597979bf6e1a5d9c0a4566394a42e9b4bbbfde"
    ∧ GenerateHMAC (canonicalDomain "test.auth0.com/") "test-secret"
        = "b0f1e8442008ddff58df13b2c8597979bf6e1a5d9c0a4566394a42e9b4bbbfde"
    ∧ GenerateAuth0DomainToken "https://test.auth0.com" "test-secret"
        ≠ GenerateHMAC "test.auth0.com" "test-secret"
    ∧ GenerateAuth0DomainToken "test.auth0.com/" "test-secret"
        ≠ GenerateHMAC "test.auth0.com" "test-secret"
    ∧ GenerateAuth0DomainToken "test.auth0.com" "test-secret"
        = GenerateHMAC "test.auth0.com" "test-secret" := by
  refine ⟨by decide!, by decide!, by decide!, by decide!, by decide!, by decide!, rfl⟩

/-! ### The token part of the verification -/

theorem utf8EncodeRune_append_inj (a b : Nat) (r1 r2 : List Nat)
    (h : utf8EncodeRune a ++ r1 = utf8EncodeRune b ++ r2) : a = b ∧ r1 = r2 := by
  unfold utf8EncodeRune at h
  split_ifs at h <;>
    simp only [List.cons_append, List.nil_append, List.cons.injEq] at h <;>
    first
      | (constructor
         · omega
         · simp only [h])
      | (exfalso; omega)

theorem utf8EncodeRune_ne_nil (a : Nat) : utf8EncodeRune a ≠ [] := by
  unfold utf8EncodeRune
  split_ifs <;> simp

theorem utf8EncodeRune_lt (a : Nat) (h : a < 0x110000) : ∀ b ∈ utf8EncodeRune a, b < 256 := by
  intro b hb
  unfold utf8EncodeRune at hb
  split_ifs at hb <;>
    simp only [List.mem_cons, List.mem_singleton, List.not_mem_nil, or_false] at hb <;>
    omega

theorem Char_toNat_lt (c : Char) : c.toNat < 0x110000 := by
  have h := c.valid
  unfold UInt32.isValidChar Nat.isValidChar at h
  unfold Char.toNat
  omega

theorem Char_toNat_inj (c d : Char) (h : c.toNat = d.toNat) : c = d := by
  apply Char.ext
  apply UInt32.ext
  exact h

theorem flatMap_utf8_inj (l m : List Char)
    (h : l.flatMap (fun c => utf8EncodeRune c.toNat) = m.flatMap (fun c => utf8EncodeRune c.toNat)) :
    l = m := by
  induction l generalizing m with
  | nil =>
    cases m with
    | nil => rfl
    | cons d ds =>
      simp only [List.flatMap_nil, List.flatMap_cons] at h
      have := utf8EncodeRune_ne_nil d.toNat
      cases hd : utf8EncodeRune d.toNat with
      | nil => exact absurd hd this
      | cons _ _ => rw [hd] at h; simp at h
  | cons c cs ih =>
    cases m with
    | nil =>
      simp only [List.flatMap_nil, List.flatMap_cons] at h
      have := utf8EncodeRune_ne_nil c.toNat
      cases hd : utf8EncodeRune c.toNat with
      | nil => exact absurd hd this
      | cons _ _ => rw [hd] at h; simp at h
    | cons d ds =>
      simp only [List.flatMap_cons] at h
      obtain ⟨h1, h2⟩ := utf8EncodeRune_append_inj _ _ _ _ h
      rw [Char_toNat_inj c d h1, ih ds h2]

theorem bytesOf_inj (s t : String) (h : bytesOf s = bytesOf t) : s = t :=
  String.ext (flatMap_utf8_inj _ _ h)

theorem bytesOf_lt (s : String) : ∀ b ∈ bytesOf s, b < 256 := by
  intro b hb
  unfold bytesOf at hb
  rw [List.mem_flatMap] at hb
  obtain ⟨c, _, hc⟩ := hb
  exact utf8EncodeRune_lt _ (Char_toNat_lt c) b hc

theorem Nat_or_eq_zero (v a : Nat) (h : v ||| a = 0) : v = 0 ∧ a = 0 := by
  have key : ∀ i, (v.testBit i || a.testBit i) = false := fun i => by
    rw [← Nat.testBit_or, h, Nat.zero_testBit]
  constructor
  · apply Nat.eq_of_testBit_eq
    intro i
    have := key i
    rw [Bool.or_eq_false_iff] at this
    rw [this.1, Nat.zero_testBit]
  · apply Nat.eq_of_testBit_eq
    intro i
    have := key i
    rw [Bool.or_eq_false_iff] at this
    rw [this.2, Nat.zero_testBit]

theorem foldl_or_eq_zero (l : List Nat) (v : Nat)
    (h : l.foldl (fun v d => v ||| d) v = 0) : v = 0 ∧ ∀ d ∈ l, d = 0 := by
  induction l generalizing v with
  | nil => exact ⟨h, by simp⟩
  | cons a l ih =>
    rw [List.foldl_cons] at h
    obtain ⟨h1, h2⟩ := ih _ h
    have h1 := Nat_or_eq_zero _ _ h1
    refine ⟨h1.1, ?_⟩
    intro d hd
    rcases List.mem_cons.mp hd with rfl | hd
    · exact h1.2
    · exact h2 d hd

theorem foldl_or_lt (l : List Nat) (v : Nat) (hv : v < 256) (hl : ∀ d ∈ l, d < 256) :
    l.foldl (fun v d => v ||| d) v < 256 := by
  induction l generalizing v with
  | nil => exact hv
  | cons a l ih =>
    rw [List.foldl_cons]
    apply ih
    · exact Nat.or_lt_two_pow (n := 8) hv (hl a (List.mem_cons_self _ _))
    · intro d hd
      exact hl d (List.mem_cons_of_mem _ hd)

theorem zipWith_xor_eq_zero (x y : List Nat) (hlen : x.length = y.length)
    (h : ∀ d ∈ List.zipWith (fun a b => a ^^^ b) x y, d = 0) : x = y := by
  induction x generalizing y with
  | nil =>
    cases y with
    | nil => rfl
    | cons _ _ => simp at hlen
  | cons a x ih =>
    cases y with
    | nil => simp at hlen
    | cons b y =>
      simp only [List.zipWith_cons_cons, List.mem_cons, forall_eq_or_imp] at h
      simp only [List.length_cons, Nat.add_right_cancel_iff] at hlen
      rw [Nat.xor_eq_zero.mp h.1, ih y hlen h.2]

theorem ConstantTimeByteEq_zero (v : Nat) (hv : v < 256) :
    hmac.ConstantTimeByteEq v 0 = 1 ↔ v = 0 := by
  unfold hmac.ConstantTimeByteEq
  rw [Nat.xor_zero, Nat.shiftRight_eq_div_pow]
  omega

/-- On byte slices, `subtle.ConstantTimeCompare` returns 1 exactly for equal slices. -/
theorem ConstantTimeCompare_eq_one_iff (x y : List Nat)
    (hx : ∀ b ∈ x, b < 256) (hy : ∀ b ∈ y, b < 256) :
    hmac.ConstantTimeCompare x y = 1 ↔ x = y := by
  constructor
  · intro h
    unfold hmac.ConstantTimeCompare at h
    by_cases hlen : x.length = y.length
    · rw [if_neg (not_not.mpr hlen)] at h
      have hz : ∀ d ∈ List.zipWith (fun a b => a ^^^ b) x y, d < 256 := by
        intro d hd
        rw [List.mem_iff_get] at hd
        obtain ⟨i, rfl⟩ := hd
        rw [List.get_eq_getElem, List.getElem_zipWith]
        exact Nat.xor_lt_two_pow (n := 8) (hx _ (List.getElem_mem _)) (hy _ (List.getElem_mem _))
      rw [ConstantTimeByteEq_zero _ (foldl_or_lt _ 0 (by decide) hz)] at h
      exact zipWith_xor_eq_zero x y hlen (foldl_or_eq_zero _ _ h).2
    · rw [if_pos hlen] at h
      exact absurd h (by decide)
  · rintro rfl
    exact ConstantTimeCompare_self x

/-- The token part of `ValidateHMAC`: a token is accepted for `data` and
`secret` exactly when it is the string `GenerateHMAC data secret`. -/
theorem ValidateHMAC_eq_true_iff (data token secret : String) :
    ValidateHMAC data token secret = true ↔ token = GenerateHMAC data secret := by
  unfold ValidateHMAC hmac.Equal
  dsimp only
  rw [beq_iff_eq, ConstantTimeCompare_eq_one_iff _ _ (bytesOf_lt _) (bytesOf_lt _)]
  constructor
  · intro h
    exact (bytesOf_inj _ _ h).symm
  · intro h
    rw [h]

/-- The cases of `TestHMACFunctions`: the generated token validates, and does
not validate once `wrong` is appended to the data or to the secret. -/
theorem TestHMACFunctions_cases :
    (ValidateHMAC "test.auth0.com" (GenerateHMAC "test.auth0.com" "test-secret") "test-secret" = true
      ∧ ValidateHMAC ("test.auth0.com" ++ "wrong")
          (GenerateHMAC "test.auth0.com" "test-secret") "test-secret" = false
      ∧ ValidateHMAC "test.auth0.com"
          (GenerateHMAC "test.auth0.com" "test-secret") ("test-secret" ++ "wrong") = false)
    ∧ (ValidateHMAC "" (GenerateHMAC "" "test-secret") "test-secret" = true
      ∧ ValidateHMAC ("" ++ "wrong") (GenerateHMAC "" "test-secret") "test-secret" = false
      ∧ ValidateHMAC "" (GenerateHMAC "" "test-secret") ("test-secret" ++ "wrong") = false)
    ∧ (ValidateHMAC "test.auth0.com" (GenerateHMAC "test.auth0.com" "") "" = true
      ∧ ValidateHMAC ("test.auth0.com" ++ "wrong") (GenerateHMAC "test.auth0.com" "") "" = false
      ∧ ValidateHMAC "test.auth0.com" (GenerateHMAC "test.auth0.com" "") ("" ++ "wrong") = false) := by
  decide!

/-! ## The bearer middleware -/

theorem splitChars_ne_nil (sep : Char) (l : List Char) : splitChars sep l ≠ [] := by
  cases l with
  | nil => simp [splitChars]
  | cons c cs =>
    unfold splitChars
    split
    · simp
    · split <;> simp

theorem splitChars_of_not_mem (sep : Char) (l : List Char) (h : sep ∉ l) :
    splitChars sep l = [l] := by
  induction l with
  | nil => rfl
  | cons c cs ih =>
    have hc : c ≠ sep := fun e => h (by simp [e])
    have hcs : sep ∉ cs := fun m => h (List.mem_cons_of_mem _ m)
    unfold splitChars
    rw [if_neg hc, ih hcs]

theorem splitChars_append_sep (sep : Char) (pre rest : List Char) (h : sep ∉ pre) :
    splitChars sep (pre ++ sep :: rest) = pre :: splitChars sep rest := by
  induction pre with
  | nil => simp [splitChars]
  | cons c cs ih =>
    have hc : c ≠ sep := fun e => h (by simp [e])
    have hcs : sep ∉ cs := fun m => h (List.mem_cons_of_mem _ m)
    rw [List.cons_append, splitChars, if_neg hc, ih hcs]

theorem splitChars_eq_singleton (sep : Char) (l b : List Char)
    (h : splitChars sep l = [b]) : l = b := by
  induction l generalizing b with
  | nil => simpa [splitChars] using h
  | cons c cs ih =>
    unfold splitChars at h
    by_cases hc : c = sep
    · rw [if_pos hc] at h
      simp only [List.cons.injEq] at h
      exact absurd h.2 (splitChars_ne_nil sep cs)
    · rw [if_neg hc] at h
      cases hX : splitChars sep cs with
      | nil => exact absurd hX (splitChars_ne_nil sep cs)
      | cons p ps =>
        rw [hX] at h
        simp only [List.cons.injEq] at h
        obtain ⟨rfl, rfl⟩ := h
        rw [ih p hX]

theorem splitChars_eq_pair (sep : Char) (l a b : List Char)
    (h : splitChars sep l = [a, b]) : l = a ++ sep :: b := by
  induction l generalizing a with
  | nil => simp [splitChars] at h
  | cons c cs ih =>
    unfold splitChars at h
    by_cases hc : c = sep
    · rw [if_pos hc] at h
      simp only [List.cons.injEq] at h
      obtain ⟨rfl, h2⟩ := h
      rw [splitChars_eq_singleton sep cs b h2, hc]
      rfl
    · rw [if_neg hc] at h
      cases hX : splitChars sep cs with
      | nil => exact absurd hX (splitChars_ne_nil sep cs)
      | cons p ps =>
        rw [hX] at h
        simp only [List.cons.injEq] at h
        obtain ⟨rfl, rfl⟩ := h
        rw [ih p hX]
        rfl

theorem GenerateHMAC_no_space (data secret : String) : ' ' ∉ (GenerateHMAC data secret).data := by
  intro h
  have := EncodeToString_mem _ _ h
  revert this
  decide

/-- The header test of `ValidateHMACToken`: a non-empty header that splits at
the spaces into exactly `Bearer` and the expected token is the header
`"Bearer " ++ expected`, when the expected token has no space in it. -/
theorem bearer_header_iff (authHeader expected : String) (hE : ' ' ∉ expected.data) :
    (¬ authHeader = "" ∧
      ¬ ((stringsSplit authHeader ' ').length ≠ 2 ∨
          (stringsSplit authHeader ' ').getD 0 "" ≠ "Bearer") ∧
      ¬ (stringsSplit authHeader ' ').getD 1 "" ≠ expected)
    ↔ authHeader = "Bearer " ++ expected := by
  constructor
  · rintro ⟨_, h2, h3⟩
    rw [not_or, not_not, not_not] at h2
    rw [not_not] at h3
    obtain ⟨hlen, h0⟩ := h2
    unfold stringsSplit at hlen h0 h3
    cases hX : splitChars ' ' authHeader.data with
    | nil => rw [hX] at hlen; simp at hlen
    | cons a t =>
      cases t with
      | nil => rw [hX] at hlen; simp at hlen
      | cons b t2 =>
        cases t2 with
        | cons _ _ => rw [hX] at hlen; simp at hlen
        | nil =>
          rw [hX] at h0 h3
          simp only [List.map_cons, List.getD_cons_zero, List.getD_cons_succ] at h0 h3
          have hd := splitChars_eq_pair _ _ _ _ hX
          have ha : a = "Bearer".data := congrArg String.data h0
          have hb : b = expected.data := congrArg String.data h3
          apply String.ext
          rw [hd, String.data_append, ha, hb]
          rfl
  · intro h
    have hd : authHeader.data = "Bearer".data ++ ' ' :: expected.data := by
      rw [h, String.data_append]
      rfl
    have hs : stringsSplit authHeader ' ' = ["Bearer", expected] := by
      unfold stringsSplit
      rw [hd, splitChars_append_sep _ _ _ (by decide), splitChars_of_not_mem _ _ hE]
      rfl
    refine ⟨?_, ?_, ?_⟩
    · intro he
      rw [he] at hd
      exact absurd hd (by simp)
    · rw [hs]
      simp
    · rw [hs]
      simp

/-- What the handler does, in one test: the request goes on exactly when the
domain header is not empty and the Authorization header is `Bearer`, one
space, and the token of the composite `domain:chat_id` taken as received. -/
theorem ValidateHMACToken_eq_ite (secret : String) (c : Context) :
    ValidateHMACToken secret c =
      if c.GetHeader "x-auth0-domain" ≠ "" ∧
          c.GetHeader "Authorization" = "Bearer " ++
            GenerateAuth0DomainToken
              (c.GetHeader "x-auth0-domain" ++ ":" ++ c.GetHeader "x-chat_id") secret
      then Handled.next [("auth0_domain", c.GetHeader "x-auth0-domain"),
                         ("chat_id", c.GetHeader "x-chat_id")]
      else Handled.abort 401 := by
  have key := bearer_header_iff (c.GetHeader "Authorization")
    (GenerateAuth0DomainToken
      (c.GetHeader "x-auth0-domain" ++ ":" ++ c.GetHeader "x-chat_id") secret)
    (GenerateHMAC_no_space _ _)
  unfold ValidateHMACToken
  dsimp only
  by_cases hA : c.GetHeader "Authorization" = ""
  · rw [if_pos hA, if_neg]
    rintro ⟨_, h⟩
    exact (key.mpr h).1 hA
  rw [if_neg hA]
  by_cases hP : (stringsSplit (c.GetHeader "Authorization") ' ').length ≠ 2 ∨
      (stringsSplit (c.GetHeader "Authorization") ' ').getD 0 "" ≠ "Bearer"
  · rw [if_pos hP, if_neg]
    rintro ⟨_, h⟩
    exact (key.mpr h).2.1 hP
  rw [if_neg hP]
  by_cases hD : c.GetHeader "x-auth0-domain" = ""
  · rw [if_pos hD, if_neg]
    rintro ⟨h, _⟩
    exact h hD
  rw [if_neg hD, if_neg hD]
  by_cases hT : (stringsSplit (c.GetHeader "Authorization") ' ').getD 1 "" ≠
      GenerateAuth0DomainToken
        (c.GetHeader "x-auth0-domain" ++ ":" ++ c.GetHeader "x-chat_id") secret
  · rw [if_pos hT, if_neg]
    rintro ⟨_, h⟩
    exact (key.mpr h).2.2 hT
  · rw [if_neg hT, if_pos ⟨hD, key.mp ⟨hA, hP, hT⟩⟩]

/-- C5, evaluated at a domain header written with a scheme: with the secret
`test-secret`, the request whose domain header is `https://test.auth0.com`,
whose chat id header is `555` and whose Authorization header is `Bearer`
followed by the token of `https://test.auth0.com:555` is passed on to the next
handler, although that header is not `Bearer` followed by the token of the
canonical composite `test.auth0.com:555`.  The middleware hands the composite
to `GenerateAuth0DomainToken`, which strips neither the scheme nor the
trailing slash. -/
theorem ValidateHMACToken_accepts_uncanonical_domain :
    ValidateHMACToken "test-secret" uncanonicalRequest
        = Handled.next [("auth0_domain", "https://test.auth0.com"), ("chat_id", "555")]
    ∧ uncanonicalRequest.GetHeader "Authorization" ≠
        "Bearer " ++ GenerateHMAC
          (canonicalDomain (uncanonicalRequest.GetHeader "x-auth0-domain") ++ ":" ++
            uncanonicalRequest.GetHeader "x-chat_id") "test-secret" := by
  constructor
  · decide!
  · decide!

/-- The middleware as written: `ValidateHMACToken secret` passes a request on
(storing the domain and the chat id it read) exactly when the `x-auth0-domain`
header is not empty and the Authorization header is `Bearer`, one space, and
`GenerateAuth0DomainToken (domain ++ ":" ++ chat_id) secret`, where domain and
chat id are the header values as received; every other request is aborted
with status 401.  The `x-chat_id` header is never tested: the test that
follows its reading repeats the test of the domain. -/
theorem ValidateHMACToken_passes_iff (secret : String) (c : Context) :
    (ValidateHMACToken secret c =
        Handled.next [("auth0_domain", c.GetHeader "x-auth0-domain"),
                      ("chat_id", c.GetHeader "x-chat_id")]
      ↔ c.GetHeader "x-auth0-domain" ≠ "" ∧
        c.GetHeader "Authorization" = "Bearer " ++
          GenerateAuth0DomainToken
            (c.GetHeader "x-auth0-domain" ++ ":" ++ c.GetHeader "x-chat_id") secret)
    ∧ (ValidateHMACToken secret c ≠
        Handled.next [("auth0_domain", c.GetHeader "x-auth0-domain"),
                      ("chat_id", c.GetHeader "x-chat_id")]
      → ValidateHMACToken secret c = Handled.abort 401) := by
  rw [ValidateHMACToken_eq_ite]
  refine ⟨?_, ?_⟩
  · constructor
    · intro h
      by_contra hn
      rw [if_neg hn] at h
      exact Handled.noConfusion h
    · intro h
      rw [if_pos h]
  · intro h
    split
    · rename_i hc
      rw [if_pos hc] at h
      exact absurd rfl h
    · rfl

theorem UpdatePhoneActionTypeBased_action_token (templatesFS : String → Option String)
    (domain : String) (chatID : Int) (cfg : Config)
    (actionName actionType actionTypeVersion : String) (action : ActionCreate)
    (h : UpdatePhoneActionTypeBased_action templatesFS domain chatID cfg actionName actionType
      actionTypeVersion = .ok action) :
    secretValue action "BOT_GATEWAY_TOKEN" =
      some (GenerateAuth0DomainToken (domain ++ ":" ++ fmtD chatID) cfg.HMACSecret) := by
  unfold UpdatePhoneActionTypeBased_action at h
  dsimp only at h
  split at h
  · exact Except.noConfusion h
  · exact Except.noConfusion h
  · injection h with h
    subst h
    simp [secretValue, List.find?]

/-- C6: signer and verifier build the same composite subject.  For every
non-empty domain, every chat id and every configuration, whenever
`UpdatePhoneActionTypeBased` builds its action payload, the payload has a
secret `BOT_GATEWAY_TOKEN`, and `ValidateHMACToken cfg.HMACSecret` passes every
request whose Authorization header is `Bearer` followed by that secret,
whose `x-auth0-domain` header is the same domain and whose `x-chat_id`
header is the decimal rendering of the chat id. -/
theorem BOT_GATEWAY_TOKEN_accepted (templatesFS : String → Option String)
    (domain : String) (chatID : Int) (cfg : Config)
    (actionName actionType actionTypeVersion : String) (action : ActionCreate)
    (hdomain : domain ≠ "")
    (haction : UpdatePhoneActionTypeBased_action templatesFS domain chatID cfg actionName
      actionType actionTypeVersion = .ok action) :
    ∃ token, secretValue action "BOT_GATEWAY_TOKEN" = some token ∧
      ∀ c : Context,
        c.GetHeader "Authorization" = "Bearer " ++ token →
        c.GetHeader "x-auth0-domain" = domain →
        c.GetHeader "x-chat_id" = fmtD chatID →
        ValidateHMACToken cfg.HMACSecret c =
          Handled.next [("auth0_domain", domain), ("chat_id", fmtD chatID)] := by
  refine ⟨_, UpdatePhoneActionTypeBased_action_token _ _ _ _ _ _ _ _ haction, ?_⟩
  intro c hA hD hC
  rw [ValidateHMACToken_eq_ite, hA, hD, hC, if_pos ⟨hdomain, rfl⟩]

/-- C6 at a concrete input: domain `test.auth0.com`, chat id 555, secret
`test-secret`, action type `custom-phone-provider`. -/
theorem BOT_GATEWAY_TOKEN_accepted_example :
    "test.auth0.com" ≠ ""
    ∧ UpdatePhoneActionTypeBased_action exampleTemplates "test.auth0.com" 555 exampleConfig
        "Custom Phone Provider" "custom-phone-provider" "v1" = .ok exampleAction
    ∧ ∃ token, secretValue exampleAction "BOT_GATEWAY_TOKEN" = some token ∧
      ∀ c : Context,
        c.GetHeader "Authorization" = "Bearer " ++ token →
        c.GetHeader "x-auth0-domain" = "test.auth0.com" →
        c.GetHeader "x-chat_id" = fmtD 555 →
        ValidateHMACToken exampleConfig.HMACSecret c =
          Handled.next [("auth0_domain", "test.auth0.com"), ("chat_id", fmtD 555)] :=
  ⟨by decide, by decide!,
    BOT_GATEWAY_TOKEN_accepted exampleTemplates "test.auth0.com" 555 exampleConfig
      "Custom Phone Provider" "custom-phone-provider" "v1" exampleAction (by decide)
      (by decide!)⟩


/-! ## Binding reconciliation (`updateBindings`) -/

theorem updateBindings_loop_eq (actionName : String) (acc bs : List Binding) :
    updateBindings_loop actionName acc bs =
      acc ++ (bs.filter (fun b => b.DisplayName ≠ actionName)).map keptBinding := by
  induction bs generalizing acc with
  | nil => simp [updateBindings_loop]
  | cons b bs ih =>
    unfold updateBindings_loop
    by_cases h : b.DisplayName = actionName
    · rw [if_pos h, ih]
      simp [h]
    · rw [if_neg h, ih]
      simp [h, keptBinding]

theorem newBindings_eq (bs : List Binding) (actionName actionId : String) :
    (updateBindings_newBindings { Bindings := bs } actionName actionId).Bindings =
      (bs.filter (fun b => b.DisplayName ≠ actionName)).map keptBinding ++
        [{ DisplayName := actionName, ID := "",
           Ref := { Type_ := "action_id", Value := actionId } }] := by
  unfold updateBindings_newBindings
  rw [updateBindings_loop_eq]
  simp

theorem displayNames_newBindings (bs : List Binding) (actionName actionId : String) :
    displayNames (updateBindings_newBindings { Bindings := bs } actionName actionId).Bindings =
      (displayNames bs).filter (fun n => n ≠ actionName) ++ [actionName] := by
  rw [newBindings_eq]
  simp only [displayNames, List.map_append, List.map_map, List.map_cons, List.map_nil]
  congr 1
  rw [List.filter_map]
  rfl

theorem updateBindings_sent (bs : ActionBindings) (patch : ActionBindings → Except String Response)
    (actionName actionId : String) :
    (updateBindings (.ok (.ok bs)) patch actionName actionId).sent =
      some (updateBindings_newBindings bs actionName actionId) := by
  unfold updateBindings
  dsimp only
  split
  · rfl
  · split <;> rfl

theorem count_filter_ne (l : List String) (x : String) :
    ((l.filter (fun n => n ≠ x)).length) + l.count x = l.length := by
  induction l with
  | nil => rfl
  | cons a l ih =>
    by_cases h : a = x
    · subst h
      simp at ih ⊢
      omega
    · have h2 : ¬ (a == x) = true := by simpa using h
      simp [h, List.count_cons, h2] at ih ⊢
      omega

theorem length_newBindings (bs : List Binding) (actionName actionId : String) :
    (updateBindings_newBindings { Bindings := bs } actionName actionId).Bindings.length =
      ((displayNames bs).filter (fun n => n ≠ actionName)).length + 1 := by
  have h := congrArg List.length (displayNames_newBindings bs actionName actionId)
  simpa [displayNames] using h

/-- C7, counterexample: an existing list of two bindings, both with the display
name `X`, contains a binding named `X`, and reconciling it with the action
name `X` gives a list of length 1, not 2. -/
theorem reconcile_two_same_name_shrinks :
    (∃ b ∈ twoBindingsNamedX, b.DisplayName = "X")
    ∧ twoBindingsNamedX.length = 2
    ∧ (updateBindings_newBindings { Bindings := twoBindingsNamedX } "X" "act_new").Bindings.length
        = 1
    ∧ (updateBindings_newBindings { Bindings := twoBindingsNamedX } "X" "act_new").Bindings.length
        ≠ twoBindingsNamedX.length := by
  decide

/-- C7, amended: for every existing binding list of length N in which k bindings
have the display name X, reconciling with the action name X gives a list of
length N - k + 1; its length is N exactly when one binding is named X. -/
theorem reconcile_length (bs : List Binding) (actionName actionId : String) :
    (updateBindings_newBindings { Bindings := bs } actionName actionId).Bindings.length
        + (displayNames bs).count actionName = bs.length + 1
    ∧ ((updateBindings_newBindings { Bindings := bs } actionName actionId).Bindings.length
        = bs.length ↔ (displayNames bs).count actionName = 1) := by
  have h1 := length_newBindings bs actionName actionId
  have h2 := count_filter_ne (displayNames bs) actionName
  have h3 : (displayNames bs).length = bs.length := by simp [displayNames]
  constructor <;> omega

/-- C8: for every existing binding list of length N with no binding whose
display name is X, reconciling with the action name X gives a list of length
N + 1; its first N display names are the original display names in the
original order (its first N entries are the references to the original
bindings by id), and its last entry is the new binding named X that refers
to the new action id. -/
theorem reconcile_absent_appends (bs : List Binding) (actionName actionId : String)
    (h : actionName ∉ displayNames bs) :
    (updateBindings_newBindings { Bindings := bs } actionName actionId).Bindings.length
        = bs.length + 1
    ∧ displayNames
        ((updateBindings_newBindings { Bindings := bs } actionName actionId).Bindings.take
          bs.length) = displayNames bs
    ∧ (updateBindings_newBindings { Bindings := bs } actionName actionId).Bindings.take
          bs.length = bs.map keptBinding
    ∧ (updateBindings_newBindings { Bindings := bs } actionName actionId).Bindings.drop
          bs.length =
        [{ DisplayName := actionName, ID := "",
           Ref := { Type_ := "action_id", Value := actionId } }] := by
  have hf : bs.filter (fun b => b.DisplayName ≠ actionName) = bs := by
    rw [List.filter_eq_self]
    intro b hb
    have : b.DisplayName ≠ actionName := fun e => h (e ▸ List.mem_map_of_mem _ hb)
    simpa using this
  have hl : (bs.map keptBinding).length = bs.length := List.length_map _ _
  rw [newBindings_eq, hf]
  refine ⟨by simp, ?_, ?_, ?_⟩
  · rw [← hl, List.take_left]
    simp [displayNames, keptBinding]
  · rw [← hl, List.take_left]
  · rw [← hl, List.drop_left]

/-- C8 at a concrete input: two bindings named `A`, reconciled with `X`. -/
theorem reconcile_absent_appends_example :
    "X" ∉ displayNames twoBindingsNamedA
    ∧ (updateBindings_newBindings { Bindings := twoBindingsNamedA } "X" "act_new").Bindings
        = [{ DisplayName := "A", ID := "", Ref := { Type_ := "binding_id", Value := "bnd_1" } },
           { DisplayName := "A", ID := "", Ref := { Type_ := "binding_id", Value := "bnd_2" } },
           { DisplayName := "X", ID := "", Ref := { Type_ := "action_id", Value := "act_new" } }]
    ∧ (updateBindings_newBindings { Bindings := twoBindingsNamedA } "X" "act_new").Bindings.length
        = twoBindingsNamedA.length + 1 :=
  ⟨by decide, by decide,
    (reconcile_absent_appends twoBindingsNamedA "X" "act_new" (by decide)).1⟩

/-- C9: for every existing binding list, action name X and new action id, the
display names of the new list are the original display names with every X
removed, in order, followed by X; the bindings named X in the new list are
exactly one, the binding `{X, ref: {action_id, new id}}`; and that binding is
the last entry. -/
theorem reconcile_names (bs : List Binding) (actionName actionId : String) :
    displayNames (updateBindings_newBindings { Bindings := bs } actionName actionId).Bindings
        = (displayNames bs).filter (fun n => n ≠ actionName) ++ [actionName]
    ∧ (updateBindings_newBindings { Bindings := bs } actionName actionId).Bindings.filter
          (fun b => b.DisplayName = actionName)
        = [{ DisplayName := actionName, ID := "",
             Ref := { Type_ := "action_id", Value := actionId } }]
    ∧ (updateBindings_newBindings { Bindings := bs } actionName actionId).Bindings.getLast?
        = some { DisplayName := actionName, ID := "",
                 Ref := { Type_ := "action_id", Value := actionId } } := by
  refine ⟨displayNames_newBindings bs actionName actionId, ?_, ?_⟩
  · rw [newBindings_eq, List.filter_append]
    have : ((bs.filter (fun b => b.DisplayName ≠ actionName)).map keptBinding).filter
        (fun b => b.DisplayName = actionName) = [] := by
      rw [List.filter_eq_nil_iff]
      intro b hb
      rw [List.mem_map] at hb
      obtain ⟨a, ha, rfl⟩ := hb
      rw [List.mem_filter] at ha
      simpa [keptBinding] using ha.2
    rw [this]
    simp
  · rw [newBindings_eq]
    simp

/-- C10, counterexample: reconciling two existing bindings that share the
display name `A` with the action name `X` gives the display names `A, A, X`:
the name `A` occurs twice. -/
theorem reconcile_keeps_other_duplicates :
    ¬ (displayNames
        (updateBindings_newBindings { Bindings := twoBindingsNamedA } "X" "act_new").Bindings).Nodup := by
  decide

/-- C10, amended: after reconciliation the action name occurs exactly once among
the display names, and every other display name occurs as often as in the
existing list; so the new list is free of repeated display names if and only
if the existing bindings with other names were. -/
theorem reconcile_name_counts (bs : List Binding) (actionName actionId : String) :
    (∀ n, (displayNames
        (updateBindings_newBindings { Bindings := bs } actionName actionId).Bindings).count n
          = if n = actionName then 1 else (displayNames bs).count n)
    ∧ ((displayNames
        (updateBindings_newBindings { Bindings := bs } actionName actionId).Bindings).Nodup
          ↔ ((displayNames bs).filter (fun n => n ≠ actionName)).Nodup) := by
  rw [displayNames_newBindings]
  constructor
  · intro n
    rw [List.count_append]
    by_cases h : n = actionName
    · subst h
      rw [if_pos rfl, List.count_eq_zero.mpr]
      · simp
      · simp
    · rw [if_neg h, List.count_filter (by simpa using h)]
      have : ¬ (actionName == n) = true := by simpa using fun e => h e.symm
      simp [List.count_cons, this]
  · rw [List.nodup_append]
    simp

/-! ## Device-flow polling (`PollDeviceToken`, `pollForDeviceToken`) -/

/-- `PollDeviceToken` gives a credential exactly for a reply whose status is
not 403 and whose body decodes; the status is not looked at otherwise. -/
theorem PollDeviceToken_ok_iff (resp : Answer TokenResponse) (token : TokenResponse) :
    PollDeviceToken resp = .ok token ↔
      ∃ r, resp = .ok r ∧ r.StatusCode ≠ 403 ∧ r.decoded = .ok token := by
  unfold PollDeviceToken
  constructor
  · intro h
    split at h
    · exact Except.noConfusion h
    · rename_i r
      refine ⟨r, rfl, ?_⟩
      split at h
      · exact Except.noConfusion h
      · rename_i hs
        refine ⟨hs, ?_⟩
        split at h
        · exact Except.noConfusion h
        · rename_i response hd
          rw [hd, ← Except.ok.inj h]
  · rintro ⟨r, rfl, hs, hd⟩
    simp only [if_neg hs, hd]

theorem PollDeviceToken_403 (r : Reply TokenResponse) (h : r.StatusCode = 403) :
    PollDeviceToken (.ok r) = .error GoError.ErrAuthorizationPending := by
  unfold PollDeviceToken
  simp only [if_pos h]

theorem pollTick_pending (deviceCode : DeviceCodeResponse) (chatID : Int) (domain : String)
    (expiry : Int) (t : Tick) (h : t.pending expiry) :
    pollTick deviceCode chatID domain expiry t =
      ([.PollDeviceToken domain deviceCode.DeviceCode], false) := by
  unfold pollTick
  rw [if_neg h.1, h.2]
  rfl

theorem pollTick_expired (deviceCode : DeviceCodeResponse) (chatID : Int) (domain : String)
    (expiry : Int) (t : Tick) (h : t.now > expiry) :
    pollTick deviceCode chatID domain expiry t =
      ([.SendMessage chatID timedOutMessage], true) := by
  unfold pollTick
  rw [if_pos h]

/-- A tick either keeps the task polling, and then it is a pending tick, or
makes the function return. -/
theorem pollTick_continue_iff (deviceCode : DeviceCodeResponse) (chatID : Int) (domain : String)
    (expiry : Int) (t : Tick) :
    (pollTick deviceCode chatID domain expiry t).2 = false ↔ t.pending expiry := by
  constructor
  · intro h
    unfold pollTick at h
    unfold Tick.pending
    by_cases hn : t.now > expiry
    · rw [if_pos hn] at h
      exact Bool.noConfusion h
    · rw [if_neg hn] at h
      refine ⟨hn, ?_⟩
      cases hp : PollDeviceToken t.poll with
      | error err =>
        rw [hp] at h
        by_cases he : err = GoError.ErrAuthorizationPending
        · rw [he]
        · simp only [if_neg he] at h
          exact Bool.noConfusion h
      | ok token =>
        rw [hp] at h
        cases henable : t.enable with
        | none => rw [henable] at h; exact Bool.noConfusion h
        | some e => rw [henable] at h; exact Bool.noConfusion h
  · intro h
    rw [pollTick_pending _ _ _ _ _ h]

theorem pollLoop_pending (deviceCode : DeviceCodeResponse) (chatID : Int) (domain : String)
    (expiry : Int) (ticks : List Tick) (h : ∀ t ∈ ticks, t.pending expiry) :
    pollLoop deviceCode chatID domain expiry ticks =
      (ticks.map (fun _ => PollEvent.PollDeviceToken domain deviceCode.DeviceCode), false) := by
  induction ticks with
  | nil => rfl
  | cons t ticks ih =>
    have ht := pollTick_pending deviceCode chatID domain expiry t (h t (List.mem_cons_self _ _))
    have ih' := ih (fun p hp => h p (List.mem_cons_of_mem _ hp))
    unfold pollLoop
    rw [ht, ih']
    rfl

theorem pollLoop_append_stop (deviceCode : DeviceCodeResponse) (chatID : Int) (domain : String)
    (expiry : Int) (pre rest : List Tick) (t : Tick) (h : ∀ p ∈ pre, p.pending expiry)
    (ht : (pollTick deviceCode chatID domain expiry t).2 = true) :
    pollLoop deviceCode chatID domain expiry (pre ++ t :: rest) =
      (pre.map (fun _ => PollEvent.PollDeviceToken domain deviceCode.DeviceCode) ++
        (pollTick deviceCode chatID domain expiry t).1, true) := by
  induction pre with
  | nil =>
    rw [List.nil_append, pollLoop, if_pos ht]
    rfl
  | cons p pre ih =>
    have hp := pollTick_pending deviceCode chatID domain expiry p (h p (List.mem_cons_self _ _))
    have ih' := ih (fun q hq => h q (List.mem_cons_of_mem _ hq))
    rw [List.cons_append, pollLoop, hp, ih']
    rfl

/-- A loop that has returned did so at one tick, after pending ticks only. -/
theorem pollLoop_returned (deviceCode : DeviceCodeResponse) (chatID : Int) (domain : String)
    (expiry : Int) (ticks : List Tick)
    (h : (pollLoop deviceCode chatID domain expiry ticks).2 = true) :
    ∃ pre t rest, ticks = pre ++ t :: rest ∧ (∀ p ∈ pre, p.pending expiry) ∧
      (pollTick deviceCode chatID domain expiry t).2 = true := by
  induction ticks with
  | nil => exact Bool.noConfusion h
  | cons t ticks ih =>
    by_cases ht : (pollTick deviceCode chatID domain expiry t).2 = true
    · exact ⟨[], t, ticks, rfl, by simp, ht⟩
    · rw [pollLoop, if_neg ht] at h
      obtain ⟨pre, u, rest, hticks, hpre, hu⟩ := ih h
      refine ⟨t :: pre, u, rest, by rw [hticks]; rfl, ?_, hu⟩
      intro p hp
      rcases List.mem_cons.mp hp with rfl | hp
      · exact (pollTick_continue_iff _ _ _ _ _).mp (by simpa using ht)
      · exact hpre p hp

theorem pollForDeviceToken_eq (deviceCode : DeviceCodeResponse) (chatID : Int) (domain : String)
    (start : Int) (ticks : List Tick) (hint : 0 < seconds deviceCode.Interval) :
    pollForDeviceToken deviceCode chatID domain start ticks =
      { events := (pollLoop deviceCode chatID domain (start + seconds deviceCode.ExpiresIn)
          ticks).1
        exit := if (pollLoop deviceCode chatID domain (start + seconds deviceCode.ExpiresIn)
          ticks).2 then .returned else .waiting } := by
  unfold pollForDeviceToken
  dsimp only
  rw [if_neg (not_le.mpr hint)]

theorem pollForDeviceToken_returned_loop (deviceCode : DeviceCodeResponse) (chatID : Int)
    (domain : String) (start : Int) (ticks : List Tick)
    (h : (pollForDeviceToken deviceCode chatID domain start ticks).exit = .returned) :
    0 < seconds deviceCode.Interval ∧
      (pollLoop deviceCode chatID domain (start + seconds deviceCode.ExpiresIn) ticks).2 = true := by
  unfold pollForDeviceToken at h
  dsimp only at h
  by_cases hint : seconds deviceCode.Interval ≤ 0
  · rw [if_pos hint] at h
    exact PollExit.noConfusion h
  · rw [if_neg hint] at h
    refine ⟨not_le.mp hint, ?_⟩
    by_cases hl : (pollLoop deviceCode chatID domain (start + seconds deviceCode.ExpiresIn)
        ticks).2 = true
    · exact hl
    · simp only [hl] at h
      exact PollExit.noConfusion h

/-- The four ways a tick makes the function return, with the actions of each. -/
theorem pollTick_stop_cases (deviceCode : DeviceCodeResponse) (chatID : Int) (domain : String)
    (expiry : Int) (t : Tick) (h : (pollTick deviceCode chatID domain expiry t).2 = true) :
    (pollTick deviceCode chatID domain expiry t).1 = [.SendMessage chatID timedOutMessage]
    ∨ (pollTick deviceCode chatID domain expiry t).1 =
        [.PollDeviceToken domain deviceCode.DeviceCode,
         .logError "Failed to poll for device token",
         .SendMessage chatID authFailedMessage]
    ∨ (∃ token, PollDeviceToken t.poll = .ok token ∧
        (pollTick deviceCode chatID domain expiry t).1 =
          [.PollDeviceToken domain deviceCode.DeviceCode,
           .EnablePhoneExtensibility domain token.AccessToken chatID,
           .logError "Failed to setup Auth0 action after device flow",
           .SendMessage chatID setupFailedMessage])
    ∨ (∃ token, PollDeviceToken t.poll = .ok token ∧
        (pollTick deviceCode chatID domain expiry t).1 =
          [.PollDeviceToken domain deviceCode.DeviceCode,
           .EnablePhoneExtensibility domain token.AccessToken chatID,
           .SendMessage chatID (completedMessage domain chatID)]) := by
  unfold pollTick at h ⊢
  by_cases hn : t.now > expiry
  · left
    rw [if_pos hn]
  · rw [if_neg hn] at h ⊢
    cases hp : PollDeviceToken t.poll with
    | error err =>
      rw [hp] at h
      by_cases he : err = GoError.ErrAuthorizationPending
      · simp only [if_pos he] at h
        exact Bool.noConfusion h
      · right; left
        simp only [if_neg he]
    | ok token =>
      cases henable : t.enable with
      | some e => right; right; left; exact ⟨token, rfl, rfl⟩
      | none => right; right; right; exact ⟨token, rfl, rfl⟩

theorem filter_polls (p : PollEvent → Bool) (e : PollEvent) (hp : p e = false) (pre : List Tick) :
    (pre.map (fun _ => e)).filter p = [] := by
  induction pre with
  | nil => rfl
  | cons _ pre ih => rw [List.map_cons, List.filter_cons, hp, ih]; rfl

/-- C11, evaluated at a reply with status 429: the token endpoint answers a poll
with the JSON error object `slow_down`.  `PollDeviceToken` returns a
credential with an empty access token and no error, and the polling task
then calls `EnablePhoneExtensibility` with the empty token. -/
theorem PollDeviceToken_non2xx_gives_credential :
    PollDeviceToken slowDownAnswer =
        .ok { AccessToken := "", TokenType := "", ExpiresIn := 0 }
    ∧ pollForDeviceToken exampleDeviceCode 555 "test.auth0.com" 0
        [{ now := 5000000000, poll := slowDownAnswer, enable := some "unauthorized" }] =
      { events := [.PollDeviceToken "test.auth0.com" "dev_1",
                   .EnablePhoneExtensibility "test.auth0.com" "" 555,
                   .logError "Failed to setup Auth0 action after device flow",
                   .SendMessage 555 setupFailedMessage],
        exit := .returned } := by
  constructor
  · rfl
  · decide

/-- C12: for every reply of the token endpoint with status 403, whatever its
body, `PollDeviceToken` returns `ErrAuthorizationPending` (an error, hence no
credential), and at a tick before the deadline `pollForDeviceToken` does
nothing but that poll: no log entry, no notification, and it goes on to the
next tick. -/
theorem PollDeviceToken_403_is_pending (r : Reply TokenResponse)
    (deviceCode : DeviceCodeResponse) (chatID : Int) (domain : String) (expiry : Int) (t : Tick)
    (h403 : r.StatusCode = 403) (hpoll : t.poll = .ok r) (hnow : ¬ t.now > expiry) :
    PollDeviceToken (.ok r) = .error GoError.ErrAuthorizationPending
    ∧ pollTick deviceCode chatID domain expiry t =
        ([.PollDeviceToken domain deviceCode.DeviceCode], false) := by
  have h := PollDeviceToken_403 r h403
  refine ⟨h, pollTick_pending _ _ _ _ _ ⟨hnow, ?_⟩⟩
  rw [hpoll, h]

/-- C12 at the reply `authorization_pending`, 5 seconds after the start of a
device authorization that expires after 60 seconds. -/
theorem PollDeviceToken_403_is_pending_example :
    PollDeviceToken pendingAnswer = .error GoError.ErrAuthorizationPending
    ∧ pollTick exampleDeviceCode 555 "test.auth0.com" 60000000000 (pendingTickAt 5) =
        ([.PollDeviceToken "test.auth0.com" "dev_1"], false) :=
  PollDeviceToken_403_is_pending
    { StatusCode := 403, Body := "\x7b\"error\":\"authorization_pending\"\x7d",
      decoded := .ok { AccessToken := "", TokenType := "", ExpiresIn := 0 } }
    exampleDeviceCode 555 "test.auth0.com" 60000000000 (pendingTickAt 5) rfl rfl (by decide)

/-- C13: when a tick finds the time after the deadline (the ticks before it, if
any, were pending polls before the deadline), `pollForDeviceToken` sends the
time-out notification at that tick, without a poll and without a
provisioning call, and returns: the run consists of the pending polls and
that one notification, whatever ticks would follow. -/
theorem pollForDeviceToken_expired (deviceCode : DeviceCodeResponse) (chatID : Int)
    (domain : String) (start : Int) (pre rest : List Tick) (t : Tick)
    (hint : 0 < seconds deviceCode.Interval)
    (hpre : ∀ p ∈ pre, p.pending (start + seconds deviceCode.ExpiresIn))
    (ht : t.now > start + seconds deviceCode.ExpiresIn) :
    pollTick deviceCode chatID domain (start + seconds deviceCode.ExpiresIn) t =
        ([.SendMessage chatID timedOutMessage], true)
    ∧ pollForDeviceToken deviceCode chatID domain start (pre ++ t :: rest) =
        { events := pre.map (fun _ => PollEvent.PollDeviceToken domain deviceCode.DeviceCode) ++
            [.SendMessage chatID timedOutMessage],
          exit := .returned }
    ∧ pollForDeviceToken deviceCode chatID domain start (pre ++ t :: rest) =
        pollForDeviceToken deviceCode chatID domain start (pre ++ [t]) := by
  have hstop := pollTick_expired deviceCode chatID domain _ t ht
  have hrun : ∀ rest, pollForDeviceToken deviceCode chatID domain start (pre ++ t :: rest) =
      { events := pre.map (fun _ => PollEvent.PollDeviceToken domain deviceCode.DeviceCode) ++
          [.SendMessage chatID timedOutMessage],
        exit := .returned } := by
    intro rest
    rw [pollForDeviceToken_eq _ _ _ _ _ hint,
      pollLoop_append_stop _ _ _ _ pre rest t hpre (by rw [hstop]), hstop]
    rfl
  exact ⟨hstop, hrun rest, by rw [hrun rest, hrun []]⟩

/-- C13 at the scenario of the specification: a pending poll 5 seconds after
the start of a device authorization that expires after 60 seconds, a tick 61
seconds later, and two more ticks after that one. -/
theorem pollForDeviceToken_expired_example :
    pollForDeviceToken exampleDeviceCode 555 "test.auth0.com" 0
        ([pendingTickAt 5] ++ pendingTickAt 66 :: [pendingTickAt 71, pendingTickAt 76]) =
      { events := [.PollDeviceToken "test.auth0.com" "dev_1",
                   .SendMessage 555 timedOutMessage],
        exit := .returned } :=
  (pollForDeviceToken_expired exampleDeviceCode 555 "test.auth0.com" 0 [pendingTickAt 5]
    [pendingTickAt 71, pendingTickAt 76] (pendingTickAt 66) (by decide)
    (by
      intro p hp
      rw [List.mem_singleton.mp hp]
      exact ⟨by decide, rfl⟩)
    (by decide)).2.1

/-- C14: over any number of ticks that all come before the deadline with a poll
that reports a pending authorization, `pollForDeviceToken` only polls, once
per tick: it sends no notification, does not invoke the provisioning, and is
still waiting for the next tick. -/
theorem pollForDeviceToken_pending (deviceCode : DeviceCodeResponse) (chatID : Int)
    (domain : String) (start : Int) (ticks : List Tick)
    (hint : 0 < seconds deviceCode.Interval)
    (h : ∀ t ∈ ticks, t.pending (start + seconds deviceCode.ExpiresIn)) :
    pollForDeviceToken deviceCode chatID domain start ticks =
        { events := ticks.map (fun _ => PollEvent.PollDeviceToken domain deviceCode.DeviceCode),
          exit := .waiting }
    ∧ (pollForDeviceToken deviceCode chatID domain start ticks).events.filter
        PollEvent.isSendMessage = []
    ∧ (pollForDeviceToken deviceCode chatID domain start ticks).events.filter
        PollEvent.isEnable = [] := by
  have hrun : pollForDeviceToken deviceCode chatID domain start ticks =
      { events := ticks.map (fun _ => PollEvent.PollDeviceToken domain deviceCode.DeviceCode),
        exit := .waiting } := by
    rw [pollForDeviceToken_eq _ _ _ _ _ hint, pollLoop_pending _ _ _ _ ticks h]
    rfl
  refine ⟨hrun, ?_, ?_⟩
  · rw [hrun]
    exact filter_polls _ _ rfl ticks
  · rw [hrun]
    exact filter_polls _ _ rfl ticks

/-- C14 at three pending polls, 5, 10 and 15 seconds after the start. -/
theorem pollForDeviceToken_pending_example :
    pollForDeviceToken exampleDeviceCode 555 "test.auth0.com" 0
        [pendingTickAt 5, pendingTickAt 10, pendingTickAt 15] =
      { events := [.PollDeviceToken "test.auth0.com" "dev_1",
                   .PollDeviceToken "test.auth0.com" "dev_1",
                   .PollDeviceToken "test.auth0.com" "dev_1"],
        exit := .waiting } :=
  (pollForDeviceToken_pending exampleDeviceCode 555 "test.auth0.com" 0
    [pendingTickAt 5, pendingTickAt 10, pendingTickAt 15] (by decide)
    (by
      intro t ht
      simp only [List.mem_cons, List.mem_singleton, List.not_mem_nil, or_false] at ht
      rcases ht with rfl | rfl | rfl <;> exact ⟨by decide, rfl⟩)).1

/-- The actions of a run that has returned: the polls of the pending ticks,
then the actions of the tick that made it return. -/
theorem pollForDeviceToken_returned_events (deviceCode : DeviceCodeResponse) (chatID : Int)
    (domain : String) (start : Int) (ticks : List Tick)
    (h : (pollForDeviceToken deviceCode chatID domain start ticks).exit = .returned) :
    ∃ pre t rest, ticks = pre ++ t :: rest ∧
      (pollTick deviceCode chatID domain (start + seconds deviceCode.ExpiresIn) t).2 = true ∧
      (pollForDeviceToken deviceCode chatID domain start ticks).events =
        pre.map (fun _ => PollEvent.PollDeviceToken domain deviceCode.DeviceCode) ++
          (pollTick deviceCode chatID domain (start + seconds deviceCode.ExpiresIn) t).1 := by
  obtain ⟨hint, hloop⟩ := pollForDeviceToken_returned_loop _ _ _ _ _ h
  obtain ⟨pre, t, rest, hticks, hpre, ht⟩ := pollLoop_returned _ _ _ _ _ hloop
  refine ⟨pre, t, rest, hticks, ht, ?_⟩
  rw [pollForDeviceToken_eq _ _ _ _ _ hint, hticks, pollLoop_append_stop _ _ _ _ pre rest t hpre ht]

/-- C15: every run of `pollForDeviceToken` that has returned, over every
sequence of ticks (times and poll results), ends with a chat notification
carrying one of the four final messages (time-out, authentication failure,
provisioning failure, success); that notification is the only one of the
run; `EnablePhoneExtensibility` is invoked at most once, and when it is, it
directly follows a poll at a tick whose `PollDeviceToken` returned a
credential, and it is given this domain, this chat id and the access token
of that credential. -/
theorem pollForDeviceToken_returned (deviceCode : DeviceCodeResponse) (chatID : Int)
    (domain : String) (start : Int) (ticks : List Tick)
    (h : (pollForDeviceToken deviceCode chatID domain start ticks).exit = .returned) :
    (∃ before message,
        (pollForDeviceToken deviceCode chatID domain start ticks).events =
          before ++ [.SendMessage chatID message] ∧
        message ∈ [timedOutMessage, authFailedMessage, setupFailedMessage,
          completedMessage domain chatID])
    ∧ ((pollForDeviceToken deviceCode chatID domain start ticks).events.filter
        PollEvent.isSendMessage).length = 1
    ∧ ((pollForDeviceToken deviceCode chatID domain start ticks).events.filter
        PollEvent.isEnable).length ≤ 1
    ∧ (∀ d accessToken ch,
        PollEvent.EnablePhoneExtensibility d accessToken ch ∈
          (pollForDeviceToken deviceCode chatID domain start ticks).events →
        d = domain ∧ ch = chatID ∧
        (∃ t ∈ ticks, ∃ token, PollDeviceToken t.poll = .ok token ∧
          accessToken = token.AccessToken) ∧
        ∃ before after,
          (pollForDeviceToken deviceCode chatID domain start ticks).events =
            before ++ [.PollDeviceToken domain deviceCode.DeviceCode,
              .EnablePhoneExtensibility d accessToken ch] ++ after) := by
  obtain ⟨pre, t, rest, hticks, hstop, hev⟩ := pollForDeviceToken_returned_events _ _ _ _ _ h
  have hmem : t ∈ ticks := by rw [hticks]; simp
  have hnopoll : ∀ d a c, PollEvent.EnablePhoneExtensibility d a c ∉
      pre.map (fun _ => PollEvent.PollDeviceToken domain deviceCode.DeviceCode) := by
    intro d a c hm
    rw [List.mem_map] at hm
    obtain ⟨_, _, he⟩ := hm
    exact PollEvent.noConfusion he
  rw [hev]
  rcases pollTick_stop_cases _ _ _ _ _ hstop with hc | hc | ⟨token, hp, hc⟩ | ⟨token, hp, hc⟩
  · rw [hc]
    refine ⟨⟨_, _, rfl, by simp⟩, ?_, ?_, ?_⟩
    · rw [List.filter_append, filter_polls _ _ rfl pre]; rfl
    · rw [List.filter_append, filter_polls _ _ rfl pre]; simp [List.filter, PollEvent.isEnable]
    · intro d a c hm
      rcases List.mem_append.mp hm with hm | hm
      · exact absurd hm (hnopoll d a c)
      · simp at hm
  · rw [hc]
    refine ⟨⟨pre.map (fun _ => PollEvent.PollDeviceToken domain deviceCode.DeviceCode) ++
        [.PollDeviceToken domain deviceCode.DeviceCode,
         .logError "Failed to poll for device token"], authFailedMessage, by simp, by simp⟩,
      ?_, ?_, ?_⟩
    · rw [List.filter_append, filter_polls _ _ rfl pre]; rfl
    · rw [List.filter_append, filter_polls _ _ rfl pre]; simp [List.filter, PollEvent.isEnable]
    · intro d a c hm
      rcases List.mem_append.mp hm with hm | hm
      · exact absurd hm (hnopoll d a c)
      · simp at hm
  · rw [hc]
    refine ⟨⟨pre.map (fun _ => PollEvent.PollDeviceToken domain deviceCode.DeviceCode) ++
        [.PollDeviceToken domain deviceCode.DeviceCode,
         .EnablePhoneExtensibility domain token.AccessToken chatID,
         .logError "Failed to setup Auth0 action after device flow"],
        setupFailedMessage, by simp, by simp⟩, ?_, ?_, ?_⟩
    · rw [List.filter_append, filter_polls _ _ rfl pre]; rfl
    · rw [List.filter_append, filter_polls _ _ rfl pre]; simp [List.filter, PollEvent.isEnable]
    · intro d a c hm
      rcases List.mem_append.mp hm with hm | hm
      · exact absurd hm (hnopoll d a c)
      · simp only [List.mem_cons, List.mem_singleton, List.not_mem_nil, or_false,
          PollEvent.EnablePhoneExtensibility.injEq, false_or, reduceCtorEq] at hm
        obtain ⟨rfl, rfl, rfl⟩ := hm
        exact ⟨rfl, rfl, ⟨t, hmem, token, hp, rfl⟩,
          pre.map (fun _ => PollEvent.PollDeviceToken d deviceCode.DeviceCode),
          [.logError "Failed to setup Auth0 action after device flow",
           .SendMessage c setupFailedMessage], by simp⟩
  · rw [hc]
    refine ⟨⟨pre.map (fun _ => PollEvent.PollDeviceToken domain deviceCode.DeviceCode) ++
        [.PollDeviceToken domain deviceCode.DeviceCode,
         .EnablePhoneExtensibility domain token.AccessToken chatID],
        completedMessage domain chatID, by simp, by simp⟩, ?_, ?_, ?_⟩
    · rw [List.filter_append, filter_polls _ _ rfl pre]; rfl
    · rw [List.filter_append, filter_polls _ _ rfl pre]; simp [List.filter, PollEvent.isEnable]
    · intro d a c hm
      rcases List.mem_append.mp hm with hm | hm
      · exact absurd hm (hnopoll d a c)
      · simp only [List.mem_cons, List.mem_singleton, List.not_mem_nil, or_false,
          PollEvent.EnablePhoneExtensibility.injEq, false_or, reduceCtorEq] at hm
        obtain ⟨rfl, rfl, rfl⟩ := hm
        exact ⟨rfl, rfl, ⟨t, hmem, token, hp, rfl⟩,
          pre.map (fun _ => PollEvent.PollDeviceToken d deviceCode.DeviceCode),
          [.SendMessage c (completedMessage d c)], by simp⟩

/-- C15 at a run of two pending polls and a granted one, followed by a
successful provisioning. -/
theorem pollForDeviceToken_returned_example :
    pollForDeviceToken exampleDeviceCode 555 "test.auth0.com" 0
        [pendingTickAt 5, pendingTickAt 10,
         { now := 15000000000, poll := grantedAnswer, enable := none }] =
      { events := [.PollDeviceToken "test.auth0.com" "dev_1",
                   .PollDeviceToken "test.auth0.com" "dev_1",
                   .PollDeviceToken "test.auth0.com" "dev_1",
                   .EnablePhoneExtensibility "test.auth0.com" "tok_1" 555,
                   .SendMessage 555 (completedMessage "test.auth0.com" 555)],
        exit := .returned }
    ∧ ((pollForDeviceToken exampleDeviceCode 555 "test.auth0.com" 0
        [pendingTickAt 5, pendingTickAt 10,
         { now := 15000000000, poll := grantedAnswer, enable := none }]).events.filter
        PollEvent.isSendMessage).length = 1 :=
  ⟨by decide,
    (pollForDeviceToken_returned exampleDeviceCode 555 "test.auth0.com" 0
      [pendingTickAt 5, pendingTickAt 10,
       { now := 15000000000, poll := grantedAnswer, enable := none }] (by decide)).2.1⟩

/-! ## The provisioning pipeline (`EnablePhoneExtensibility`, `UpdatePhoneActionTypeBased`) -/

/-- C16, evaluated where the first step fails: `ActivateCustomPhoneProvider`
returns an error (its read of the phone providers is refused) and the other
steps succeed.  `EnablePhoneExtensibility` still performs both provisioning
steps and `EnableMFA`, and returns `nil`.  In general the run does not depend
on the error the first step returned. -/
theorem EnablePhoneExtensibility_ignores_activation_error :
    EnablePhoneExtensibility
        { ActivateCustomPhoneProvider := refusedActivation
          UpdatePhoneActionTypeBased := okProvisioning
          EnableMFA := okEnableMFA } =
      { events :=
          [.ActivateCustomPhoneProvider,
           .call (.other "GET" "https://test.auth0.com/api/v2/branding/phone/providers"),
           .UpdatePhoneActionTypeBased "Custom Phone Provider" "custom-phone-provider" "v1",
           .call (.getBindings "test.auth0.com" "tok_1" "custom-phone-provider"),
           .UpdatePhoneActionTypeBased "Custom Phone Provider - MFA" "send-phone-message" "v2",
           .call (.getBindings "test.auth0.com" "tok_1" "send-phone-message"),
           .EnableMFA,
           .call (.other "PUT" "https://test.auth0.com/api/v2/guardian/factors/sms"),
           .call (.other "PUT"
             "https://test.auth0.com/api/v2/guardian/factors/phone/selected-provider"),
           .call (.other "PUT"
             "https://test.auth0.com/api/v2/guardian/factors/phone/message-types")],
        exit := .returned none }
    ∧ ∀ (env : EnableEnv) (calls : List TenantCall) (err err2 : Option String),
        EnablePhoneExtensibility
            { env with ActivateCustomPhoneProvider := { calls := calls, exit := .returned err } } =
          EnablePhoneExtensibility
            { env with ActivateCustomPhoneProvider := { calls := calls, exit := .returned err2 } } := by
  constructor
  · decide
  · intro env calls err err2
    rfl

/-- The steps after the first one do abort the run: an error of the first
provisioning, of the second provisioning or of `EnableMFA` is returned at
once, and no later step starts. -/
theorem EnablePhoneExtensibility_later_steps_abort (env : EnableEnv) (err1 : Option String)
    (h1 : env.ActivateCustomPhoneProvider.exit = .returned err1) :
    (∀ e, (env.UpdatePhoneActionTypeBased "Custom Phone Provider" "custom-phone-provider"
          "v1").exit = .returned (some e) →
        EnablePhoneExtensibility env =
          { events := EnableEvent.ActivateCustomPhoneProvider ::
              env.ActivateCustomPhoneProvider.calls.map .call ++
              EnableEvent.UpdatePhoneActionTypeBased "Custom Phone Provider"
                "custom-phone-provider" "v1" ::
              (env.UpdatePhoneActionTypeBased "Custom Phone Provider" "custom-phone-provider"
                "v1").calls.map .call,
            exit := .returned (some "failed to Update action: Custom Phone Provider") })
    ∧ (∀ e, (env.UpdatePhoneActionTypeBased "Custom Phone Provider" "custom-phone-provider"
          "v1").exit = .returned none →
        (env.UpdatePhoneActionTypeBased "Custom Phone Provider - MFA" "send-phone-message"
          "v2").exit = .returned (some e) →
        EnablePhoneExtensibility env =
          { events := EnableEvent.ActivateCustomPhoneProvider ::
              env.ActivateCustomPhoneProvider.calls.map .call ++
              EnableEvent.UpdatePhoneActionTypeBased "Custom Phone Provider"
                "custom-phone-provider" "v1" ::
              (env.UpdatePhoneActionTypeBased "Custom Phone Provider" "custom-phone-provider"
                "v1").calls.map .call ++
              EnableEvent.UpdatePhoneActionTypeBased "Custom Phone Provider - MFA"
                "send-phone-message" "v2" ::
              (env.UpdatePhoneActionTypeBased "Custom Phone Provider - MFA" "send-phone-message"
                "v2").calls.map .call ++
              [.logError "AUTH0 is likely in a corrupt state!, please check actions and bindings"],
            exit := .returned (some "failed to Update action: Custom Phone Provider - MFA") }) := by
  constructor
  · intro e h2
    unfold EnablePhoneExtensibility
    simp only [h1, h2]
  · intro e h2 h3
    unfold EnablePhoneExtensibility
    simp only [h1, h2, h3]

/-- C17: when the first action provisioning succeeds and the second one returns
an error, `EnablePhoneExtensibility` returns the error
`failed to Update action: Custom Phone Provider - MFA`; its actions are those
of the first three steps followed by the log entry about the corrupt state:
no request follows the requests of the second provisioning, and `EnableMFA`
is not started. -/
theorem EnablePhoneExtensibility_second_provisioning_fails (env : EnableEnv)
    (err1 : Option String) (e : String)
    (h1 : env.ActivateCustomPhoneProvider.exit = .returned err1)
    (h2 : (env.UpdatePhoneActionTypeBased "Custom Phone Provider" "custom-phone-provider"
      "v1").exit = .returned none)
    (h3 : (env.UpdatePhoneActionTypeBased "Custom Phone Provider - MFA" "send-phone-message"
      "v2").exit = .returned (some e)) :
    (EnablePhoneExtensibility env).exit =
        .returned (some ("failed to Update action: " ++ "Custom Phone Provider - MFA"))
    ∧ (EnablePhoneExtensibility env).events =
        EnableEvent.ActivateCustomPhoneProvider ::
          env.ActivateCustomPhoneProvider.calls.map .call ++
        EnableEvent.UpdatePhoneActionTypeBased "Custom Phone Provider"
          "custom-phone-provider" "v1" ::
          (env.UpdatePhoneActionTypeBased "Custom Phone Provider" "custom-phone-provider"
            "v1").calls.map .call ++
        EnableEvent.UpdatePhoneActionTypeBased "Custom Phone Provider - MFA"
          "send-phone-message" "v2" ::
          (env.UpdatePhoneActionTypeBased "Custom Phone Provider - MFA" "send-phone-message"
            "v2").calls.map .call ++
        [.logError "AUTH0 is likely in a corrupt state!, please check actions and bindings"]
    ∧ EnableEvent.EnableMFA ∉ (EnablePhoneExtensibility env).events := by
  have hrun := (EnablePhoneExtensibility_later_steps_abort env err1 h1).2 e h2 h3
  rw [hrun]
  refine ⟨rfl, rfl, ?_⟩
  simp

/-- C17 at a concrete tenant: the activation succeeds, the first action is
created, built, deployed and bound, and the create of the second action is
rejected with status 400. -/
theorem EnablePhoneExtensibility_second_provisioning_fails_example :
    (EnablePhoneExtensibility
        (enableEnvOf exampleTemplates okActivation okEnableMFA freshTenant rejectingTenant
          "test.auth0.com" "tok_1" 555 exampleConfig)).exit =
      .returned (some "failed to Update action: Custom Phone Provider - MFA")
    ∧ EnableEvent.EnableMFA ∉
        (EnablePhoneExtensibility
          (enableEnvOf exampleTemplates okActivation okEnableMFA freshTenant rejectingTenant
            "test.auth0.com" "tok_1" 555 exampleConfig)).events :=
  ⟨(EnablePhoneExtensibility_second_provisioning_fails
      (enableEnvOf exampleTemplates okActivation okEnableMFA freshTenant rejectingTenant
        "test.auth0.com" "tok_1" 555 exampleConfig)
      none "failed to create action: Bad Request" rfl (by decide!) (by decide!)).1,
   (EnablePhoneExtensibility_second_provisioning_fails
      (enableEnvOf exampleTemplates okActivation okEnableMFA freshTenant rejectingTenant
        "test.auth0.com" "tok_1" 555 exampleConfig)
      none "failed to create action: Bad Request" rfl (by decide!) (by decide!)).2.2⟩

theorem payload_known_type (templatesFS : String → Option String) (domain : String)
    (chatID : Int) (cfg : Config) (actionName actionType actionTypeVersion : String)
    (action : ActionCreate)
    (h : UpdatePhoneActionTypeBased_action templatesFS domain chatID cfg actionName actionType
      actionTypeVersion = .ok action) :
    ¬ (actionType ≠ "custom-phone-provider" ∧ actionType ≠ "send-phone-message") := by
  rintro ⟨h1, h2⟩
  unfold UpdatePhoneActionTypeBased_action at h
  simp only [if_neg h1, if_neg h2] at h
  exact Except.noConfusion h

theorem buildWait_calls (domain accessToken actionName : String)
    (waits : List (Answer (Option ReadActionsResponse))) (status : String) :
    ∃ k, (buildWait domain accessToken actionName waits status).1 =
      List.replicate k (TenantCall.lookupAction domain accessToken actionName) := by
  induction waits generalizing status with
  | nil =>
    unfold buildWait
    split <;> exact ⟨0, rfl⟩
  | cons resp waits ih =>
    unfold buildWait
    split
    · exact ⟨0, rfl⟩
    · split
      · exact ⟨1, rfl⟩
      · exact ⟨1, rfl⟩
      · rename_i action _
        obtain ⟨k, hk⟩ := ih action.Status
        exact ⟨k + 1, by rw [hk]; rfl⟩

theorem filter_replicate_lookup (p : TenantCall → Bool) (c : TenantCall) (hp : p c = false)
    (k : Nat) : (List.replicate k c).filter p = [] := by
  induction k with
  | zero => rfl
  | succ k ih => rw [List.replicate_succ, List.filter_cons, hp, ih]; rfl

theorem updateBindings_err_none (fetched : Except String (Except String ActionBindings))
    (patch : ActionBindings → Except String Response) (actionName actionId : String)
    (h : (updateBindings fetched patch actionName actionId).err = none) :
    ∃ existing, fetched = .ok (.ok existing) ∧
      (updateBindings fetched patch actionName actionId).sent =
        some (updateBindings_newBindings existing actionName actionId) := by
  unfold updateBindings at h ⊢
  split at h
  · exact Option.noConfusion h
  · exact Option.noConfusion h
  · rename_i existing
    refine ⟨existing, rfl, ?_⟩
    dsimp only
    split
    · rfl
    · split <;> rfl

/-- The requests after the create or update: lookups of the build-wait, then at
most a deploy, a read of the bindings and a replacement of the bindings.
When the function returns `nil`, all three were sent, for the id of the
decoded response, and the replacement is the reconciled list. -/
theorem afterCreateOrUpdate_spec (env : ProvisionEnv)
    (domain accessToken actionName actionType : String) (decoded : Except String ActionResponse) :
    (afterCreateOrUpdate env domain accessToken actionName actionType decoded).calls.filter
        TenantCall.isCreate = []
    ∧ (afterCreateOrUpdate env domain accessToken actionName actionType decoded).calls.filter
        TenantCall.isUpdate = []
    ∧ ((afterCreateOrUpdate env domain accessToken actionName actionType decoded).exit =
          .returned none →
        ∃ actionResp existing k, decoded = .ok actionResp ∧ env.fetched = .ok (.ok existing) ∧
          (afterCreateOrUpdate env domain accessToken actionName actionType decoded).calls =
            List.replicate k (TenantCall.lookupAction domain accessToken actionName) ++
              [.deployAction domain accessToken actionResp.ID,
               .getBindings domain accessToken actionType,
               .patchBindings domain accessToken actionType
                 (updateBindings_newBindings existing actionName actionResp.ID)]) := by
  unfold afterCreateOrUpdate
  cases decoded with
  | error err =>
    refine ⟨rfl, rfl, ?_⟩
    intro h
    simp at h
  | ok actionResp =>
    dsimp only
    obtain ⟨k, hk⟩ := buildWait_calls domain accessToken actionName env.waits actionResp.Status
    cases hw : (buildWait domain accessToken actionName env.waits actionResp.Status).2 with
    | some exit =>
      dsimp only
      rw [hk]
      refine ⟨filter_replicate_lookup _ _ rfl k, filter_replicate_lookup _ _ rfl k, ?_⟩
      intro h
      exfalso
      revert hw h
      generalize actionResp.Status = status
      induction env.waits generalizing status with
      | nil =>
        unfold buildWait
        split
        · intro hw; exact Option.noConfusion hw
        · intro hw h
          rw [← Option.some.inj hw] at h
          exact Exit.noConfusion h
      | cons resp waits ih =>
        unfold buildWait
        split
        · intro hw; exact Option.noConfusion hw
        · split
          · intro hw h
            rw [← Option.some.inj hw] at h
            exact Exit.noConfusion h
          · intro hw h
            rw [← Option.some.inj hw] at h
            simp at h
          · rename_i action _
            exact ih action.Status
    | none =>
      dsimp only
      cases hd : deployAction env.deploy with
      | some err =>
        dsimp only
        rw [hk]
        refine ⟨?_, ?_, ?_⟩
        · rw [List.filter_append, filter_replicate_lookup _ _ rfl k]; rfl
        · rw [List.filter_append, filter_replicate_lookup _ _ rfl k]; rfl
        · intro h
          simp at h
      | none =>
        dsimp only
        rw [hk]
        have hc := filter_replicate_lookup TenantCall.isCreate
          (.lookupAction domain accessToken actionName) rfl k
        have hu := filter_replicate_lookup TenantCall.isUpdate
          (.lookupAction domain accessToken actionName) rfl k
        refine ⟨?_, ?_, ?_⟩
        · cases (updateBindings env.fetched env.patch actionName actionResp.ID).sent <;>
            simp [List.filter_append, hc, List.filter, TenantCall.isCreate]
        · cases (updateBindings env.fetched env.patch actionName actionResp.ID).sent <;>
            simp [List.filter_append, hu, List.filter, TenantCall.isUpdate]
        · intro h
          have herr : (updateBindings env.fetched env.patch actionName actionResp.ID).err = none := by
            simpa using h
          obtain ⟨existing, hf, hs⟩ := updateBindings_err_none _ _ _ _ herr
          refine ⟨actionResp, existing, k, rfl, hf, ?_⟩
          rw [hs]
          simp

theorem getAction_zero_actions (r : Reply (Option ReadActionsResponse))
    (readActions : ReadActionsResponse) (hd : r.decoded = .ok (some readActions))
    (h0 : readActions.Actions = []) : getAction (.ok r) = .failed "action not found" := by
  unfold getAction
  simp only [hd, h0]

/-- The run of `UpdatePhoneActionTypeBased` once the payload is built, by the
result of the lookup. -/
theorem UpdatePhoneActionTypeBased_eq (templatesFS : String → Option String)
    (env : ProvisionEnv) (domain accessToken : String) (chatID : Int) (cfg : Config)
    (actionName actionType actionTypeVersion : String) (action : ActionCreate)
    (hpayload : UpdatePhoneActionTypeBased_action templatesFS domain chatID cfg actionName
      actionType actionTypeVersion = .ok action) :
    UpdatePhoneActionTypeBased templatesFS env domain accessToken chatID cfg actionName actionType
        actionTypeVersion =
      match getAction env.lookup with
      | .panicked msg =>
        { calls := [.lookupAction domain accessToken actionName], exit := .panicked msg }
      | .found existingAction =>
        match env.update with
        | .error err =>
          { calls := [.lookupAction domain accessToken actionName,
                      .updateAction domain accessToken existingAction.ID action],
            exit := .returned (some err) }
        | .ok resp =>
          if resp.StatusCode ≠ 200 then
            { calls := [.lookupAction domain accessToken actionName,
                        .updateAction domain accessToken existingAction.ID action],
              exit := .returned (some ("failed to update action: " ++ resp.Body)) }
          else
            { calls := [.lookupAction domain accessToken actionName,
                        .updateAction domain accessToken existingAction.ID action] ++
                (afterCreateOrUpdate env domain accessToken actionName actionType
                  resp.decoded).calls,
              exit := (afterCreateOrUpdate env domain accessToken actionName actionType
                  resp.decoded).exit }
      | .failed _ =>
        match env.create with
        | .error err =>
          { calls := [.lookupAction domain accessToken actionName,
                      .createAction domain accessToken action],
            exit := .returned (some ("failed to create action: " ++ err)) }
        | .ok resp =>
          if resp.StatusCode ≠ 201 then
            { calls := [.lookupAction domain accessToken actionName,
                        .createAction domain accessToken action],
              exit := .returned (some ("failed to create action: " ++ resp.Body)) }
          else
            { calls := [.lookupAction domain accessToken actionName,
                        .createAction domain accessToken action] ++
                (afterCreateOrUpdate env domain accessToken actionName actionType
                  resp.decoded).calls,
              exit := (afterCreateOrUpdate env domain accessToken actionName actionType
                  resp.decoded).exit } := by
  unfold UpdatePhoneActionTypeBased
  rw [if_neg (payload_known_type _ _ _ _ _ _ _ _ hpayload), hpayload]

/-- C18: once the payload is built, (1) when the lookup by action name gives no
action (in particular when the tenant answers with an empty list of
actions), `UpdatePhoneActionTypeBased` sends exactly one create, the POST of
the payload to the action collection, and no update; (2) when the lookup
gives an action, it sends exactly one update, the PATCH of the payload to the
address of that action's id, and no create; (3) when it returns `nil`, its
requests are the lookup, that create or update, the lookups of the
build-wait, then one deploy of the id in the response to the create or
update, one read of the bindings and one replacement of the bindings by the
reconciled list, which is the kept bindings followed by one new entry for
the action. -/
theorem create_or_update_dispatch (templatesFS : String → Option String)
    (env : ProvisionEnv) (domain accessToken : String) (chatID : Int) (cfg : Config)
    (actionName actionType actionTypeVersion : String) (action : ActionCreate) (run : StepRun)
    (hpayload : UpdatePhoneActionTypeBased_action templatesFS domain chatID cfg actionName
      actionType actionTypeVersion = .ok action)
    (hrun : run = UpdatePhoneActionTypeBased templatesFS env domain accessToken chatID cfg
      actionName actionType actionTypeVersion) :
    (∀ r readActions, env.lookup = .ok r → r.decoded = .ok (some readActions) →
        readActions.Actions = [] → getAction env.lookup = .failed "action not found")
    ∧ (∀ e, getAction env.lookup = .failed e →
        run.calls.filter TenantCall.isCreate = [.createAction domain accessToken action] ∧
        (TenantCall.createAction domain accessToken action).method = "POST" ∧
        (TenantCall.createAction domain accessToken action).url = actionsURL domain ∧
        run.calls.filter TenantCall.isUpdate = [])
    ∧ (∀ existingAction, getAction env.lookup = .found existingAction →
        run.calls.filter TenantCall.isUpdate =
          [.updateAction domain accessToken existingAction.ID action] ∧
        (TenantCall.updateAction domain accessToken existingAction.ID action).method = "PATCH" ∧
        (TenantCall.updateAction domain accessToken existingAction.ID action).url =
          actionsURL domain ++ "/" ++ existingAction.ID ∧
        run.calls.filter TenantCall.isCreate = [])
    ∧ (run.exit = .returned none →
        ∃ first resp actionResp existing k,
          ((first = .createAction domain accessToken action ∧ env.create = .ok resp) ∨
            (∃ existingAction : ActionResponse, first = .updateAction domain accessToken existingAction.ID action ∧
              env.update = .ok resp)) ∧
          resp.decoded = .ok actionResp ∧ env.fetched = .ok (.ok existing) ∧
          run.calls =
            [.lookupAction domain accessToken actionName, first] ++
            List.replicate k (TenantCall.lookupAction domain accessToken actionName) ++
            [.deployAction domain accessToken actionResp.ID,
             .getBindings domain accessToken actionType,
             .patchBindings domain accessToken actionType
               (updateBindings_newBindings existing actionName actionResp.ID)] ∧
          (updateBindings_newBindings existing actionName actionResp.ID).Bindings =
            (existing.Bindings.filter (fun b => b.DisplayName ≠ actionName)).map keptBinding ++
              [{ DisplayName := actionName, ID := "",
                 Ref := { Type_ := "action_id", Value := actionResp.ID } }]) := by
  have heq := UpdatePhoneActionTypeBased_eq templatesFS env domain accessToken chatID cfg
    actionName actionType actionTypeVersion action hpayload
  rw [← hrun] at heq
  refine ⟨?_, ?_, ?_, ?_⟩
  · intro r readActions hl hd h0
    rw [hl]
    exact getAction_zero_actions r readActions hd h0
  · intro e hl
    rw [hl] at heq
    refine ⟨?_, rfl, rfl, ?_⟩
    · cases hc : env.create with
      | error err => rw [heq, hc]; rfl
      | ok resp =>
        rw [hc] at heq
        by_cases hs : resp.StatusCode ≠ 201
        · simp only [if_pos hs] at heq
          rw [heq]; rfl
        · simp only [if_neg hs] at heq
          rw [heq]
          simp only [List.filter_append,
            (afterCreateOrUpdate_spec env domain accessToken actionName actionType resp.decoded).1]
          rfl
    · cases hc : env.create with
      | error err => rw [heq, hc]; rfl
      | ok resp =>
        rw [hc] at heq
        by_cases hs : resp.StatusCode ≠ 201
        · simp only [if_pos hs] at heq
          rw [heq]; rfl
        · simp only [if_neg hs] at heq
          rw [heq]
          simp only [List.filter_append,
            (afterCreateOrUpdate_spec env domain accessToken actionName actionType
              resp.decoded).2.1]
          rfl
  · intro existingAction hl
    rw [hl] at heq
    refine ⟨?_, rfl, rfl, ?_⟩
    · cases hc : env.update with
      | error err => rw [heq, hc]; rfl
      | ok resp =>
        rw [hc] at heq
        by_cases hs : resp.StatusCode ≠ 200
        · simp only [if_pos hs] at heq
          rw [heq]; rfl
        · simp only [if_neg hs] at heq
          rw [heq]
          simp only [List.filter_append,
            (afterCreateOrUpdate_spec env domain accessToken actionName actionType
              resp.decoded).2.1]
          rfl
    · cases hc : env.update with
      | error err => rw [heq, hc]; rfl
      | ok resp =>
        rw [hc] at heq
        by_cases hs : resp.StatusCode ≠ 200
        · simp only [if_pos hs] at heq
          rw [heq]; rfl
        · simp only [if_neg hs] at heq
          rw [heq]
          simp only [List.filter_append,
            (afterCreateOrUpdate_spec env domain accessToken actionName actionType resp.decoded).1]
          rfl
  · intro hexit
    cases hl : getAction env.lookup with
    | panicked msg =>
      rw [hl] at heq
      rw [heq] at hexit
      exact Exit.noConfusion hexit
    | found existingAction =>
      rw [hl] at heq
      cases hc : env.update with
      | error err =>
        rw [hc] at heq
        rw [heq] at hexit
        simp at hexit
      | ok resp =>
        rw [hc] at heq
        by_cases hs : resp.StatusCode ≠ 200
        · simp only [if_pos hs] at heq
          rw [heq] at hexit
          simp at hexit
        · simp only [if_neg hs] at heq
          rw [heq] at hexit
          obtain ⟨actionResp, existing, k, hd, hf, hcalls⟩ :=
            (afterCreateOrUpdate_spec env domain accessToken actionName actionType
              resp.decoded).2.2 hexit
          refine ⟨_, resp, actionResp, existing, k, Or.inr ⟨existingAction, rfl, rfl⟩, hd, hf,
            ?_, newBindings_eq existing.Bindings actionName actionResp.ID⟩
          rw [heq, hcalls]
          simp
    | failed e =>
      rw [hl] at heq
      cases hc : env.create with
      | error err =>
        rw [hc] at heq
        rw [heq] at hexit
        simp at hexit
      | ok resp =>
        rw [hc] at heq
        by_cases hs : resp.StatusCode ≠ 201
        · simp only [if_pos hs] at heq
          rw [heq] at hexit
          simp at hexit
        · simp only [if_neg hs] at heq
          rw [heq] at hexit
          obtain ⟨actionResp, existing, k, hd, hf, hcalls⟩ :=
            (afterCreateOrUpdate_spec env domain accessToken actionName actionType
              resp.decoded).2.2 hexit
          refine ⟨_, resp, actionResp, existing, k, Or.inl ⟨rfl, rfl⟩, hd, hf,
            ?_, newBindings_eq existing.Bindings actionName actionResp.ID⟩
          rw [heq, hcalls]
          simp

/-- C18 at the scenario of the specification: the tenant has no action named
`Custom Phone Provider`.  One create, no update, one build-wait lookup, the
deploy of `act_1`, and the replacement of the bindings `A, A` by `A, A` and
the new entry. -/
theorem create_or_update_dispatch_example :
    UpdatePhoneActionTypeBased exampleTemplates freshTenant "test.auth0.com" "tok_1" 555
        exampleConfig "Custom Phone Provider" "custom-phone-provider" "v1" =
      { calls :=
          [.lookupAction "test.auth0.com" "tok_1" "Custom Phone Provider",
           .createAction "test.auth0.com" "tok_1" exampleAction,
           .lookupAction "test.auth0.com" "tok_1" "Custom Phone Provider",
           .deployAction "test.auth0.com" "tok_1" "act_1",
           .getBindings "test.auth0.com" "tok_1" "custom-phone-provider",
           .patchBindings "test.auth0.com" "tok_1" "custom-phone-provider"
             { Bindings :=
                 [{ DisplayName := "A", ID := "",
                    Ref := { Type_ := "binding_id", Value := "bnd_1" } },
                  { DisplayName := "A", ID := "",
                    Ref := { Type_ := "binding_id", Value := "bnd_2" } },
                  { DisplayName := "Custom Phone Provider", ID := "",
                    Ref := { Type_ := "action_id", Value := "act_1" } }] }],
        exit := .returned none }
    ∧ (UpdatePhoneActionTypeBased exampleTemplates freshTenant "test.auth0.com" "tok_1" 555
        exampleConfig "Custom Phone Provider" "custom-phone-provider" "v1").calls.filter
          TenantCall.isCreate = [.createAction "test.auth0.com" "tok_1" exampleAction]
    ∧ (UpdatePhoneActionTypeBased exampleTemplates freshTenant "test.auth0.com" "tok_1" 555
        exampleConfig "Custom Phone Provider" "custom-phone-provider" "v1").calls.filter
          TenantCall.isUpdate = [] :=
  ⟨by decide!,
   ((create_or_update_dispatch exampleTemplates freshTenant "test.auth0.com" "tok_1" 555
      exampleConfig "Custom Phone Provider" "custom-phone-provider" "v1" exampleAction _
      (by decide!) rfl).2.1 "action not found" rfl).1,
   ((create_or_update_dispatch exampleTemplates freshTenant "test.auth0.com" "tok_1" 555
      exampleConfig "Custom Phone Provider" "custom-phone-provider" "v1" exampleAction _
      (by decide!) rfl).2.1 "action not found" rfl).2.2.2⟩

/-- C19: once the payload is built, for every reply to the create whose status
is outside 200..299, `UpdatePhoneActionTypeBased` returns the error
`failed to create action: ` followed by the body, and for every such reply to
the update the error `failed to update action: ` followed by the body; in
both cases its requests are the lookup and that create or update only: no
build-wait lookup, no deploy, no binding request. -/
theorem create_or_update_rejected (templatesFS : String → Option String)
    (env : ProvisionEnv) (domain accessToken : String) (chatID : Int) (cfg : Config)
    (actionName actionType actionTypeVersion : String) (action : ActionCreate) (run : StepRun)
    (hpayload : UpdatePhoneActionTypeBased_action templatesFS domain chatID cfg actionName
      actionType actionTypeVersion = .ok action)
    (hrun : run = UpdatePhoneActionTypeBased templatesFS env domain accessToken chatID cfg
      actionName actionType actionTypeVersion) :
    (∀ e r, getAction env.lookup = .failed e → env.create = .ok r →
        (r.StatusCode < 200 ∨ 299 < r.StatusCode) →
        run.exit = .returned (some ("failed to create action" ++ (": " ++ r.Body))) ∧
        run.calls = [.lookupAction domain accessToken actionName,
                     .createAction domain accessToken action])
    ∧ (∀ existingAction r, getAction env.lookup = .found existingAction → env.update = .ok r →
        (r.StatusCode < 200 ∨ 299 < r.StatusCode) →
        run.exit = .returned (some ("failed to update action" ++ (": " ++ r.Body))) ∧
        run.calls = [.lookupAction domain accessToken actionName,
                     .updateAction domain accessToken existingAction.ID action]) := by
  have heq := UpdatePhoneActionTypeBased_eq templatesFS env domain accessToken chatID cfg
    actionName actionType actionTypeVersion action hpayload
  rw [← hrun] at heq
  constructor
  · intro e r hl hc hs
    have hne : r.StatusCode ≠ 201 := by omega
    rw [hl, hc] at heq
    simp only [if_pos hne] at heq
    rw [heq, ← String.append_assoc]
    exact ⟨rfl, rfl⟩
  · intro existingAction r hl hc hs
    have hne : r.StatusCode ≠ 200 := by omega
    rw [hl, hc] at heq
    simp only [if_pos hne] at heq
    rw [heq, ← String.append_assoc]
    exact ⟨rfl, rfl⟩

/-- C19 at a create rejected with status 400 and an update rejected with status 403. -/
theorem create_or_update_rejected_example :
    (UpdatePhoneActionTypeBased exampleTemplates rejectingTenant "test.auth0.com" "tok_1" 555
        exampleConfig "Custom Phone Provider" "custom-phone-provider" "v1").exit =
      .returned (some ("failed to create action" ++ (": " ++ "Bad Request")))
    ∧ (UpdatePhoneActionTypeBased exampleTemplates rejectingUpdateTenant "test.auth0.com" "tok_1"
        555 exampleConfig "Custom Phone Provider" "custom-phone-provider" "v1").calls =
      [.lookupAction "test.auth0.com" "tok_1" "Custom Phone Provider",
       .updateAction "test.auth0.com" "tok_1" "act_1" exampleAction] :=
  ⟨((create_or_update_rejected exampleTemplates rejectingTenant "test.auth0.com" "tok_1" 555
      exampleConfig "Custom Phone Provider" "custom-phone-provider" "v1" exampleAction _
      (by decide!) rfl).1 "action not found"
      { StatusCode := 400, Body := "Bad Request", decoded := .error "invalid character" }
      rfl rfl (by decide)).1,
   ((create_or_update_rejected exampleTemplates rejectingUpdateTenant "test.auth0.com" "tok_1"
      555 exampleConfig "Custom Phone Provider" "custom-phone-provider" "v1" exampleAction _
      (by decide!) rfl).2 (exampleActionResponse "built")
      { StatusCode := 403, Body := "Forbidden", decoded := .error "invalid character" }
      rfl rfl (by decide)).2⟩

/-! ## The form handler (`ProcessAuthForm`) -/

/-- The handler past its checks: the strategy switch on `req.AuthType`. -/
theorem ProcessAuthForm_after_checks (cfg : Config) (env : FormEnv) (c : FormInput)
    (req : AuthFormRequest)
    (hcsrf : c.cookie = .ok c.csrfHeader)
    (hbind : ShouldBindJSON c.body = .ok req)
    (hsig : ValidateHMAC req.ChatID req.Signature cfg.HMACSecret = true)
    (hdomain : IsValidDomain req.Domain = true)
    (hchat : (ParseInt req.ChatID).2 = none) :
    ProcessAuthForm cfg env c =
      if req.AuthType = "tenant_personal" then
        match InitiateDeviceFlow env.deviceCode with
        | .error _ =>
          { status := 500, json := [("error", "Failed to initiate device flow")],
            events := [.InitiateDeviceFlow req.Domain,
                       .logError "Failed to initiate device flow"] }
        | .ok deviceCode =>
          match env.sendMessage with
          | some _ =>
            { status := 500, json := [("error", "Failed to send authentication information")],
              events := [.InitiateDeviceFlow req.Domain,
                         .SendMessage (ParseInt req.ChatID).1 (deviceCodeMessage deviceCode),
                         .logError "Failed to send device code info"] }
          | none =>
            { status := 200,
              json := [("status", "success"),
                       ("message", "Authentication process initiated. Please check your Telegram chat for instructions.")],
              events := [.InitiateDeviceFlow req.Domain,
                         .SendMessage (ParseInt req.ChatID).1 (deviceCodeMessage deviceCode),
                         .goPollForDeviceToken deviceCode (ParseInt req.ChatID).1 req.Domain] }
      else if req.AuthType = "auth_ephemeral" then
        if req.AccessToken = "" then
          { status := 400, json := [("error", "Access token is required")],
            events := [.logError "Missing access token for ephemeral auth"] }
        else ProcessAuthForm_provision env req (ParseInt req.ChatID).1 req.AccessToken []
      else if req.AuthType = "auth_client_credentials" then
        if req.ClientID = "" ∨ req.ClientSecret = "" then
          { status := 400, json := [("error", "Client ID and secret are required")],
            events := [.logError "Missing client credentials"] }
        else
          match GetClientCredentialsToken env.clientCredentials with
          | .error _ =>
            { status := 500, json := [("error", "Failed to get access token")],
              events := [.GetClientCredentialsToken req.Domain req.ClientID req.ClientSecret,
                         .logError "Failed to get client credentials token"] }
          | .ok tokenResponse =>
            ProcessAuthForm_provision env req (ParseInt req.ChatID).1 tokenResponse.AccessToken
              [.GetClientCredentialsToken req.Domain req.ClientID req.ClientSecret]
      else
        { status := 400, json := [("error", "Invalid authentication type")],
          events := [.logError "Invalid auth type"] } := by
  unfold ProcessAuthForm
  have h1 : ¬ (c.cookie.toOption.isNone ∨ c.cookie.toOption ≠ some c.csrfHeader) := by
    rw [hcsrf]
    simp [Except.toOption]
  rw [if_neg h1, hbind]
  dsimp only
  rw [if_neg (by rw [hsig]; simp), if_neg (by rw [hdomain]; simp), if_neg (by rw [hchat]; simp)]

/-- C20: for every form submission that passed the CSRF, binding, signature,
domain and chat-id checks: when `auth_type` is none of `tenant_personal`,
`auth_ephemeral`, `auth_client_credentials`, or is `auth_ephemeral` with an
empty access token, or is `auth_client_credentials` with an empty client id
or client secret, the handler answers 400 and does nothing but write one log
entry (no call to the tenant, no call to the chat); under `auth_ephemeral`
with a non-empty access token, the first action of the handler is
`EnablePhoneExtensibility` with the submitted domain, exactly that token and
the parsed chat id, and no other call to the tenant follows. -/
theorem ProcessAuthForm_strategy (cfg : Config) (env : FormEnv) (c : FormInput)
    (req : AuthFormRequest)
    (hcsrf : c.cookie = .ok c.csrfHeader)
    (hbind : ShouldBindJSON c.body = .ok req)
    (hsig : ValidateHMAC req.ChatID req.Signature cfg.HMACSecret = true)
    (hdomain : IsValidDomain req.Domain = true)
    (hchat : (ParseInt req.ChatID).2 = none) :
    (((req.AuthType ≠ "tenant_personal" ∧ req.AuthType ≠ "auth_ephemeral" ∧
          req.AuthType ≠ "auth_client_credentials")
        ∨ (req.AuthType = "auth_ephemeral" ∧ req.AccessToken = "")
        ∨ (req.AuthType = "auth_client_credentials" ∧
            (req.ClientID = "" ∨ req.ClientSecret = ""))) →
      (ProcessAuthForm cfg env c).status = 400 ∧
      (∃ msg, (ProcessAuthForm cfg env c).events = [.logError msg]) ∧
      (ProcessAuthForm cfg env c).events.filter FormEvent.isTenantCall = [] ∧
      (ProcessAuthForm cfg env c).events.filter FormEvent.isChatCall = [])
    ∧ (req.AuthType = "auth_ephemeral" → req.AccessToken ≠ "" →
      ∃ rest, (ProcessAuthForm cfg env c).events =
          .EnablePhoneExtensibility req.Domain req.AccessToken (ParseInt req.ChatID).1 :: rest ∧
        rest.filter FormEvent.isTenantCall = []) := by
  rw [ProcessAuthForm_after_checks cfg env c req hcsrf hbind hsig hdomain hchat]
  constructor
  · rintro (⟨h1, h2, h3⟩ | ⟨h1, h2⟩ | ⟨h1, h2⟩)
    · rw [if_neg h1, if_neg h2, if_neg h3]
      exact ⟨rfl, ⟨_, rfl⟩, rfl, rfl⟩
    · have h0 : req.AuthType ≠ "tenant_personal" := by rw [h1]; decide
      rw [if_neg h0, if_pos h1, if_pos h2]
      exact ⟨rfl, ⟨_, rfl⟩, rfl, rfl⟩
    · have h0 : req.AuthType ≠ "tenant_personal" := by rw [h1]; decide
      have h0e : req.AuthType ≠ "auth_ephemeral" := by rw [h1]; decide
      rw [if_neg h0, if_neg h0e, if_pos h1, if_pos h2]
      exact ⟨rfl, ⟨_, rfl⟩, rfl, rfl⟩
  · intro h1 h2
    have h0 : req.AuthType ≠ "tenant_personal" := by rw [h1]; decide
    rw [if_neg h0, if_pos h1, if_neg h2]
    unfold ProcessAuthForm_provision
    cases env.enable with
    | some e => exact ⟨_, rfl, rfl⟩
    | none =>
      cases env.editMessage with
      | some e => exact ⟨_, rfl, rfl⟩
      | none => exact ⟨_, rfl, rfl⟩

/-- C20 at a submission for the chat 555 with the strategy `auth_ephemeral` and
the access token `tok_e`: provisioning is called with `tok_e`. -/
theorem ProcessAuthForm_strategy_example :
    ProcessAuthForm exampleConfig helpfulSurroundings (exampleSubmission "auth_ephemeral" "tok_e") =
      { status := 200
        json := [("status", "success"),
                 ("message", "Authentication and setup completed successfully")]
        events := [.EnablePhoneExtensibility "test.auth0.com" "tok_e" 555,
                   .EditMessageText 555 42 (setupCompletedMessage "test.auth0.com")] }
    ∧ ∃ rest, (ProcessAuthForm exampleConfig helpfulSurroundings
          (exampleSubmission "auth_ephemeral" "tok_e")).events =
        .EnablePhoneExtensibility "test.auth0.com" "tok_e" 555 :: rest ∧
        rest.filter FormEvent.isTenantCall = [] :=
  ⟨by decide!,
   (ProcessAuthForm_strategy exampleConfig helpfulSurroundings
      (exampleSubmission "auth_ephemeral" "tok_e")
      { ChatID := "555"
        Signature := "8cd64c0feee9095ced12a497e5d62c560ded0f65c79fe268b31512071559c73e"
        AuthType := "auth_ephemeral", Domain := "test.auth0.com", MessageID := "42"
        AccessToken := "tok_e", ClientID := "", ClientSecret := "" }
      rfl (by decide) (by decide!) (by decide) (by decide)).2 rfl (by decide)⟩

/-- The handler on submissions with an unknown strategy and with the strategy
`auth_ephemeral` without a token: status 400 and one log entry. -/
theorem ProcessAuthForm_rejected_strategies :
    ProcessAuthForm exampleConfig helpfulSurroundings (exampleSubmission "auth_magic" "tok_e") =
      { status := 400, json := [("error", "Invalid authentication type")],
        events := [.logError "Invalid auth type"] }
    ∧ ProcessAuthForm exampleConfig helpfulSurroundings (exampleSubmission "auth_ephemeral" "") =
      { status := 400, json := [("error", "Access token is required")],
        events := [.logError "Missing access token for ephemeral auth"] } := by
  constructor <;> decide!


/-- C21: for every form submission that passed the CSRF check and the JSON
binding and whose signature differs from `GenerateHMAC chat_id secret`, the
handler answers 401 and does nothing but write one log entry: no device-flow
initiation, no token exchange, no provisioning, no call to the chat. -/
theorem ProcessAuthForm_rejects_other_signature (cfg : Config) (env : FormEnv) (c : FormInput)
    (req : AuthFormRequest)
    (hcsrf : c.cookie = .ok c.csrfHeader)
    (hbind : ShouldBindJSON c.body = .ok req)
    (hsig : req.Signature ≠ GenerateHMAC req.ChatID cfg.HMACSecret) :
    ProcessAuthForm cfg env c =
        { status := 401, json := [("error", "Invalid request signature")],
          events := [.logError "Invalid signature for auth form submission"] }
    ∧ (ProcessAuthForm cfg env c).events.filter FormEvent.isTenantCall = []
    ∧ (ProcessAuthForm cfg env c).events.filter FormEvent.isChatCall = [] := by
  have hv : ¬ ValidateHMAC req.ChatID req.Signature cfg.HMACSecret = true := by
    rw [ValidateHMAC_eq_true_iff]
    exact hsig
  have hrun : ProcessAuthForm cfg env c =
      { status := 401, json := [("error", "Invalid request signature")],
        events := [.logError "Invalid signature for auth form submission"] } := by
    unfold ProcessAuthForm
    have h1 : ¬ (c.cookie.toOption.isNone ∨ c.cookie.toOption ≠ some c.csrfHeader) := by
      rw [hcsrf]
      simp [Except.toOption]
    rw [if_neg h1, hbind]
    dsimp only
    rw [if_pos hv]
  rw [hrun]
  exact ⟨rfl, rfl, rfl⟩

/-- C21 at a submission for the chat 555 signed with 64 zeros. -/
theorem ProcessAuthForm_rejects_other_signature_example :
    ProcessAuthForm exampleConfig helpfulSurroundings forgedSubmission =
      { status := 401, json := [("error", "Invalid request signature")],
        events := [.logError "Invalid signature for auth form submission"] } :=
  (ProcessAuthForm_rejects_other_signature exampleConfig helpfulSurroundings forgedSubmission
    { ChatID := "555"
      Signature := "0000000000000000000000000000000000000000000000000000000000000000"
      AuthType := "auth_ephemeral", Domain := "test.auth0.com", MessageID := "42"
      AccessToken := "tok_e", ClientID := "", ClientSecret := "" }
    rfl (by decide) (by decide!)).1

/-- C22, evaluated at a rejected exchange: the token endpoint answers the
client-credentials request with status 401 and a JSON error object.
`GetClientCredentialsToken` returns a credential with an empty access token
and no error, and `ProcessAuthForm` starts the provisioning with that empty
token. -/
theorem GetClientCredentialsToken_non2xx_gives_credential :
    GetClientCredentialsToken rejectedExchangeAnswer =
        .ok { AccessToken := "", TokenType := "", ExpiresIn := 0 }
    ∧ ProcessAuthForm exampleConfig
        { helpfulSurroundings with
          clientCredentials := rejectedExchangeAnswer, enable := some "unauthorized" }
        credentialsSubmission =
      { status := 500, json := [("error", "Failed to setup Auth0 action")],
        events := [.GetClientCredentialsToken "test.auth0.com" "client_1" "wrong-secret",
                   .EnablePhoneExtensibility "test.auth0.com" "" 555,
                   .logError "Failed to setup Auth0 action"] } := by
  constructor
  · rfl
  · decide!

/-- `GetClientCredentialsToken` gives a credential exactly when the body of the
reply decodes; the status of the reply is not looked at. -/
theorem GetClientCredentialsToken_ok_iff (resp : Answer TokenResponse) (token : TokenResponse) :
    GetClientCredentialsToken resp = .ok token ↔ ∃ r, resp = .ok r ∧ r.decoded = .ok token := by
  unfold GetClientCredentialsToken
  constructor
  · intro h
    split at h
    · exact Except.noConfusion h
    · rename_i r
      refine ⟨r, rfl, ?_⟩
      split at h
      · exact Except.noConfusion h
      · rename_i response hd
        rw [hd, ← Except.ok.inj h]
  · rintro ⟨r, rfl, hd⟩
    simp only [hd]

/-- C25: on the synchronous paths of `ProcessAuthForm` (a submission that passed
the checks, with the strategy `auth_ephemeral` and a token, or with the
strategy `auth_client_credentials`, both credentials and a token obtained),
once `EnablePhoneExtensibility` has returned `nil` the response is 200 with
status `success` for every outcome of `EditMessageText`; the edit is
attempted, and its failure adds a log entry and nothing else. -/
theorem ProcessAuthForm_delivery_failure_not_fatal (cfg : Config) (env : FormEnv) (c : FormInput)
    (req : AuthFormRequest)
    (hcsrf : c.cookie = .ok c.csrfHeader)
    (hbind : ShouldBindJSON c.body = .ok req)
    (hsig : ValidateHMAC req.ChatID req.Signature cfg.HMACSecret = true)
    (hdomain : IsValidDomain req.Domain = true)
    (hchat : (ParseInt req.ChatID).2 = none)
    (hstrategy : (req.AuthType = "auth_ephemeral" ∧ req.AccessToken ≠ "") ∨
      (req.AuthType = "auth_client_credentials" ∧ req.ClientID ≠ "" ∧ req.ClientSecret ≠ "" ∧
        ∃ token, GetClientCredentialsToken env.clientCredentials = .ok token))
    (henable : env.enable = none) :
    (ProcessAuthForm cfg env c).status = 200
    ∧ (ProcessAuthForm cfg env c).json =
        [("status", "success"), ("message", "Authentication and setup completed successfully")]
    ∧ FormEvent.EditMessageText (ParseInt req.ChatID).1 (ParseInt req.MessageID).1
        (setupCompletedMessage req.Domain) ∈ (ProcessAuthForm cfg env c).events
    ∧ (env.editMessage ≠ none →
        (ProcessAuthForm cfg env c).events.getLast? =
          some (.logError "Failed to send success message"))
    ∧ (env.editMessage = none →
        ∀ msg, FormEvent.logError msg ∉ (ProcessAuthForm cfg env c).events) := by
  rw [ProcessAuthForm_after_checks cfg env c req hcsrf hbind hsig hdomain hchat]
  rcases hstrategy with ⟨h1, h2⟩ | ⟨h1, h2, h3, token, h4⟩
  · have h0 : req.AuthType ≠ "tenant_personal" := by rw [h1]; decide
    rw [if_neg h0, if_pos h1, if_neg h2]
    unfold ProcessAuthForm_provision
    rw [henable]
    cases env.editMessage with
    | some e => simp
    | none => simp
  · have h0 : req.AuthType ≠ "tenant_personal" := by rw [h1]; decide
    have h0e : req.AuthType ≠ "auth_ephemeral" := by rw [h1]; decide
    rw [if_neg h0, if_neg h0e, if_pos h1, if_neg (by simp [h2, h3]), h4]
    unfold ProcessAuthForm_provision
    rw [henable]
    cases env.editMessage with
    | some e => simp
    | none => simp

/-- C25 at an ephemeral-token submission whose chat notification fails. -/
theorem ProcessAuthForm_delivery_failure_not_fatal_example :
    ProcessAuthForm exampleConfig
        { helpfulSurroundings with editMessage := some "telegram API error" }
        (exampleSubmission "auth_ephemeral" "tok_e") =
      { status := 200
        json := [("status", "success"),
                 ("message", "Authentication and setup completed successfully")]
        events := [.EnablePhoneExtensibility "test.auth0.com" "tok_e" 555,
                   .EditMessageText 555 42 (setupCompletedMessage "test.auth0.com"),
                   .logError "Failed to send success message"] }
    ∧ (ProcessAuthForm exampleConfig
        { helpfulSurroundings with editMessage := some "telegram API error" }
        (exampleSubmission "auth_ephemeral" "tok_e")).status = 200 :=
  ⟨by decide!,
   (ProcessAuthForm_delivery_failure_not_fatal exampleConfig
      { helpfulSurroundings with editMessage := some "telegram API error" }
      (exampleSubmission "auth_ephemeral" "tok_e")
      { ChatID := "555"
        Signature := "8cd64c0feee9095ced12a497e5d62c560ded0f65c79fe268b31512071559c73e"
        AuthType := "auth_ephemeral", Domain := "test.auth0.com", MessageID := "42"
        AccessToken := "tok_e", ClientID := "", ClientSecret := "" }
      rfl (by decide) (by decide!) (by decide) (by decide)
      (Or.inl ⟨rfl, by decide⟩) rfl).1⟩

/-- C28, evaluated at a rejected device-code request: the endpoint answers with
status 403 and a JSON error object.  `InitiateDeviceFlow` returns the decoded
response without error; its `Interval` is 0; the handler sends the (empty)
device code to the chat and starts `pollForDeviceToken`, which panics in
`time.NewTicker` before its first tick, whatever the start time and ticks. -/
theorem InitiateDeviceFlow_non2xx_gives_zero_interval :
    InitiateDeviceFlow rejectedDeviceCodeAnswer = .ok zeroDeviceCode
    ∧ zeroDeviceCode.Interval = 0
    ∧ ProcessAuthForm exampleConfig
        { helpfulSurroundings with deviceCode := rejectedDeviceCodeAnswer }
        (exampleSubmission "tenant_personal" "") =
      { status := 200
        json := [("status", "success"),
                 ("message", "Authentication process initiated. Please check your Telegram chat for instructions.")]
        events := [.InitiateDeviceFlow "test.auth0.com",
                   .SendMessage 555 (deviceCodeMessage zeroDeviceCode),
                   .goPollForDeviceToken zeroDeviceCode 555 "test.auth0.com"] }
    ∧ ∀ (start : Int) (ticks : List Tick),
        pollForDeviceToken zeroDeviceCode 555 "test.auth0.com" start ticks =
          { events := [], exit := .panicked } := by
  refine ⟨rfl, rfl, by decide!, ?_⟩
  intro start ticks
  rfl

/-! ## The build-wait loop -/

theorem buildWait_built (domain accessToken actionName : String)
    (waits : List (Answer (Option ReadActionsResponse))) :
    buildWait domain accessToken actionName waits "built" = ([], none) := by
  cases waits with
  | nil => rfl
  | cons resp waits => rfl

/-- The loop is left towards the deploy exactly when the last status seen is `built`. -/
theorem buildWait_none_iff (domain accessToken actionName : String)
    (waits : List (Answer (Option ReadActionsResponse))) (status : String) :
    (buildWait domain accessToken actionName waits status).2 = none ↔
      lastObservedStatus waits status = "built" := by
  induction waits generalizing status with
  | nil =>
    unfold buildWait lastObservedStatus
    by_cases h : status = "built"
    · simp [h]
    · simp [h]
  | cons resp waits ih =>
    unfold buildWait lastObservedStatus
    by_cases h : status = "built"
    · simp [h]
    · rw [if_neg h, if_neg h]
      cases hg : getAction resp with
      | found action => exact ih action.Status
      | failed err => simp [h]
      | panicked msg => simp [h]

/-- A lookup that fails during the wait, after lookups that found the action
not yet built, ends the loop with that error. -/
theorem buildWait_failed (domain accessToken actionName : String)
    (pre rest : List (Answer (Option ReadActionsResponse)))
    (w : Answer (Option ReadActionsResponse)) (status err : String)
    (hstatus : status ≠ "built")
    (hpre : ∀ p ∈ pre, ∃ action, getAction p = .found action ∧ action.Status ≠ "built")
    (hw : getAction w = .failed err) :
    buildWait domain accessToken actionName (pre ++ w :: rest) status =
      (List.replicate (pre.length + 1) (TenantCall.lookupAction domain accessToken actionName),
       some (.returned (some err))) := by
  induction pre generalizing status with
  | nil =>
    rw [List.nil_append, buildWait, if_neg hstatus, hw]
    rfl
  | cons p pre ih =>
    obtain ⟨action, hp, hs⟩ := hpre p (List.mem_cons_self _ _)
    have ih' := ih action.Status hs (fun q hq => hpre q (List.mem_cons_of_mem _ hq))
    rw [List.cons_append, buildWait, if_neg hstatus, hp]
    dsimp only
    rw [ih']
    rfl

theorem mem_afterCreateOrUpdate_deploy (env : ProvisionEnv)
    (domain accessToken actionName actionType id : String) (decoded : Except String ActionResponse)
    (h : TenantCall.deployAction domain accessToken id ∈
      (afterCreateOrUpdate env domain accessToken actionName actionType decoded).calls) :
    ∃ actionResp, decoded = .ok actionResp ∧ id = actionResp.ID ∧
      lastObservedStatus env.waits actionResp.Status = "built" := by
  unfold afterCreateOrUpdate at h
  cases decoded with
  | error err => simp at h
  | ok actionResp =>
    dsimp only at h
    obtain ⟨k, hk⟩ := buildWait_calls domain accessToken actionName env.waits actionResp.Status
    have hnot : TenantCall.deployAction domain accessToken id ∉
        List.replicate k (TenantCall.lookupAction domain accessToken actionName) := by
      intro hm
      exact TenantCall.noConfusion (List.eq_of_mem_replicate hm)
    cases hw : (buildWait domain accessToken actionName env.waits actionResp.Status).2 with
    | some exit =>
      rw [hw, hk] at h
      exact absurd h hnot
    | none =>
      refine ⟨actionResp, rfl, ?_, (buildWait_none_iff _ _ _ _ _).mp hw⟩
      rw [hw, hk] at h
      dsimp only at h
      cases hd : deployAction env.deploy with
      | some err =>
        rw [hd] at h
        dsimp only at h
        rcases List.mem_append.mp h with hm | hm
        · exact absurd hm hnot
        · simp only [List.mem_singleton, TenantCall.deployAction.injEq] at hm
          exact hm.2.2
      | none =>
        rw [hd] at h
        dsimp only at h
        cases hs : (updateBindings env.fetched env.patch actionName actionResp.ID).sent with
        | none =>
          rw [hs] at h
          simp only [List.append_assoc, List.mem_append, List.mem_singleton,
            TenantCall.deployAction.injEq, List.mem_cons, List.not_mem_nil, or_false,
            reduceCtorEq] at h
          rcases h with hm | hm
          · exact absurd hm hnot
          · exact hm.2.2
        | some nb =>
          rw [hs] at h
          simp only [List.append_assoc, List.mem_append, List.mem_singleton,
            TenantCall.deployAction.injEq, List.mem_cons, List.not_mem_nil, or_false,
            reduceCtorEq] at h
          rcases h with hm | hm
          · exact absurd hm hnot
          · exact hm.2.2

/-- C26: once the payload is built, (1) a deploy appears among the requests of
`UpdatePhoneActionTypeBased` only for the id of the decoded create or update
response and only when the last status seen by the build-wait loop (the
status of that response, or of the latest lookup) is `built`; (2) when the
create or update is accepted and its response already reports `built`, the
only lookup of the run is the first one, by name; (3) when that response is
not `built`, and after lookups that found the action not yet built a lookup
fails (in particular finds no action), the function returns the error of
that lookup, and its requests are the first lookup, the create or update
and the lookups of the wait: no deploy and no binding request. -/
theorem build_wait (templatesFS : String → Option String)
    (env : ProvisionEnv) (domain accessToken : String) (chatID : Int) (cfg : Config)
    (actionName actionType actionTypeVersion : String) (action : ActionCreate) (run : StepRun)
    (hpayload : UpdatePhoneActionTypeBased_action templatesFS domain chatID cfg actionName
      actionType actionTypeVersion = .ok action)
    (hrun : run = UpdatePhoneActionTypeBased templatesFS env domain accessToken chatID cfg
      actionName actionType actionTypeVersion) :
    (∀ id, TenantCall.deployAction domain accessToken id ∈ run.calls →
        ∃ resp actionResp,
          ((∃ e, getAction env.lookup = .failed e ∧ env.create = .ok resp) ∨
            (∃ existingAction, getAction env.lookup = .found existingAction ∧
              env.update = .ok resp)) ∧
          resp.decoded = .ok actionResp ∧ id = actionResp.ID ∧
          lastObservedStatus env.waits actionResp.Status = "built")
    ∧ (∀ first resp actionResp,
        ((∃ e, getAction env.lookup = .failed e ∧ env.create = .ok resp ∧
            resp.StatusCode = 201 ∧ first = TenantCall.createAction domain accessToken action) ∨
          (∃ existingAction, getAction env.lookup = .found existingAction ∧
            env.update = .ok resp ∧ resp.StatusCode = 200 ∧
            first = TenantCall.updateAction domain accessToken existingAction.ID action)) →
        resp.decoded = .ok actionResp →
        (actionResp.Status = "built" →
          run.calls.filter TenantCall.isLookup =
            [.lookupAction domain accessToken actionName]) ∧
        (∀ pre w rest err, actionResp.Status ≠ "built" → env.waits = pre ++ w :: rest →
          (∀ p ∈ pre, ∃ found, getAction p = .found found ∧ found.Status ≠ "built") →
          getAction w = .failed err →
          run.exit = .returned (some err) ∧
          run.calls = [.lookupAction domain accessToken actionName, first] ++
            List.replicate (pre.length + 1)
              (TenantCall.lookupAction domain accessToken actionName) ∧
          run.calls.filter TenantCall.isDeploy = [] ∧
          run.calls.filter TenantCall.isGetBindings = [] ∧
          run.calls.filter TenantCall.isPatchBindings = []))
    ∧ (∀ r readActions, r.decoded = .ok (some readActions) → readActions.Actions = [] →
        getAction (.ok r) = .failed "action not found") := by
  have heq := UpdatePhoneActionTypeBased_eq templatesFS env domain accessToken chatID cfg
    actionName actionType actionTypeVersion action hpayload
  rw [← hrun] at heq
  refine ⟨?_, ?_, fun r readActions hd h0 => getAction_zero_actions r readActions hd h0⟩
  · intro id hmem
    cases hl : getAction env.lookup with
    | panicked msg =>
      rw [hl] at heq
      rw [heq] at hmem
      simp at hmem
    | found existingAction =>
      rw [hl] at heq
      cases hc : env.update with
      | error err =>
        rw [hc] at heq
        rw [heq] at hmem
        simp at hmem
      | ok resp =>
        rw [hc] at heq
        by_cases hs : resp.StatusCode ≠ 200
        · simp only [if_pos hs] at heq
          rw [heq] at hmem
          simp at hmem
        · simp only [if_neg hs] at heq
          rw [heq] at hmem
          have hm : TenantCall.deployAction domain accessToken id ∈
              (afterCreateOrUpdate env domain accessToken actionName actionType
                resp.decoded).calls := by
            simpa using hmem
          obtain ⟨actionResp, hd, hid, hlast⟩ := mem_afterCreateOrUpdate_deploy _ _ _ _ _ _ _ hm
          exact ⟨resp, actionResp, Or.inr ⟨existingAction, rfl, rfl⟩, hd, hid, hlast⟩
    | failed e =>
      rw [hl] at heq
      cases hc : env.create with
      | error err =>
        rw [hc] at heq
        rw [heq] at hmem
        simp at hmem
      | ok resp =>
        rw [hc] at heq
        by_cases hs : resp.StatusCode ≠ 201
        · simp only [if_pos hs] at heq
          rw [heq] at hmem
          simp at hmem
        · simp only [if_neg hs] at heq
          rw [heq] at hmem
          have hm : TenantCall.deployAction domain accessToken id ∈
              (afterCreateOrUpdate env domain accessToken actionName actionType
                resp.decoded).calls := by
            simpa using hmem
          obtain ⟨actionResp, hd, hid, hlast⟩ := mem_afterCreateOrUpdate_deploy _ _ _ _ _ _ _ hm
          exact ⟨resp, actionResp, Or.inl ⟨e, rfl, rfl⟩, hd, hid, hlast⟩
  · intro first resp actionResp hfirst hd
    have hcalls : run.calls = [.lookupAction domain accessToken actionName, first] ++
        (afterCreateOrUpdate env domain accessToken actionName actionType
          (.ok actionResp)).calls ∧
        run.exit = (afterCreateOrUpdate env domain accessToken actionName actionType
          (.ok actionResp)).exit := by
      rcases hfirst with ⟨e, hl, hc, hs, hf⟩ | ⟨existingAction, hl, hc, hs, hf⟩
      · rw [hl, hc] at heq
        simp only [hs, ne_eq, not_true_eq_false, if_false, hd] at heq
        rw [heq, hf]
        exact ⟨rfl, rfl⟩
      · rw [hl, hc] at heq
        simp only [hs, ne_eq, not_true_eq_false, if_false, hd] at heq
        rw [heq, hf]
        exact ⟨rfl, rfl⟩
    clear heq hrun hpayload
    have hfl : first.isLookup = false := by
      rcases hfirst with ⟨_, _, _, _, hf⟩ | ⟨_, _, _, _, hf⟩ <;> rw [hf] <;> rfl
    constructor
    · intro hbuilt
      rw [hcalls.1]
      unfold afterCreateOrUpdate
      dsimp only
      rw [hbuilt, buildWait_built]
      dsimp only
      cases deployAction env.deploy with
      | some err =>
        simp only [List.cons_append, List.nil_append, List.filter_cons, hfl]
        simp [TenantCall.isLookup]
      | none =>
        dsimp only
        cases (updateBindings env.fetched env.patch actionName actionResp.ID).sent <;>
          simp only [List.cons_append, List.nil_append, List.filter_cons, hfl] <;>
          simp [TenantCall.isLookup]
    · intro pre w rest err hnb hwaits hpre hw
      have hb := buildWait_failed domain accessToken actionName pre rest w actionResp.Status err
        hnb hpre hw
      have hafter : afterCreateOrUpdate env domain accessToken actionName actionType
          (.ok actionResp) =
          { calls := List.replicate (pre.length + 1)
              (TenantCall.lookupAction domain accessToken actionName),
            exit := .returned (some err) } := by
        unfold afterCreateOrUpdate
        dsimp only
        rw [hwaits, hb]
      rw [hcalls.1, hcalls.2, hafter]
      dsimp only
      refine ⟨rfl, rfl, ?_, ?_, ?_⟩
      · rw [List.filter_append, filter_replicate_lookup _ _ rfl]
        rcases hfirst with ⟨_, _, _, _, hf⟩ | ⟨_, _, _, _, hf⟩ <;> rw [hf] <;> rfl
      · rw [List.filter_append, filter_replicate_lookup _ _ rfl]
        rcases hfirst with ⟨_, _, _, _, hf⟩ | ⟨_, _, _, _, hf⟩ <;> rw [hf] <;> rfl
      · rw [List.filter_append, filter_replicate_lookup _ _ rfl]
        rcases hfirst with ⟨_, _, _, _, hf⟩ | ⟨_, _, _, _, hf⟩ <;> rw [hf] <;> rfl

/-- C26 at two tenants: one whose action is reported built by the first lookup
of the wait, so that the deploy of `act_1` follows a last status `built`; and
one whose second lookup of the wait finds no action, so that the function
returns `action not found` after the lookups, without a deploy. -/
theorem build_wait_example :
    (∃ resp actionResp,
        ((∃ e, getAction freshTenant.lookup = .failed e ∧ freshTenant.create = .ok resp) ∨
          (∃ existingAction, getAction freshTenant.lookup = .found existingAction ∧
            freshTenant.update = .ok resp)) ∧
        resp.decoded = .ok actionResp ∧ "act_1" = actionResp.ID ∧
        lastObservedStatus freshTenant.waits actionResp.Status = "built")
    ∧ UpdatePhoneActionTypeBased exampleTemplates vanishingTenant "test.auth0.com" "tok_1" 555
        exampleConfig "Custom Phone Provider" "custom-phone-provider" "v1" =
      { calls := [.lookupAction "test.auth0.com" "tok_1" "Custom Phone Provider",
                  .createAction "test.auth0.com" "tok_1" exampleAction,
                  .lookupAction "test.auth0.com" "tok_1" "Custom Phone Provider",
                  .lookupAction "test.auth0.com" "tok_1" "Custom Phone Provider"],
        exit := .returned (some "action not found") } :=
  ⟨(build_wait exampleTemplates freshTenant "test.auth0.com" "tok_1" 555 exampleConfig
      "Custom Phone Provider" "custom-phone-provider" "v1" exampleAction _
      (by decide!) rfl).1 "act_1" (by decide!),
   by decide!⟩

/-! ## Activation of the phone provider (`ActivateCustomPhoneProvider`) -/

/-- C23, evaluated where the tenant has no phone provider: the lookup is
answered 200 with an empty `providers` list (or with an object without that
member).  `ActivateCustomPhoneProvider` sends no PATCH, but it does not
return an error either: it panics on `providers.Providers[0]`, index out of
range.  With the JSON body `null` it panics on the `nil` pointer. -/
theorem ActivateCustomPhoneProvider_no_provider_panics :
    ActivateCustomPhoneProvider "test.auth0.com" noProvidersAnswer
        (.ok { StatusCode := 200, Body := "", decoded := .ok () }) =
      { calls := [.other "GET" "https://test.auth0.com/api/v2/branding/phone/providers"],
        exit := .panicked "runtime error: index out of range [0] with length 0" }
    ∧ ActivateCustomPhoneProvider "test.auth0.com" missingProvidersAnswer
        (.ok { StatusCode := 200, Body := "", decoded := .ok () }) =
      { calls := [.other "GET" "https://test.auth0.com/api/v2/branding/phone/providers"],
        exit := .panicked "runtime error: index out of range [0] with length 0" }
    ∧ (∀ (domain body : String) (status : Nat) (patch : Answer Unit), ¬ status > 299 →
        (ActivateCustomPhoneProvider domain
          (.ok { StatusCode := status, Body := body, decoded := .ok (some { Providers := [] }) })
          patch).exit = .panicked "runtime error: index out of range [0] with length 0"
        ∧ (ActivateCustomPhoneProvider domain
          (.ok { StatusCode := status, Body := body, decoded := .ok none })
          patch).exit = .panicked "runtime error: invalid memory address or nil pointer dereference") := by
  refine ⟨by decide, by decide, ?_⟩
  intro domain body status patch hs
  unfold ActivateCustomPhoneProvider
  simp only [if_neg hs]
  exact ⟨trivial, trivial⟩

/-- With at least one provider the function does not panic: it patches the
first provider and returns the outcome of that request. -/
theorem ActivateCustomPhoneProvider_one_provider :
    ActivateCustomPhoneProvider "test.auth0.com" oneProviderAnswer
        (.ok { StatusCode := 200, Body := "", decoded := .ok () }) =
      { calls := [.other "GET" "https://test.auth0.com/api/v2/branding/phone/providers",
                  .other "PATCH" "https://test.auth0.com/api/v2/branding/phone/providers/pro_1"],
        exit := .returned none } := by
  decide

/-! ## The OTP webhook (`HandleOTPWebhook`) -/

/-- C24, evaluated at the request of the handler test "Missing chat_id": a
well-formed event and a context without `auth0_domain` and `chat_id`.  The
handler sends no chat message, but it does not answer 400: it panics on the
type assertion `domain.(string)` of the log call, before anything is logged or
answered, and so it does for every well-formed body when `auth0_domain` is
absent.  Only when `auth0_domain` is set and `chat_id` is absent does it
answer 400 with `Chat ID not found`. -/
theorem HandleOTPWebhook_without_context_panics :
    HandleOTPWebhook none directInvocation =
      { events := [],
        exit := .panicked "interface conversion: interface \x7b\x7d is nil, not string" }
    ∧ (∀ (send : Option String) (c : WebhookInput) (event : OTPEvent),
        c.body = .ok event → c.Get "auth0_domain" = none →
        HandleOTPWebhook send c =
          { events := [],
            exit := .panicked "interface conversion: interface \x7b\x7d is nil, not string" })
    ∧ (∀ (send : Option String) (c : WebhookInput) (event : OTPEvent) (domain : GoValue),
        c.body = .ok event → c.Get "auth0_domain" = some domain → c.Get "chat_id" = none →
        HandleOTPWebhook send c =
          { events := [.logError "Chat ID not found"],
            exit := .responded 400 [("error", "Chat ID not found")] })
    ∧ (HandleOTPWebhook none validatedInvocation).exit = .responded 200 [("status", "ok")] := by
  refine ⟨by decide, ?_, ?_, by decide⟩
  · intro send c event hbody hdomain
    unfold HandleOTPWebhook
    rw [hbody]
    dsimp only
    rw [hdomain]
    rfl
  · intro send c event domain hbody hdomain hchat
    unfold HandleOTPWebhook
    rw [hbody]
    dsimp only
    rw [hdomain]
    dsimp only
    rw [hchat]

/-! ## Updates of the chat service (`HandleTelegramUpdates`) -/

/-- C29, evaluated at a callback query that carries no message and at a
`/start` message that carries no chat: both updates are answered 200 and the
task that processes them panics on the `nil` pointer, as it does for every
callback query without a message or without a chat (whatever its tag) and for
every `/start` message without a chat.  A `/start` message with a chat is
processed to the end. -/
theorem HandleTelegramUpdates_absent_field_panics :
    HandleTelegramUpdates exampleConfig (.ok queryWithoutMessage) none =
      { status := 200, json := [],
        task := some { events := [], exit := .panicked nilDereference } }
    ∧ HandleTelegramUpdates exampleConfig (.ok startWithoutChat) none =
      { status := 200, json := [],
        task := some { events := [], exit := .panicked nilDereference } }
    ∧ (∀ (query : TelegramCallbackQuery) (cfg : Config) (edit : Option String),
        query.Message = none →
        handleCallbackQuery query cfg edit =
          { events := [], exit := .panicked nilDereference })
    ∧ (∀ (query : TelegramCallbackQuery) (message : TelegramMessage) (cfg : Config)
        (edit : Option String),
        query.Message = some message → message.Chat = none →
        handleCallbackQuery query cfg edit =
          { events := [], exit := .panicked nilDereference })
    ∧ (∀ (message : TelegramMessage) (send : Option String),
        message.Text = "/start" → message.Chat = none →
        handleMessage message send = { events := [], exit := .panicked nilDereference })
    ∧ (HandleTelegramUpdates exampleConfig (.ok startWithChat) none).task.map TaskRun.exit =
        some .done := by
  refine ⟨by decide, by decide, ?_, ?_, ?_, by decide⟩
  · intro query cfg edit hmessage
    unfold handleCallbackQuery
    rw [hmessage]
  · intro query message cfg edit hmessage hchat
    unfold handleCallbackQuery
    rw [hmessage]
    dsimp only
    rw [hchat]
  · intro message send htext hchat
    unfold handleMessage
    rw [if_pos htext]
    dsimp only
    rw [hchat]

/-! ## The link to the form, from the chat to the browser -/

/-- C27, evaluated at the chat 555, the message 42 and the secret
`test-secret`.  For the tag `tenant_personal` the address built by
`handleCallbackQuery` carries `chat_id`, `signature` and `auth_type`, and the
signature is valid, but the message id is carried under the name `messageID`:
read with `message_id` it is empty, and `RenderAuthForm` answers 400
`Invalid request parameters`.  For the tags `auth_ephemeral` and
`auth_client_credentials` the four parameters arrive and the form is served. -/
theorem deep_link_tenant_personal_rejected :
    handleCallbackQuery (exampleQuery "tenant_personal") exampleConfig none =
      { events := [.EditMessageText 555 42
          "Please complete your authentication using the form below:"
          (completeAuthenticationKeyboard personalURL)],
        exit := .done }
    ∧ Query personalURL "chat_id" = "555"
    ∧ Query personalURL "auth_type" = "tenant_personal"
    ∧ ValidateHMAC (Query personalURL "chat_id") (Query personalURL "signature")
        exampleConfig.HMACSecret = true
    ∧ Query personalURL "message_id" = ""
    ∧ Query personalURL "messageID" = "42"
    ∧ RenderAuthForm exampleConfig (Query personalURL) none "csrf_1" (.ok "<html>") =
      { status := 400, body := "Invalid request parameters",
        events := [.logError "Missing required parameters"] }
    ∧ (∀ tag ∈ ["auth_ephemeral", "auth_client_credentials"],
        handleCallbackQuery (exampleQuery tag) exampleConfig none =
          { events := [.EditMessageText 555 42
              "Please complete your authentication using the form below:"
              (completeAuthenticationKeyboard (credentialsURL tag))],
            exit := .done }
        ∧ Query (credentialsURL tag) "message_id" = "42"
        ∧ RenderAuthForm exampleConfig (Query (credentialsURL tag)) none "csrf_1"
            (.ok "<html>") =
          { status := 200, body := "<html>",
            events := [.EditMessageText 555 42 "Continuing in the browser...",
                       .SetCookie "csrf_token" "csrf_1"] }) := by
  decide!

/-! ## Random strings (`GenerateRandomString`) -/

theorem base64_encode_ne_pad (i : Nat) : base64.encode i ≠ '=' := by
  have h : ∀ j : Fin 64, base64.encodeURL.getD j.val 'A' ≠ '=' := by decide
  have hlt : i &&& 0x3F < 64 := Nat.lt_succ_of_le Nat.and_le_right
  exact h ⟨i &&& 0x3F, hlt⟩

/-- The encoding of `b` is a run of alphabet characters, at least as long as
`b`, followed by the padding; its length is four characters for every three
bytes, rounded up. -/
theorem EncodeToString_split (n : Nat) : ∀ b : List Nat, b.length ≤ n →
    ∃ body pad, base64.EncodeToString b = body ++ pad ∧ (∀ c ∈ body, c ≠ '=') ∧
      b.length ≤ body.length ∧ (body ++ pad).length = 4 * ((b.length + 2) / 3) := by
  induction n using Nat.strong_induction_on with
  | _ n ih =>
    intro b hb
    match b, hb with
    | [], _ => exact ⟨[], [], rfl, by simp, by simp, by simp⟩
    | [a], _ =>
      refine ⟨[base64.encode ((a <<< 16) >>> 18), base64.encode ((a <<< 16) >>> 12)],
        ['=', '='], rfl, ?_, by simp, by simp⟩
      intro c hc
      simp only [List.mem_cons, List.mem_singleton, List.not_mem_nil, or_false] at hc
      rcases hc with rfl | rfl <;> exact base64_encode_ne_pad _
    | [a, b], _ =>
      refine ⟨[base64.encode ((a <<< 16 ||| b <<< 8) >>> 18),
        base64.encode ((a <<< 16 ||| b <<< 8) >>> 12),
        base64.encode ((a <<< 16 ||| b <<< 8) >>> 6)], ['='], rfl, ?_, by simp, by simp⟩
      intro c hc
      simp only [List.mem_cons, List.mem_singleton, List.not_mem_nil, or_false] at hc
      rcases hc with rfl | rfl | rfl <;> exact base64_encode_ne_pad _
    | a :: b :: c :: rest, hb =>
      simp only [List.length_cons] at hb
      obtain ⟨body, pad, heq, hbody, hlen, htotal⟩ := ih rest.length (by omega) rest le_rfl
      refine ⟨base64.encode ((a <<< 16 ||| b <<< 8 ||| c) >>> 18) ::
        base64.encode ((a <<< 16 ||| b <<< 8 ||| c) >>> 12) ::
        base64.encode ((a <<< 16 ||| b <<< 8 ||| c) >>> 6) ::
        base64.encode (a <<< 16 ||| b <<< 8 ||| c) :: body, pad, ?_, ?_, ?_, ?_⟩
      · show base64.EncodeToString (a :: b :: c :: rest) = _
        rw [base64.EncodeToString, heq]
        rfl
      · intro x hx
        simp only [List.mem_cons] at hx
        rcases hx with rfl | rfl | rfl | rfl | hx
        · exact base64_encode_ne_pad _
        · exact base64_encode_ne_pad _
        · exact base64_encode_ne_pad _
        · exact base64_encode_ne_pad _
        · exact hbody x hx
      · simp only [List.length_cons]
        omega
      · simp only [List.cons_append, List.length_cons] at htotal ⊢
        omega

/-- C30: for every length `n ≥ 0`, when `rand.Read` fills the buffer of `n`
bytes, `GenerateRandomString n` returns a string (the slice does not panic)
of exactly `n` characters, none of which is the padding `=`; the encoding of
the `n` bytes has at least `n` characters. -/
theorem GenerateRandomString_length (length : Int) (b : List Nat)
    (hlength : 0 ≤ length) (hread : (b.length : Int) = length) :
    ∃ s, GenerateRandomString length (.ok b) = .ok s ∧ (s.length : Int) = length ∧
      '=' ∉ s.data ∧ length ≤ ((base64.EncodeToString b).length : Int) := by
  obtain ⟨body, pad, heq, hbody, hlen, -⟩ := EncodeToString_split b.length b le_rfl
  have hn : length.toNat = b.length := by omega
  have hle : length.toNat ≤ (base64.EncodeToString b).length := by
    rw [heq, List.length_append]
    omega
  refine ⟨String.mk ((base64.EncodeToString b).take length.toNat), ?_, ?_, ?_, ?_⟩
  · unfold GenerateRandomString
    rw [if_neg (by omega)]
    dsimp only
    rw [if_pos hle]
  · show (((base64.EncodeToString b).take length.toNat).length : Int) = length
    rw [List.length_take, Nat.min_eq_left hle]
    omega
  · show '=' ∉ (base64.EncodeToString b).take length.toNat
    rw [heq, List.take_append_of_le_length (by omega)]
    intro hmem
    exact hbody _ (List.mem_of_mem_take hmem) rfl
  · omega

/-- C30 at five bytes: the encoding `__79_Ps=` is cut to `__79_`. -/
theorem GenerateRandomString_length_example :
    ∃ s, GenerateRandomString 5 (.ok [255, 254, 253, 252, 251]) = .ok s ∧
      (s.length : Int) = 5 ∧ '=' ∉ s.data ∧
      (5 : Int) ≤ ((base64.EncodeToString [255, 254, 253, 252, 251]).length : Int) :=
  GenerateRandomString_length 5 [255, 254, 253, 252, 251] (by decide) (by decide)
end A0Otpus
